import Mathlib

set_option maxHeartbeats 1600000

/-! # A shallow embedding of the ObjectAllocator memory-pool allocator

The definitions below translate src/code/ObjectAllocator.cpp.  Machine
integers are modelled as `Nat`, with explicit reduction modulo `2 ^ 32`
wherever the source performs `unsigned` arithmetic that can wrap.  Page
memory is modelled as a byte map `Nat → Nat` indexed by the offset from
the start of the page; a pointer is modelled as a pair
`(page id, offset)`, page ids playing the role of the pairwise disjoint
base addresses of the pages.  The separately heap-allocated records of
the external header flavor are not modelled (nothing in the claims
observes them); the header bytes that hold the owning pointer are
tracked as null / non-null sentinel bytes. -/

/-- Byte values stored in page memory; the allocator stores values
`< 256`, plus the sentinel `PTR_BYTE` standing for bytes of an
intrusive pointer, whose concrete value the source never inspects. -/
abbrev Byte := Nat

/-- `PTR_SIZE` = `sizeof(void *)` on the reference 64-bit platform. -/
def PTR_SIZE : Nat := 8

/-- Modelled from the spec: the debug byte patterns live in the missing
header ObjectAllocator.h; the spec fixes no concrete values but requires
them to be pairwise distinct. -/
def UNALLOCATED_PATTERN : Byte := 0xAA

/-- Modelled from the spec: payload bytes at the time of return to the client. -/
def ALLOCATED_PATTERN : Byte := 0xBB

/-- Modelled from the spec: payload bytes after Free. -/
def FREED_PATTERN : Byte := 0xCC

/-- Modelled from the spec: left and right pad bytes. -/
def PAD_PATTERN : Byte := 0xDD

/-- Modelled from the spec: alignment slack bytes. -/
def ALIGN_PATTERN : Byte := 0xEE

/-- Sentinel for payload bytes that currently hold an intrusive
pointer (`GenericObject::Next`).  The source never reads these bytes as
data, so their concrete value is irrelevant; the sentinel is outside
the byte range so that it cannot collide with any pattern. -/
def PTR_BYTE : Byte := 0x100

/-- Modelled from the spec: `OAConfig::BASIC_HEADER_SIZE` from the
missing header, the width of the allocation number (4 bytes) plus the
in-use flag (1 byte).  The value 5 is forced by the source itself:
`DumpMemoryInUse` reads the in-use flag at `obj - PadBytes_ - 1`, the
last header byte, and `Allocate` writes the flag 4 bytes past the start
of the basic header, so the basic header is 4 + 1 bytes wide. -/
def BASIC_HEADER_SIZE : Nat := 5

/-- `2 ^ 32`, the modulus of the `unsigned` counters. -/
def M32 : Nat := 4294967296

/-- `unsigned` increment. -/
def inc32 (n : Nat) : Nat := (n + 1) % M32

/-- `unsigned` decrement (wraps at zero, as the source's `--` does). -/
def dec32 (n : Nat) : Nat := (n + (M32 - 1)) % M32

/-- `align` from ObjectAllocator.cpp: the size `sz` rounded up to a
multiple of `alignment`, no rounding when `alignment = 0`. -/
def align (sz alignment : Nat) : Nat :=
  if alignment = 0 then sz
  else alignment * (sz / alignment + (if sz % alignment = 0 then 0 else 1))

/-- `OAConfig::HBLOCK_TYPE` from the missing header (the four header
flavors, as listed by the spec). -/
inductive HBLOCK_TYPE
  | hbNone
  | hbBasic
  | hbExtended
  | hbExternal
deriving DecidableEq

/-- `OAConfig::HeaderBlockInfo`: the header flavor, its total byte width
`size_`, and the user-data width `additional_` of the extended flavor.
`size_` arrives precomputed inside the configuration, as in the source,
where the missing header computes it from the flavor. -/
structure HeaderBlockInfo where
  type_ : HBLOCK_TYPE
  size_ : Nat
  additional_ : Nat

/-- Modelled from the spec: the header width each flavor configures
(missing header).  none has no header; basic holds an allocation number
and a flag; extended prepends `additional_` user bytes and a 2-byte use
count; external holds one pointer. -/
def HeaderBlockInfo.mk4 (t : HBLOCK_TYPE) (additional : Nat) : HeaderBlockInfo :=
  match t with
  | .hbNone => ⟨t, 0, additional⟩
  | .hbBasic => ⟨t, BASIC_HEADER_SIZE, additional⟩
  | .hbExtended => ⟨t, additional + 2 + BASIC_HEADER_SIZE, additional⟩
  | .hbExternal => ⟨t, PTR_SIZE, additional⟩

/-- `OAConfig` (missing header): the construction-time configuration.
`LeftAlignSize_` and `InterAlignSize_` are filled in by the constructor. -/
structure OAConfig where
  UseCPPMemManager_ : Bool
  ObjectsPerPage_ : Nat
  MaxPages_ : Nat
  DebugOn_ : Bool
  PadBytes_ : Nat
  HBlockInfo_ : HeaderBlockInfo
  Alignment_ : Nat
  LeftAlignSize_ : Nat
  InterAlignSize_ : Nat

/-- `OAStats` (missing header): the statistics record, zero-initialised.
All counters are `unsigned` (values `< 2 ^ 32`); `ObjectSize_` and
`PageSize_` are `size_t`. -/
structure OAStats where
  ObjectSize_ : Nat
  PageSize_ : Nat
  FreeObjects_ : Nat
  ObjectsInUse_ : Nat
  PagesInUse_ : Nat
  MostObjects_ : Nat
  Allocations_ : Nat
  Deallocations_ : Nat

/-- The all-zero statistics record the (missing) header constructs. -/
def OAStats.init : OAStats := ⟨0, 0, 0, 0, 0, 0, 0, 0⟩

/-- `OAException::OA_EXCEPTION`: the error taxonomy. -/
inductive OAException
  | E_NO_MEMORY
  | E_NO_PAGES
  | E_BAD_BOUNDARY
  | E_MULTIPLE_FREE
  | E_CORRUPTED_BLOCK
deriving DecidableEq

/-- One page: its id (standing for its base address; distinct pages have
distinct ids) and its byte contents, indexed by offset from the page
start. -/
structure Page where
  id : Nat
  mem : Nat → Byte

/-- A pointer: the id of the page it points into and the byte offset
from that page's start.  An offset `≥ PageSize_` models an address
outside every page. -/
abbrev Ptr := Nat × Nat

/-- The allocator: configuration, statistics, the page list (head =
newest page, as `PageList_` points at the newest), the free list (head =
`FreeList_`; the intrusive `Next` chain is represented by the list
structure), the cached geometry values, and a supply of fresh page ids. -/
structure OAState where
  configuration : OAConfig
  stats : OAStats
  PageList_ : List Page
  FreeList_ : List Ptr
  pageHeader : Nat
  dataSize : Nat
  totalDataSize : Nat
  nextPageId : Nat

instance : Inhabited OAState :=
  ⟨⟨⟨false, 0, 0, false, 0, ⟨.hbNone, 0, 0⟩, 0, 0, 0⟩, OAStats.init, [], [], 0, 0, 0, 0⟩⟩

/-- `memset(m + start, v, len)`: write `v` over the offset range
`[start, start + len)`. -/
def setRange (m : Nat → Byte) (start len : Nat) (v : Byte) : Nat → Byte :=
  fun i => if start ≤ i ∧ i < start + len then v else m i

/-- Write a single byte. -/
def setByte (m : Nat → Byte) (i : Nat) (v : Byte) : Nat → Byte :=
  fun j => if j = i then v else m j

/-- Store a 32-bit value little-endian (the reference platform's byte
order), as the source's `*(unsigned *)p = v` does. -/
def writeU32LE (m : Nat → Byte) (start v : Nat) : Nat → Byte :=
  fun i => if start ≤ i ∧ i < start + 4 then v / 256 ^ (i - start) % 256 else m i

/-- Read back a 32-bit little-endian value. -/
def readU32LE (m : Nat → Byte) (start : Nat) : Nat :=
  m start + m (start + 1) * 256 + m (start + 2) * 65536 + m (start + 3) * 16777216

/-- Read a 16-bit little-endian value (the extended header's use count). -/
def readU16LE (m : Nat → Byte) (start : Nat) : Nat :=
  m start + m (start + 1) * 256

/-- Apply `f` to the memory of the page with id `pid` (the store through
a pointer into that page). -/
def updatePage (ps : List Page) (pid : Nat) (f : (Nat → Byte) → (Nat → Byte)) : List Page :=
  ps.map (fun pg => if pg.id = pid then ⟨pg.id, f pg.mem⟩ else pg)

/-- The memory of the page with id `pid` (a load through a pointer into
that page); all-zero if no such page is listed. -/
def pageMem (ps : List Page) (pid : Nat) : Nat → Byte :=
  match ps.find? (fun pg => pg.id == pid) with
  | some pg => pg.mem
  | none => fun _ => 0

/-- `ObjectAllocator::AddToFreeList`: push `obj` at the head of the free
list, store the old head into the object's first `PTR_SIZE` payload
bytes (`obj->Next = temp`), and increment `FreeObjects_`. -/
def AddToFreeList (s : OAState) (obj : Ptr) : OAState :=
  { s with
    FreeList_ := obj :: s.FreeList_
    PageList_ := updatePage s.PageList_ obj.1 (fun m => setRange m obj.2 PTR_SIZE PTR_BYTE)
    stats := { s.stats with FreeObjects_ := inc32 s.stats.FreeObjects_ } }

/-- The per-block initialisation loop of `ObjectAllocator::AllocateNewPage`:
starting at offset `pageHeader`, while the offset is below `PageSize_`,
zero the block's header bytes, push the payload address onto the free
list, and under debug paint the payload (past the intrusive pointer) and
both pads; then advance by `dataSize`.  The loop terminates through its
offset test; `fuel` only bounds the recursion and is chosen large enough
at the call site. -/
def initBlocks (s : OAState) (pid : Nat) (offset : Nat) (fuel : Nat) : OAState :=
  match fuel with
  | 0 => s
  | Nat.succ fuel =>
    if offset < s.stats.PageSize_ then
      let P := s.configuration.PadBytes_
      let H := s.configuration.HBlockInfo_.size_
      let S := s.stats.ObjectSize_
      let s1 := { s with
        PageList_ := updatePage s.PageList_ pid (fun m => setRange m (offset - P - H) H 0) }
      let s2 := AddToFreeList s1 (pid, offset)
      let s3 := { s2 with
        PageList_ :=
          if s2.configuration.DebugOn_ = true then
            updatePage s2.PageList_ pid (fun m =>
              setRange
                (setRange
                  (setRange m (offset + PTR_SIZE) (S - PTR_SIZE) UNALLOCATED_PATTERN)
                  (offset - P) P PAD_PATTERN)
                (offset + S) P PAD_PATTERN)
          else s2.PageList_ }
      initBlocks s3 pid (offset + s.dataSize) fuel
    else s

/-- The byte contents of a freshly requested page before its blocks are
set up: the raw region is zero-initialised and `memset` to 0 (ALIGN
under debug) over `[0, PageSize_)`, then the old page-list head is
stored in the leading pointer slot (`newPage->Next = page`). -/
def freshPageMem (s : OAState) : Nat → Byte :=
  setRange
    (fun i => if i < s.stats.PageSize_
      then (if s.configuration.DebugOn_ then ALIGN_PATTERN else 0) else 0)
    0 PTR_SIZE PTR_BYTE

/-- The allocator right after a fresh raw page has been linked at the
head of the page list and `PagesInUse_` bumped, before the per-block
initialisation loop runs. -/
def newPageState (s : OAState) : OAState :=
  { s with
    stats := { s.stats with PagesInUse_ := inc32 s.stats.PagesInUse_ }
    PageList_ := ⟨s.nextPageId, freshPageMem s⟩ :: s.PageList_
    nextPageId := s.nextPageId + 1 }

/-- `ObjectAllocator::AllocateNewPage`.  `memOK` models whether the host
allocator can satisfy the raw `new`; on `false` the `std::bad_alloc`
branch rethrows `E_NO_MEMORY`.  Both errors are raised before any state
mutation, so the state is returned unchanged alongside them. -/
def AllocateNewPage (s : OAState) (memOK : Bool) : Option OAException × OAState :=
  if s.configuration.MaxPages_ ≤ s.stats.PagesInUse_ then
    (some OAException.E_NO_PAGES, s)
  else if memOK = false then
    (some OAException.E_NO_MEMORY, s)
  else
    (none, initBlocks (newPageState s) s.nextPageId s.pageHeader
      (s.configuration.ObjectsPerPage_ + 1))

/-- The allocator state the constructor builds before it allocates the
starting page: the geometry (`pageHeader`, `dataSize`, `PageSize_`,
`totalDataSize`) and the two alignment-slack fields of the stored
configuration, with empty page and free lists and zeroed statistics.
The `unsigned` subtraction `ObjectsPerPage_ - 1` is taken modulo
`2 ^ 32`, as in the source. -/
def constructPre (ObjectSize : Nat) (config : OAConfig) : OAState :=
  let unalignedPageHeader := PTR_SIZE + config.HBlockInfo_.size_ + config.PadBytes_
  let pageHeader := align unalignedPageHeader config.Alignment_
  let dataSize := align (ObjectSize + config.PadBytes_ * 2 + config.HBlockInfo_.size_)
    config.Alignment_
  let nm1 := (config.ObjectsPerPage_ + (M32 - 1)) % M32
  let PageSize := pageHeader + dataSize * nm1 + ObjectSize + config.PadBytes_
  let totalDataSize := dataSize * nm1 + ObjectSize + config.PadBytes_
  let midBlockSize := ObjectSize + config.PadBytes_ * 2 + config.HBlockInfo_.size_
  let configuration := { config with
    LeftAlignSize_ := pageHeader - unalignedPageHeader
    InterAlignSize_ := align midBlockSize config.Alignment_ - midBlockSize }
  { configuration := configuration
    stats := { OAStats.init with ObjectSize_ := ObjectSize, PageSize_ := PageSize }
    PageList_ := []
    FreeList_ := []
    pageHeader := pageHeader
    dataSize := dataSize
    totalDataSize := totalDataSize
    nextPageId := 0 }

/-- `ObjectAllocator::ObjectAllocator`: compute the page geometry and
allocate the starting page.  A thrown construction error is modelled as
`Except.error`. -/
def construct (ObjectSize : Nat) (config : OAConfig) (memOK : Bool) : Except OAException OAState :=
  match AllocateNewPage (constructPre ObjectSize config) memOK with
  | (some e, _) => Except.error e
  | (none, s1) => Except.ok s1

/-- The untangling of an `Except` that is known to be `ok`; the junk
default is never reached where this is used under an `isOk` hypothesis. -/
def exState (r : Except OAException OAState) : OAState :=
  match r with
  | .ok s => s
  | .error _ => default

/-- Whether an `Except` result is a success. -/
def isOk (r : Except OAException OAState) : Bool :=
  match r with
  | .ok _ => true
  | .error _ => false

/-- `ObjectAllocator::CheckPageBoundary` as a predicate: `true` when the
pointer lies within the byte range of some listed page (so the check
does not throw `E_BAD_BOUNDARY`). -/
def CheckPageBoundary (s : OAState) (obj : Ptr) : Bool :=
  s.PageList_.any (fun pg => pg.id == obj.1 && decide (obj.2 < s.stats.PageSize_))

/-- `ObjectAllocator::CheckPadding` as a predicate: `true` when all
`PadBytes_` bytes of both pads around the payload still carry
`PAD_PATTERN` (so the check does not throw `E_CORRUPTED_BLOCK`).  The
source scans the left pad and, once it survives, the right pad; the
check throws exactly when some byte of either pad deviates. -/
def CheckPadding (s : OAState) (obj : Ptr) : Bool :=
  let P := s.configuration.PadBytes_
  let S := s.stats.ObjectSize_
  let m := pageMem s.PageList_ obj.1
  ((List.range P).all fun i => m (obj.2 - P + i) == PAD_PATTERN) &&
  ((List.range P).all fun i => m (obj.2 + S + i) == PAD_PATTERN)

/-- The header bookkeeping of `ObjectAllocator::Allocate`, performed
after the statistics update, so `s.stats.Allocations_` is already the
post-increment allocation number that gets written.  basic: store the
allocation number and set the flag byte after it; extended: increment
one byte of the use count (the source's `++(*headerStart)` on an
`unsigned char *`, with `additional_` narrowed to `unsigned char`),
then store the allocation number 2 bytes later and set the flag after
it; external: store a fresh non-null record pointer. -/
def allocHeaderUpdate (s : OAState) (obj : Ptr) : OAState :=
  match s.configuration.HBlockInfo_.type_ with
  | .hbNone => s
  | .hbBasic =>
    { s with PageList_ := updatePage s.PageList_ obj.1 (fun m =>
        setByte
          (writeU32LE m (obj.2 - s.configuration.PadBytes_ - s.configuration.HBlockInfo_.size_)
            s.stats.Allocations_)
          (obj.2 - s.configuration.PadBytes_ - s.configuration.HBlockInfo_.size_ + 4) 1) }
  | .hbExtended =>
    { s with PageList_ := updatePage s.PageList_ obj.1 (fun m =>
        setByte
          (writeU32LE
            (setByte m
              (obj.2 - s.configuration.PadBytes_ - s.configuration.HBlockInfo_.size_ +
                s.configuration.HBlockInfo_.additional_ % 256)
              ((m (obj.2 - s.configuration.PadBytes_ - s.configuration.HBlockInfo_.size_ +
                s.configuration.HBlockInfo_.additional_ % 256) + 1) % 256))
            (obj.2 - s.configuration.PadBytes_ - s.configuration.HBlockInfo_.size_ +
              s.configuration.HBlockInfo_.additional_ % 256 + 2)
            s.stats.Allocations_)
          (obj.2 - s.configuration.PadBytes_ - s.configuration.HBlockInfo_.size_ +
            s.configuration.HBlockInfo_.additional_ % 256 + 6) 1) }
  | .hbExternal =>
    { s with PageList_ := updatePage s.PageList_ obj.1 (fun m =>
        setRange m (obj.2 - s.configuration.PadBytes_ - s.configuration.HBlockInfo_.size_)
          PTR_SIZE PTR_BYTE) }

/-- The passthrough branch of `ObjectAllocator::Allocate`: count the
heap block (`ObjectsInUse_`, `MostObjects_`, `Allocations_` up,
`FreeObjects_` down) and hand out a fresh id standing for the heap
pointer `new` returns. -/
def passthroughAlloc (s : OAState) : OAState :=
  { s with
    nextPageId := s.nextPageId + 1
    stats := { s.stats with
      ObjectsInUse_ := inc32 s.stats.ObjectsInUse_
      MostObjects_ :=
        if s.stats.MostObjects_ < inc32 s.stats.ObjectsInUse_ then inc32 s.stats.ObjectsInUse_
        else s.stats.MostObjects_
      Allocations_ := inc32 s.stats.Allocations_
      FreeObjects_ := dec32 s.stats.FreeObjects_ } }

/-- The state after `ObjectAllocator::Allocate` pops `obj` off the free
list: the payload is painted with `ALLOCATED_PATTERN` under debug, the
statistics are updated (so `Allocations_` is already the post-increment
value), and then the header is written for the configured flavor. -/
def allocFromFree (s1 : OAState) (obj : Ptr) (rest : List Ptr) : OAState :=
  allocHeaderUpdate
    { s1 with
      FreeList_ := rest
      PageList_ :=
        if s1.configuration.DebugOn_ = true then
          updatePage s1.PageList_ obj.1 (fun m =>
            setRange m obj.2 s1.stats.ObjectSize_ ALLOCATED_PATTERN)
        else s1.PageList_
      stats := { s1.stats with
        ObjectsInUse_ := inc32 s1.stats.ObjectsInUse_
        Allocations_ := inc32 s1.stats.Allocations_
        FreeObjects_ := dec32 s1.stats.FreeObjects_
        MostObjects_ :=
          if s1.stats.MostObjects_ < inc32 s1.stats.ObjectsInUse_ then
            inc32 s1.stats.ObjectsInUse_
          else s1.stats.MostObjects_ } } obj

/-- The free-list pop of `ObjectAllocator::Allocate`.  The empty case is
unreachable whenever the preceding page growth put at least one block on
the free list; the source dereferences a null pointer there, modelled as
a junk success. -/
def allocPop (s1 : OAState) : Except OAException Ptr × OAState :=
  match s1.FreeList_ with
  | [] => (Except.ok (0, 0), s1)
  | obj :: rest => (Except.ok obj, allocFromFree s1 obj rest)

/-- `ObjectAllocator::Allocate`.  `memOK` models host-allocator success
for the passthrough `new` and for a fresh page.  In passthrough mode a
fresh id stands for the heap pointer.  Otherwise a page is grown when
the free list is empty (propagating its errors with the state they left
behind), and the free-list head is popped.  The label argument of the
source feeds only the external info record, which is not modelled (see
the module comment), and the external record allocation is modelled as
always succeeding. -/
def Allocate (s : OAState) (memOK : Bool) : Except OAException Ptr × OAState :=
  if s.configuration.UseCPPMemManager_ = true then
    if memOK = false then (Except.error OAException.E_NO_MEMORY, s)
    else (Except.ok (s.nextPageId, 0), passthroughAlloc s)
  else if s.FreeList_.isEmpty = true then
    match AllocateNewPage s memOK with
    | (some e, s1) => (Except.error e, s1)
    | (none, s1) => allocPop s1
  else allocPop s

/-- The header bookkeeping of `ObjectAllocator::Free`.  basic: zero the
`BASIC_HEADER_SIZE` header bytes; extended: zero the
`BASIC_HEADER_SIZE` bytes past the user data and the use count (which
both survive); external: destroy the record and null the stored
pointer. -/
def freeHeaderUpdate (s : OAState) (obj : Ptr) : OAState :=
  match s.configuration.HBlockInfo_.type_ with
  | .hbNone => s
  | .hbBasic =>
    { s with PageList_ := updatePage s.PageList_ obj.1 (fun m =>
        setRange m (obj.2 - s.configuration.PadBytes_ - s.configuration.HBlockInfo_.size_)
          BASIC_HEADER_SIZE 0) }
  | .hbExtended =>
    { s with PageList_ := updatePage s.PageList_ obj.1 (fun m =>
        setRange m
          (obj.2 - s.configuration.PadBytes_ - s.configuration.HBlockInfo_.size_ +
            s.configuration.HBlockInfo_.additional_ + 2)
          BASIC_HEADER_SIZE 0) }
  | .hbExternal =>
    { s with PageList_ := updatePage s.PageList_ obj.1 (fun m =>
        setRange m (obj.2 - s.configuration.PadBytes_ - s.configuration.HBlockInfo_.size_)
          PTR_SIZE 0) }

/-- `ObjectAllocator::Free`.  `Deallocations_` and `ObjectsInUse_` are
updated unconditionally at entry.  Passthrough mode then just releases
the heap block.  Under debug the boundary, pad and double-free checks
run in order, each raising its exception with the entry-time statistics
already applied and nothing else changed; the double-free check reads
the payload byte at offset `PTR_SIZE`.  A surviving Free paints the
payload with `FREED_PATTERN` (debug only), resets the header, and
pushes the block back at the free-list head. -/
def freeFinish (s0 : OAState) (obj : Ptr) : OAState :=
  AddToFreeList
    (freeHeaderUpdate
      { s0 with
        PageList_ :=
          if s0.configuration.DebugOn_ = true then
            updatePage s0.PageList_ obj.1 (fun m =>
              setRange m obj.2 s0.stats.ObjectSize_ FREED_PATTERN)
          else s0.PageList_ } obj)
    obj

def freeInner (s0 : OAState) (obj : Ptr) : Option OAException × OAState :=
  if s0.configuration.UseCPPMemManager_ = true then (none, s0)
  else if s0.configuration.DebugOn_ = true && !CheckPageBoundary s0 obj then
    (some OAException.E_BAD_BOUNDARY, s0)
  else if s0.configuration.DebugOn_ = true && !CheckPadding s0 obj then
    (some OAException.E_CORRUPTED_BLOCK, s0)
  else if s0.configuration.DebugOn_ = true &&
      pageMem s0.PageList_ obj.1 (obj.2 + PTR_SIZE) == FREED_PATTERN then
    (some OAException.E_MULTIPLE_FREE, s0)
  else
    (none, freeFinish s0 obj)

def Free (s : OAState) (obj : Ptr) : Option OAException × OAState :=
  freeInner
    { s with stats := { s.stats with
      Deallocations_ := inc32 s.stats.Deallocations_
      ObjectsInUse_ := dec32 s.stats.ObjectsInUse_ } }
    obj

/-- The free-list walk of `ObjectAllocator::IsPageEmpty`: count the
free-list nodes lying within the page, returning `true` as soon as the
count reaches `ObjectsPerPage_`. -/
def isPageEmptyLoop (freeList : List Ptr) (pgid PageSize N i : Nat) : Bool :=
  match freeList with
  | [] => false
  | q :: rest =>
    if q.1 = pgid ∧ q.2 < PageSize then
      if N ≤ i + 1 then true else isPageEmptyLoop rest pgid PageSize N (i + 1)
    else isPageEmptyLoop rest pgid PageSize N i

/-- `ObjectAllocator::IsPageEmpty`. -/
def IsPageEmpty (s : OAState) (pg : Page) : Bool :=
  isPageEmptyLoop s.FreeList_ pg.id s.stats.PageSize_ s.configuration.ObjectsPerPage_ 0

/-- The two unlink loops of `ObjectAllocator::FreePage` merged into one
recursion: drop every free-list node lying within the page (the source
first pops matching heads, then unlinks matching interior nodes with a
trailing pointer — the combined effect realised here), and count the
removals. -/
def removeInPage (freeList : List Ptr) (pgid PageSize : Nat) : List Ptr × Nat :=
  match freeList with
  | [] => ([], 0)
  | q :: rest =>
    let r := removeInPage rest pgid PageSize
    if q.1 = pgid ∧ q.2 < PageSize then (r.1, r.2 + 1) else (q :: r.1, r.2)

/-- `ObjectAllocator::FreePage`: unlink every free-list node within the
page, decrementing `FreeObjects_` once per removal, release the page
(its unlinking from the page list is done by the caller, as in the
source) and decrement `PagesInUse_`. -/
def FreePage (s : OAState) (pg : Page) : OAState :=
  let r := removeInPage s.FreeList_ pg.id s.stats.PageSize_
  { s with
    FreeList_ := r.1
    stats := { s.stats with
      FreeObjects_ := dec32^[r.2] s.stats.FreeObjects_
      PagesInUse_ := dec32 s.stats.PagesInUse_ } }

/-- The first loop of `ObjectAllocator::FreeEmptyPages`: pop empty pages
from the head of the page list; stop at the first non-empty head.
Returns the surviving page-list suffix, the number of pages freed, and
the state (whose `PageList_` field is rebuilt by the caller). -/
def feLoop1 (pages : List Page) (s : OAState) : List Page × Nat × OAState :=
  match pages with
  | [] => ([], 0, s)
  | pg :: rest =>
    if IsPageEmpty s pg then
      let s1 := FreePage s pg
      let r := feLoop1 rest s1
      (r.1, r.2.1 + 1, r.2.2)
    else (pg :: rest, 0, s)

/-- The second loop of `ObjectAllocator::FreeEmptyPages`: scan the pages
after the kept head with a trailing pointer, unlinking and freeing every
empty page.  Returns the kept pages, the number freed, and the state. -/
def feLoop2 (pages : List Page) (s : OAState) : List Page × Nat × OAState :=
  match pages with
  | [] => ([], 0, s)
  | pg :: rest =>
    if IsPageEmpty s pg then
      let s1 := FreePage s pg
      let r := feLoop2 rest s1
      (r.1, r.2.1 + 1, r.2.2)
    else
      let r := feLoop2 rest s
      (pg :: r.1, r.2.1, r.2.2)

/-- `ObjectAllocator::FreeEmptyPages`: returns the number of pages freed
and the resulting state. -/
def FreeEmptyPages (s : OAState) : Nat × OAState :=
  match s.PageList_ with
  | [] => (0, s)
  | _ =>
    let r1 := feLoop1 s.PageList_ s
    match r1.1 with
    | [] => (r1.2.1, { r1.2.2 with PageList_ := [] })
    | pg :: rest =>
      let r2 := feLoop2 rest r1.2.2
      (r1.2.1 + r2.2.1, { r2.2.2 with PageList_ := pg :: r2.1 })

/-- The per-page block scan of `ObjectAllocator::DumpMemoryInUse`: for
each of the `ObjectsPerPage_` blocks, under the basic and extended
flavors read the in-use flag at `obj - PadBytes_ - 1` and report the
block when it is set; the none and external flavors report nothing.
Returns the payload pointers passed to the callback, in scan order. -/
def dumpPage (s : OAState) (pg : Page) : List Ptr :=
  (List.range s.configuration.ObjectsPerPage_).filterMap fun i =>
    let off := s.pageHeader + i * s.dataSize
    match s.configuration.HBlockInfo_.type_ with
    | .hbBasic | .hbExtended =>
      if pg.mem (off - s.configuration.PadBytes_ - 1) ≠ 0 then some (pg.id, off) else none
    | _ => none

/-- The page walk of `DumpMemoryInUse`, newest page first. -/
def dumpPages (s : OAState) (pages : List Page) : List Ptr :=
  match pages with
  | [] => []
  | pg :: rest => dumpPage s pg ++ dumpPages s rest

/-- `ObjectAllocator::DumpMemoryInUse`: the callback invocations in
order (one per leaked block, each with the payload pointer) and the
returned leak count, which the source increments in lockstep with each
callback call. -/
def DumpMemoryInUse (s : OAState) : Nat × List Ptr :=
  let calls := dumpPages s s.PageList_
  (calls.length, calls)

/-- `ObjectAllocator::SetDebugState`. -/
def SetDebugState (s : OAState) (State : Bool) : OAState :=
  { s with configuration := { s.configuration with DebugOn_ := State } }

/-- `ObjectAllocator::GetFreeList`. -/
def GetFreeList (s : OAState) : List Ptr := s.FreeList_

/-- `ObjectAllocator::GetPageList`. -/
def GetPageList (s : OAState) : List Page := s.PageList_

/-- `ObjectAllocator::GetStats`. -/
def GetStats (s : OAState) : OAStats := s.stats

/-- `ObjectAllocator::GetConfig`. -/
def GetConfig (s : OAState) : OAConfig := s.configuration

/-! ## Arithmetic facts about the helpers -/

theorem M32_pos : 0 < M32 := by norm_num [M32]

theorem inc32_lt (x : Nat) : inc32 x < M32 := Nat.mod_lt _ M32_pos

theorem dec32_lt (x : Nat) : dec32 x < M32 := Nat.mod_lt _ M32_pos

theorem inc32_eq (x : Nat) : inc32 x = (x + 1) % M32 := rfl

theorem iterate_inc32 (n : Nat) : ∀ x : Nat, x < M32 → inc32^[n] x = (x + n) % M32 := by
  induction n with
  | zero => intro x hx; simpa using (Nat.mod_eq_of_lt hx).symm
  | succ n ih =>
    intro x hx
    rw [Function.iterate_succ_apply]
    rw [ih (inc32 x) (inc32_lt x)]
    show ((x + 1) % M32 + n) % M32 = (x + (n + 1)) % M32
    rw [Nat.mod_add_mod]
    congr 1
    omega

theorem align_ge (sz a : Nat) : sz ≤ align sz a := by
  unfold align
  split
  · exact Nat.le_refl sz
  · rename_i ha
    have ha0 : 0 < a := Nat.pos_of_ne_zero ha
    split
    · rename_i hmod
      have hsz : a * (sz / a) = sz := Nat.mul_div_cancel' (Nat.dvd_of_mod_eq_zero hmod)
      simp [hsz]
    · have h1 := Nat.div_add_mod sz a
      have h2 : sz % a < a := Nat.mod_lt _ ha0
      rw [Nat.mul_add, Nat.mul_one]
      linarith

theorem align_eq_ceil (sz a : Nat) (ha : a ≠ 0) : align sz a = a * ((sz + a - 1) / a) := by
  have ha0 : 0 < a := Nat.pos_of_ne_zero ha
  unfold align
  rw [if_neg ha]
  congr 1
  by_cases h : sz % a = 0
  · rw [if_pos h, Nat.add_zero]
    have hsz : a * (sz / a) = sz := Nat.mul_div_cancel' (Nat.dvd_of_mod_eq_zero h)
    conv_rhs => rw [← hsz]
    generalize sz / a = q
    rw [Nat.add_sub_assoc (by omega : 1 ≤ a), Nat.mul_add_div ha0,
      Nat.div_eq_of_lt (by omega), Nat.add_zero]
  · rw [if_neg h]
    have h1 := Nat.div_add_mod sz a
    have h2 : sz % a < a := Nat.mod_lt _ ha0
    have h3 : 1 ≤ sz % a := Nat.one_le_iff_ne_zero.mpr h
    conv_rhs => rw [← h1]
    generalize sz / a = q at *
    generalize hr : sz % a = r at *
    have hre : a * q + r + a - 1 = a * q + (r + a - 1) := by omega
    rw [hre, Nat.mul_add_div ha0]
    have hre2 : r + a - 1 = (r - 1) + a * 1 := by omega
    have : (r + a - 1) / a = 1 := by
      rw [hre2, Nat.add_mul_div_left _ _ ha0, Nat.div_eq_of_lt (by omega)]
    rw [this]

/-! ## Reading back through the memory write helpers -/

theorem setRange_in (m : Nat → Byte) (start len v i : Nat)
    (h1 : start ≤ i) (h2 : i < start + len) : setRange m start len v i = v := by
  simp [setRange, h1, h2]

theorem setRange_out (m : Nat → Byte) (start len v i : Nat)
    (h : i < start ∨ start + len ≤ i) : setRange m start len v i = m i := by
  unfold setRange
  rw [if_neg]
  omega

theorem setByte_eq (m : Nat → Byte) (i v : Nat) : setByte m i v i = v := by
  simp [setByte]

theorem setByte_ne (m : Nat → Byte) (i v j : Nat) (h : j ≠ i) : setByte m i v j = m j := by
  simp [setByte, h]

theorem writeU32LE_out (m : Nat → Byte) (start v i : Nat)
    (h : i < start ∨ start + 4 ≤ i) : writeU32LE m start v i = m i := by
  unfold writeU32LE
  rw [if_neg]
  omega

theorem writeU32LE_in (m : Nat → Byte) (start v i : Nat) (h1 : start ≤ i) (h2 : i < start + 4) :
    writeU32LE m start v i = v / 256 ^ (i - start) % 256 := by
  simp [writeU32LE, h1, h2]

/-- Reading back a stored 32-bit value recovers it modulo `2 ^ 32`. -/
theorem readU32LE_writeU32LE (m : Nat → Byte) (start v : Nat) :
    readU32LE (writeU32LE m start v) start = v % M32 := by
  unfold readU32LE
  rw [writeU32LE_in _ _ _ _ (Nat.le_refl _) (by omega),
    writeU32LE_in _ _ _ _ (by omega) (by omega),
    writeU32LE_in _ _ _ _ (by omega) (by omega),
    writeU32LE_in _ _ _ _ (by omega) (by omega)]
  simp only [Nat.sub_self]
  have e1 : start + 1 - start = 1 := by omega
  have e2 : start + 2 - start = 2 := by omega
  have e3 : start + 3 - start = 3 := by omega
  rw [e1, e2, e3]
  have : M32 = 256 ^ 4 := by norm_num [M32]
  rw [this]
  omega

/-! ## Characterising the block-initialisation loop -/

/-- The fields of the allocator that a page's block-initialisation loop
never touches (it only grows the free list, bumps `FreeObjects_`, and
writes page memory). -/
def StaticEq (t s : OAState) : Prop :=
  t.configuration = s.configuration ∧ t.pageHeader = s.pageHeader ∧ t.dataSize = s.dataSize ∧
  t.totalDataSize = s.totalDataSize ∧ t.nextPageId = s.nextPageId ∧
  t.stats.ObjectSize_ = s.stats.ObjectSize_ ∧ t.stats.PageSize_ = s.stats.PageSize_ ∧
  t.stats.PagesInUse_ = s.stats.PagesInUse_ ∧ t.stats.ObjectsInUse_ = s.stats.ObjectsInUse_ ∧
  t.stats.Allocations_ = s.stats.Allocations_ ∧
  t.stats.Deallocations_ = s.stats.Deallocations_ ∧
  t.stats.MostObjects_ = s.stats.MostObjects_

theorem staticEq_refl (s : OAState) : StaticEq s s :=
  ⟨rfl, rfl, rfl, rfl, rfl, rfl, rfl, rfl, rfl, rfl, rfl, rfl⟩

theorem staticEq_trans {a b c : OAState} (h1 : StaticEq a b) (h2 : StaticEq b c) :
    StaticEq a c := by
  obtain ⟨x1, x2, x3, x4, x5, x6, x7, x8, x9, x10, x11, x12⟩ := h1
  obtain ⟨y1, y2, y3, y4, y5, y6, y7, y8, y9, y10, y11, y12⟩ := h2
  exact ⟨x1.trans y1, x2.trans y2, x3.trans y3, x4.trans y4, x5.trans y5, x6.trans y6,
    x7.trans y7, x8.trans y8, x9.trans y9, x10.trans y10, x11.trans y11, x12.trans y12⟩

theorem initBlocks_static : ∀ fuel s pid offset, StaticEq (initBlocks s pid offset fuel) s := by
  intro fuel
  induction fuel with
  | zero => intro s pid offset; exact staticEq_refl _
  | succ fuel ih =>
    intro s pid offset
    simp only [initBlocks]
    split
    · exact staticEq_trans (ih _ _ _)
        ⟨rfl, rfl, rfl, rfl, rfl, rfl, rfl, rfl, rfl, rfl, rfl, rfl⟩
    · exact staticEq_refl _

/-- The payload offsets the loop pushes, newest (highest) first: block
`N - 1` down to block `j`, at offsets `PH + D · k`. -/
def pushedPtrs (pid PH D j N : Nat) : List Ptr :=
  ((List.range (N - j)).map fun t => ((pid, PH + D * (j + t)) : Ptr)).reverse

theorem initBlocks_freeList (N PH D S P : Nat) (hN : 1 ≤ N) (hS : 0 < S) (hD : S + P ≤ D) :
    ∀ fuel j s pid, j ≤ N → N - j < fuel →
    s.dataSize = D → s.stats.PageSize_ = PH + D * (N - 1) + S + P →
    (initBlocks s pid (PH + D * j) fuel).FreeList_ = pushedPtrs pid PH D j N ++ s.FreeList_
    ∧ (initBlocks s pid (PH + D * j) fuel).stats.FreeObjects_ =
      inc32^[N - j] s.stats.FreeObjects_ := by
  intro fuel
  induction fuel with
  | zero => intro j s pid hj hfuel _ _; omega
  | succ fuel ih =>
    intro j s pid hj hfuel hDs hPS
    by_cases hend : N = j
    · subst hend
      have e : D * N = D * (N - 1) + D := by
        cases N with
        | zero => omega
        | succ n => rw [Nat.succ_sub_one, Nat.mul_succ]
      have hcond : ¬ (PH + D * N < s.stats.PageSize_) := by
        rw [hPS]
        omega
      simp only [initBlocks]
      rw [if_neg hcond]
      simp [pushedPtrs, Nat.sub_self]
    · have hjN : j < N := Nat.lt_of_le_of_ne hj (fun h => hend h.symm)
      have e : D * (N - 1) = D * j + D * (N - 1 - j) := by
        rw [← Nat.mul_add]
        congr 1
        omega
      have hcond : PH + D * j < s.stats.PageSize_ := by
        rw [hPS]
        omega
      simp only [initBlocks]
      rw [if_pos hcond]
      have hstep : PH + D * j + s.dataSize = PH + D * (j + 1) := by
        rw [hDs]
        ring
      rw [hstep]
      refine ⟨((ih (j + 1) _ pid (by omega) (by omega) (by exact hDs) (by exact hPS)).1).trans
        ?_, ((ih (j + 1) _ pid (by omega) (by omega) (by exact hDs) (by exact hPS)).2).trans ?_⟩
      · show pushedPtrs pid PH D (j + 1) N ++ ((pid, PH + D * j) :: s.FreeList_) =
          pushedPtrs pid PH D j N ++ s.FreeList_
        have hr : N - j = (N - (j + 1)) + 1 := by omega
        unfold pushedPtrs
        rw [hr, List.range_succ_eq_map]
        simp only [List.map_cons, List.map_map, List.reverse_cons]
        have hfun : ((fun t => ((pid, PH + D * (j + 1 + t)) : Ptr)) : Nat → Ptr) =
            ((fun t => ((pid, PH + D * (j + t)) : Ptr)) ∘ Nat.succ) := by
          funext t
          simp only [Function.comp_apply, Nat.succ_eq_add_one]
          have ht : j + 1 + t = j + (t + 1) := by omega
          rw [ht]
        rw [hfun]
        simp
      · show inc32^[N - (j + 1)] (inc32 s.stats.FreeObjects_) =
          inc32^[N - j] s.stats.FreeObjects_
        have hr : N - j = (N - (j + 1)) + 1 := by omega
        rw [hr, Function.iterate_succ_apply]

theorem updatePage_ids (ps : List Page) (pid : Nat) (f : (Nat → Byte) → (Nat → Byte)) :
    (updatePage ps pid f).map Page.id = ps.map Page.id := by
  induction ps with
  | nil => rfl
  | cons pg rest ih =>
    simp only [updatePage, List.map_cons] at *
    have h1 : (if pg.id = pid then (⟨pg.id, f pg.mem⟩ : Page) else pg).id = pg.id := by
      split <;> rfl
    rw [h1, ih]

theorem initBlocks_pageIds : ∀ fuel s pid offset,
    (initBlocks s pid offset fuel).PageList_.map Page.id = s.PageList_.map Page.id := by
  intro fuel
  induction fuel with
  | zero => intro s pid offset; rfl
  | succ fuel ih =>
    intro s pid offset
    simp only [initBlocks]
    split
    · refine (ih _ _ _).trans ?_
      show (if _ = true then updatePage _ _ _ else _).map Page.id = _
      split <;> simp [AddToFreeList, updatePage_ids]
    · rfl

/-! ## Characterising `AllocateNewPage` and construction -/

theorem AllocateNewPage_noPages (s : OAState) (memOK : Bool)
    (h : s.configuration.MaxPages_ ≤ s.stats.PagesInUse_) :
    AllocateNewPage s memOK = (some OAException.E_NO_PAGES, s) := by
  unfold AllocateNewPage
  rw [if_pos h]

theorem AllocateNewPage_noMem (s : OAState)
    (h : s.stats.PagesInUse_ < s.configuration.MaxPages_) :
    AllocateNewPage s false = (some OAException.E_NO_MEMORY, s) := by
  unfold AllocateNewPage
  rw [if_neg (by omega), if_pos rfl]

theorem AllocateNewPage_ok (s : OAState)
    (h : s.stats.PagesInUse_ < s.configuration.MaxPages_) :
    AllocateNewPage s true = (none,
      initBlocks (newPageState s) s.nextPageId s.pageHeader
        (s.configuration.ObjectsPerPage_ + 1)) := by
  unfold AllocateNewPage
  rw [if_neg (by omega), if_neg (by simp)]

/-- The `unsigned` expression `ObjectsPerPage_ - 1` equals the exact
subtraction for any nonzero count that fits in 32 bits. -/
theorem nm1_eq (N : Nat) (h1 : 1 ≤ N) (h2 : N ≤ M32) :
    (N + (M32 - 1)) % M32 = N - 1 := by
  simp only [M32] at *
  omega

/-- A fully successful page growth: with a page slot available and
memory on hand, `AllocateNewPage` succeeds, pushes the `ObjectsPerPage_`
payload addresses of the fresh page (highest offset first) onto the
free list, counts them into `FreeObjects_`, increments `PagesInUse_`,
and leaves every other field as it was.  Needs a positive object size
(`ObjectSize_ = 0` makes the source's loop run one block short) and the
geometry relations the constructor establishes. -/
theorem AllocateNewPage_ok_char (s : OAState)
    (hcap : s.stats.PagesInUse_ < s.configuration.MaxPages_)
    (hN : 1 ≤ s.configuration.ObjectsPerPage_)
    (hS : 0 < s.stats.ObjectSize_)
    (hD : s.stats.ObjectSize_ + s.configuration.PadBytes_ ≤ s.dataSize)
    (hPS : s.stats.PageSize_ = s.pageHeader +
      s.dataSize * (s.configuration.ObjectsPerPage_ - 1) +
      s.stats.ObjectSize_ + s.configuration.PadBytes_) :
    (AllocateNewPage s true).1 = none
    ∧ (AllocateNewPage s true).2.FreeList_ =
        pushedPtrs s.nextPageId s.pageHeader s.dataSize 0 s.configuration.ObjectsPerPage_
          ++ s.FreeList_
    ∧ (AllocateNewPage s true).2.stats.FreeObjects_ =
        inc32^[s.configuration.ObjectsPerPage_] s.stats.FreeObjects_
    ∧ (AllocateNewPage s true).2.stats.PagesInUse_ = inc32 s.stats.PagesInUse_
    ∧ StaticEq (AllocateNewPage s true).2 (newPageState s)
    ∧ (AllocateNewPage s true).2.PageList_.map Page.id =
        s.nextPageId :: s.PageList_.map Page.id := by
  rw [AllocateNewPage_ok s hcap]
  have hbase := initBlocks_freeList s.configuration.ObjectsPerPage_ s.pageHeader s.dataSize
    s.stats.ObjectSize_ s.configuration.PadBytes_ hN hS hD
    (s.configuration.ObjectsPerPage_ + 1) 0 (newPageState s) s.nextPageId
    (by omega) (by omega) rfl (by simpa using hPS)
  have hzero : s.pageHeader + s.dataSize * 0 = s.pageHeader := by omega
  rw [hzero] at hbase
  refine ⟨rfl, ?_, ?_, ?_, ?_, ?_⟩
  · simpa using hbase.1
  · simpa using hbase.2
  · exact ((initBlocks_static _ _ _ _).2.2.2.2.2.2.2.1).trans rfl
  · exact initBlocks_static _ _ _ _
  · exact (initBlocks_pageIds _ _ _ _).trans rfl

/-- A successful construction, characterised: with a nonzero page cap, a
positive block count that fits an `unsigned`, a positive object size and
memory available, the constructor succeeds; the resulting allocator
carries the geometry of §the constructor, one page, `ObjectsPerPage_`
free blocks (highest payload offset at the free-list head), and zeroed
remaining statistics. -/
theorem construct_char (S0 : Nat) (cfg : OAConfig)
    (hMP : 0 < cfg.MaxPages_) (hN1 : 1 ≤ cfg.ObjectsPerPage_)
    (hN2 : cfg.ObjectsPerPage_ < M32) (hS : 0 < S0) :
    ∃ s1, construct S0 cfg true = Except.ok s1
    ∧ s1.pageHeader = align (PTR_SIZE + cfg.HBlockInfo_.size_ + cfg.PadBytes_) cfg.Alignment_
    ∧ s1.dataSize = align (S0 + cfg.PadBytes_ * 2 + cfg.HBlockInfo_.size_) cfg.Alignment_
    ∧ s1.stats.ObjectSize_ = S0
    ∧ s1.stats.PageSize_ = s1.pageHeader +
        s1.dataSize * (cfg.ObjectsPerPage_ - 1) + S0 + cfg.PadBytes_
    ∧ s1.configuration.LeftAlignSize_ =
        s1.pageHeader - (PTR_SIZE + cfg.HBlockInfo_.size_ + cfg.PadBytes_)
    ∧ s1.configuration.InterAlignSize_ =
        s1.dataSize - (S0 + cfg.PadBytes_ * 2 + cfg.HBlockInfo_.size_)
    ∧ s1.configuration.UseCPPMemManager_ = cfg.UseCPPMemManager_
    ∧ s1.configuration.ObjectsPerPage_ = cfg.ObjectsPerPage_
    ∧ s1.configuration.MaxPages_ = cfg.MaxPages_
    ∧ s1.configuration.DebugOn_ = cfg.DebugOn_
    ∧ s1.configuration.PadBytes_ = cfg.PadBytes_
    ∧ s1.configuration.HBlockInfo_ = cfg.HBlockInfo_
    ∧ s1.configuration.Alignment_ = cfg.Alignment_
    ∧ s1.stats.PagesInUse_ = 1
    ∧ s1.stats.ObjectsInUse_ = 0
    ∧ s1.stats.FreeObjects_ = cfg.ObjectsPerPage_
    ∧ s1.stats.Allocations_ = 0
    ∧ s1.stats.Deallocations_ = 0
    ∧ s1.stats.MostObjects_ = 0
    ∧ s1.FreeList_ =
        pushedPtrs 0 s1.pageHeader s1.dataSize 0 cfg.ObjectsPerPage_
    ∧ s1.PageList_.map Page.id = [0]
    ∧ s1.nextPageId = 1 := by
  have h1 := AllocateNewPage_ok_char (constructPre S0 cfg)
    (by exact hMP) (by exact hN1) (by exact hS)
    (by
      have h := align_ge (S0 + cfg.PadBytes_ * 2 + cfg.HBlockInfo_.size_) cfg.Alignment_
      show S0 + cfg.PadBytes_ ≤
        align (S0 + cfg.PadBytes_ * 2 + cfg.HBlockInfo_.size_) cfg.Alignment_
      omega)
    (by
      show align (PTR_SIZE + cfg.HBlockInfo_.size_ + cfg.PadBytes_) cfg.Alignment_ +
          align (S0 + cfg.PadBytes_ * 2 + cfg.HBlockInfo_.size_) cfg.Alignment_ *
            ((cfg.ObjectsPerPage_ + (M32 - 1)) % M32) + S0 + cfg.PadBytes_ =
        align (PTR_SIZE + cfg.HBlockInfo_.size_ + cfg.PadBytes_) cfg.Alignment_ +
          align (S0 + cfg.PadBytes_ * 2 + cfg.HBlockInfo_.size_) cfg.Alignment_ *
            (cfg.ObjectsPerPage_ - 1) + S0 + cfg.PadBytes_
      rw [nm1_eq _ hN1 (Nat.le_of_lt hN2)])
  rcases hAP : AllocateNewPage (constructPre S0 cfg) true with ⟨r1, r2⟩
  rw [hAP] at h1
  obtain ⟨hnone, hfl, hfo, hpiu, hstatic, hids⟩ := h1
  simp only at hnone hfl hfo hpiu hids
  subst hnone
  obtain ⟨hc, hph, hds, htds, hnpi, hos, hps, hpiu2, hoiu, hall, hdeall, hmost⟩ := hstatic
  simp only at hc hph hds htds hnpi hos hps hpiu2 hoiu hall hdeall hmost
  refine ⟨r2, ?_, ?_, ?_, ?_, ?_, ?_, ?_, ?_, ?_, ?_, ?_, ?_, ?_, ?_, ?_, ?_, ?_, ?_, ?_, ?_,
    ?_, ?_, ?_⟩
  · unfold construct
    rw [hAP]
  · exact hph
  · exact hds
  · exact hos
  · rw [hph, hds, hps]
    show align (PTR_SIZE + cfg.HBlockInfo_.size_ + cfg.PadBytes_) cfg.Alignment_ +
        align (S0 + cfg.PadBytes_ * 2 + cfg.HBlockInfo_.size_) cfg.Alignment_ *
          ((cfg.ObjectsPerPage_ + (M32 - 1)) % M32) + S0 + cfg.PadBytes_ =
      align (PTR_SIZE + cfg.HBlockInfo_.size_ + cfg.PadBytes_) cfg.Alignment_ +
        align (S0 + cfg.PadBytes_ * 2 + cfg.HBlockInfo_.size_) cfg.Alignment_ *
          (cfg.ObjectsPerPage_ - 1) + S0 + cfg.PadBytes_
    rw [nm1_eq _ hN1 (Nat.le_of_lt hN2)]
  · rw [hc, hph]
    rfl
  · rw [hc, hds]
    rfl
  · rw [hc]
    rfl
  · rw [hc]
    rfl
  · rw [hc]
    rfl
  · rw [hc]
    rfl
  · rw [hc]
    rfl
  · rw [hc]
    rfl
  · rw [hc]
    rfl
  · rw [hpiu]
    rfl
  · exact hoiu
  · rw [hfo]
    have hx : (constructPre S0 cfg).stats.FreeObjects_ < M32 := M32_pos
    rw [iterate_inc32 _ _ hx]
    show (0 + cfg.ObjectsPerPage_) % M32 = cfg.ObjectsPerPage_
    rw [Nat.zero_add, Nat.mod_eq_of_lt hN2]
  · exact hall
  · exact hdeall
  · exact hmost
  · rw [hfl, hph, hds]
    exact List.append_nil _
  · exact hids
  · exact hnpi

/-! ## Claim C6: page geometry -/

/-- The spec's formulation of `align`: `a · ⌈x / a⌉` for `a > 0` (the
ceiling written as `(x + a - 1) / a`), and `x` when `a = 0`. -/
def alignSpec (x a : Nat) : Nat :=
  if a = 0 then x else a * ((x + a - 1) / a)

theorem align_eq_alignSpec (x a : Nat) : align x a = alignSpec x a := by
  unfold alignSpec
  by_cases h : a = 0
  · rw [if_pos h]
    unfold align
    rw [if_pos h]
  · rw [if_neg h]
    exact align_eq_ceil x a h

/-- Inverting a successful construction: the resulting state is the
block-initialisation of the freshly paged pre-state. -/
theorem construct_ok_inv (S0 : Nat) (cfg : OAConfig) (s1 : OAState)
    (h : construct S0 cfg true = Except.ok s1) :
    s1 = initBlocks (newPageState (constructPre S0 cfg))
      (constructPre S0 cfg).nextPageId (constructPre S0 cfg).pageHeader
      ((constructPre S0 cfg).configuration.ObjectsPerPage_ + 1) := by
  unfold construct AllocateNewPage at h
  split_ifs at h with h1 h2
  all_goals simp at h
  all_goals exact h.symm

/-- C6: for every configuration `{S, A, P, H, N}` (the header width `H`
arriving as `HBlockInfo_.size_`), the geometry a successful construction
computes satisfies `PH = align(W + H + P, A)`,
`D = align(H + 2P + S, A)`, `PageSize = PH + (N - 1) · D + S + P`,
`LeftAlignSize = PH - (W + H + P)` and
`InterAlignSize = D - (H + 2P + S)`, with
`align(x, a) = a · ⌈x / a⌉` for `a > 0` and `align(x, 0) = x`.  The
block count must be nonzero and fit an `unsigned` (the source computes
`ObjectsPerPage_ - 1` in wrapping `unsigned` arithmetic). -/
theorem C6_page_geometry (S0 : Nat) (cfg : OAConfig) (s1 : OAState)
    (h : construct S0 cfg true = Except.ok s1)
    (hN1 : 1 ≤ cfg.ObjectsPerPage_) (hN2 : cfg.ObjectsPerPage_ < M32) :
    s1.pageHeader =
      alignSpec (PTR_SIZE + cfg.HBlockInfo_.size_ + cfg.PadBytes_) cfg.Alignment_
    ∧ s1.dataSize =
      alignSpec (cfg.HBlockInfo_.size_ + 2 * cfg.PadBytes_ + S0) cfg.Alignment_
    ∧ s1.stats.PageSize_ =
      s1.pageHeader + (cfg.ObjectsPerPage_ - 1) * s1.dataSize + S0 + cfg.PadBytes_
    ∧ s1.configuration.LeftAlignSize_ =
      s1.pageHeader - (PTR_SIZE + cfg.HBlockInfo_.size_ + cfg.PadBytes_)
    ∧ s1.configuration.InterAlignSize_ =
      s1.dataSize - (cfg.HBlockInfo_.size_ + 2 * cfg.PadBytes_ + S0) := by
  have hinv := construct_ok_inv S0 cfg s1 h
  subst hinv
  obtain ⟨hc, hph, hds, _, _, _, hps, _⟩ :=
    initBlocks_static ((constructPre S0 cfg).configuration.ObjectsPerPage_ + 1)
      (newPageState (constructPre S0 cfg)) (constructPre S0 cfg).nextPageId
      (constructPre S0 cfg).pageHeader
  have hcomm : S0 + cfg.PadBytes_ * 2 + cfg.HBlockInfo_.size_ =
      cfg.HBlockInfo_.size_ + 2 * cfg.PadBytes_ + S0 := by ring
  have hph2 : _ =
      align (PTR_SIZE + cfg.HBlockInfo_.size_ + cfg.PadBytes_) cfg.Alignment_ := hph.trans rfl
  have hds2 : _ =
      align (S0 + cfg.PadBytes_ * 2 + cfg.HBlockInfo_.size_) cfg.Alignment_ := hds.trans rfl
  refine ⟨?_, ?_, ?_, ?_, ?_⟩
  · rw [hph2, align_eq_alignSpec]
  · rw [hds2, hcomm, align_eq_alignSpec]
  · rw [hph2, hds2, hps]
    show align (PTR_SIZE + cfg.HBlockInfo_.size_ + cfg.PadBytes_) cfg.Alignment_ +
        align (S0 + cfg.PadBytes_ * 2 + cfg.HBlockInfo_.size_) cfg.Alignment_ *
          ((cfg.ObjectsPerPage_ + (M32 - 1)) % M32) + S0 + cfg.PadBytes_ = _
    rw [nm1_eq _ hN1 (Nat.le_of_lt hN2), Nat.mul_comm]
  · rw [hc, hph2]
    rfl
  · rw [hc, hds2, hcomm]
    show align (S0 + cfg.PadBytes_ * 2 + cfg.HBlockInfo_.size_) cfg.Alignment_ -
        (S0 + cfg.PadBytes_ * 2 + cfg.HBlockInfo_.size_) = _
    rw [hcomm]

/-- A configuration record with the given fields and zeroed
alignment-slack fields (which the constructor recomputes anyway). -/
def testCfg (useCpp : Bool) (N MaxP : Nat) (dbg : Bool) (P : Nat)
    (hb : HeaderBlockInfo) (A : Nat) : OAConfig :=
  ⟨useCpp, N, MaxP, dbg, P, hb, A, 0, 0⟩

def cfgC6 : OAConfig := testCfg false 3 2 true 2 (HeaderBlockInfo.mk4 .hbBasic 0) 8

def stC6 : OAState := exState (construct 20 cfgC6 true)

theorem C6_page_geometry_witness :
    construct 20 cfgC6 true = Except.ok stC6
    ∧ (stC6.pageHeader =
        alignSpec (PTR_SIZE + cfgC6.HBlockInfo_.size_ + cfgC6.PadBytes_) cfgC6.Alignment_
      ∧ stC6.dataSize =
        alignSpec (cfgC6.HBlockInfo_.size_ + 2 * cfgC6.PadBytes_ + 20) cfgC6.Alignment_
      ∧ stC6.stats.PageSize_ =
        stC6.pageHeader + (cfgC6.ObjectsPerPage_ - 1) * stC6.dataSize + 20 + cfgC6.PadBytes_
      ∧ stC6.configuration.LeftAlignSize_ =
        stC6.pageHeader - (PTR_SIZE + cfgC6.HBlockInfo_.size_ + cfgC6.PadBytes_)
      ∧ stC6.configuration.InterAlignSize_ =
        stC6.dataSize - (cfgC6.HBlockInfo_.size_ + 2 * cfgC6.PadBytes_ + 20)) :=
  ⟨rfl, C6_page_geometry 20 cfgC6 stC6 rfl (by decide) (by decide)⟩

/-! ## Claim C1: the page cap and `MaxPages = 0` -/

/-- C1, counterexample to the claim as stated: with `MaxPages = 0` page
allocation is not unbounded — the very first page allocation (inside
construction) fails with `NO_PAGES`, because the source compares
`PagesInUse_ >= MaxPages_` and `0 >= 0` holds. -/
theorem C1_counterexample :
    construct 8 (testCfg false 4 0 false 0 (HeaderBlockInfo.mk4 .hbNone 0) 0) true =
      Except.error OAException.E_NO_PAGES := by rfl

/-- C1, amended: `AllocateNewPage` fails with `NO_PAGES` exactly when
`PagesInUse_ >= MaxPages_` (the source's comparison); since pages are
only ever added through this gate, for `MaxPages_ > 0` the failure
happens exactly at `PagesInUse_ = MaxPages_`, but `MaxPages_ = 0` means
no page can ever be allocated — it is not treated as unbounded. -/
theorem C1_no_pages_exactly_at_cap (s : OAState) (memOK : Bool) :
    ((AllocateNewPage s memOK).1 = some OAException.E_NO_PAGES ↔
      s.configuration.MaxPages_ ≤ s.stats.PagesInUse_)
    ∧ (s.configuration.MaxPages_ = 0 →
      (AllocateNewPage s memOK).1 = some OAException.E_NO_PAGES) := by
  constructor
  · unfold AllocateNewPage
    split_ifs with h1 h2 <;> simp [h1]
  · intro h0
    unfold AllocateNewPage
    rw [if_pos (by omega)]

/-! ## Claim C9: construction always allocates a page -/

/-- C9: the constructor calls `AllocateNewPage` unconditionally — the
passthrough flag `UseCPPMemManager_` is never consulted — so (i) with
`MaxPages_ = 0` every construction throws `NO_PAGES`, (ii) with a page
slot available but the host allocator exhausted it throws `NO_MEMORY`,
and (iii) every successful construction (any flags, passthrough
included) ends with `PagesInUse_ = 1` and `FreeObjects_ =
ObjectsPerPage_`. -/
theorem C9_constructor_always_pages :
    (∀ S0 cfg memOK, cfg.MaxPages_ = 0 →
      construct S0 cfg memOK = Except.error OAException.E_NO_PAGES)
    ∧ (∀ S0 cfg, 0 < cfg.MaxPages_ →
      construct S0 cfg false = Except.error OAException.E_NO_MEMORY)
    ∧ (∀ S0 cfg, 0 < cfg.MaxPages_ → 1 ≤ cfg.ObjectsPerPage_ →
      cfg.ObjectsPerPage_ < M32 → 0 < S0 →
      ∃ s1, construct S0 cfg true = Except.ok s1
        ∧ s1.stats.PagesInUse_ = 1 ∧ s1.stats.FreeObjects_ = cfg.ObjectsPerPage_) := by
  refine ⟨?_, ?_, ?_⟩
  · intro S0 cfg memOK h0
    unfold construct
    rw [AllocateNewPage_noPages _ _ (by show cfg.MaxPages_ ≤ 0; omega)]
  · intro S0 cfg hMP
    unfold construct
    rw [AllocateNewPage_noMem _ (by exact hMP)]
  · intro S0 cfg hMP hN1 hN2 hS
    obtain ⟨s1, hok, _, _, _, _, _, _, _, _, _, _, _, _, _, hpiu, _, hfo, _⟩ :=
      construct_char S0 cfg hMP hN1 hN2 hS
    exact ⟨s1, hok, hpiu, hfo⟩

theorem C9_constructor_always_pages_witness :
    construct 8 (testCfg true 4 0 false 0 (HeaderBlockInfo.mk4 .hbNone 0) 0) true =
      Except.error OAException.E_NO_PAGES
    ∧ construct 8 (testCfg true 4 2 false 0 (HeaderBlockInfo.mk4 .hbNone 0) 0) false =
      Except.error OAException.E_NO_MEMORY
    ∧ (∃ s1, construct 8 (testCfg true 4 2 false 0 (HeaderBlockInfo.mk4 .hbNone 0) 0) true =
        Except.ok s1 ∧ s1.stats.PagesInUse_ = 1 ∧ s1.stats.FreeObjects_ = 4) :=
  ⟨C9_constructor_always_pages.1 8 _ true rfl,
    C9_constructor_always_pages.2.1 8 _ (by decide),
    C9_constructor_always_pages.2.2 8 _ (by decide) (by decide) (by decide) (by decide)⟩

theorem C1_no_pages_exactly_at_cap_witness :
    (AllocateNewPage (default : OAState) true).1 = some OAException.E_NO_PAGES :=
  (C1_no_pages_exactly_at_cap default true).2 rfl

/-! ## Field bookkeeping of the header updates -/

theorem freeHeaderUpdate_fields (s : OAState) (obj : Ptr) :
    (freeHeaderUpdate s obj).FreeList_ = s.FreeList_
    ∧ (freeHeaderUpdate s obj).stats = s.stats
    ∧ (freeHeaderUpdate s obj).configuration = s.configuration
    ∧ (freeHeaderUpdate s obj).pageHeader = s.pageHeader
    ∧ (freeHeaderUpdate s obj).dataSize = s.dataSize
    ∧ (freeHeaderUpdate s obj).nextPageId = s.nextPageId
    ∧ (freeHeaderUpdate s obj).PageList_.map Page.id = s.PageList_.map Page.id := by
  unfold freeHeaderUpdate
  split
  all_goals exact ⟨rfl, rfl, rfl, rfl, rfl, rfl, by simp [updatePage_ids]⟩

theorem allocHeaderUpdate_fields (s : OAState) (obj : Ptr) :
    (allocHeaderUpdate s obj).FreeList_ = s.FreeList_
    ∧ (allocHeaderUpdate s obj).stats = s.stats
    ∧ (allocHeaderUpdate s obj).configuration = s.configuration
    ∧ (allocHeaderUpdate s obj).pageHeader = s.pageHeader
    ∧ (allocHeaderUpdate s obj).dataSize = s.dataSize
    ∧ (allocHeaderUpdate s obj).nextPageId = s.nextPageId
    ∧ (allocHeaderUpdate s obj).PageList_.map Page.id = s.PageList_.map Page.id := by
  unfold allocHeaderUpdate
  split
  all_goals exact ⟨rfl, rfl, rfl, rfl, rfl, rfl, by simp [updatePage_ids]⟩

/-! ## Claim C3: a throwing Free has already altered the two counters -/

theorem freeInner_err (s0 : OAState) (obj : Ptr) (e : OAException)
    (herr : (freeInner s0 obj).1 = some e) :
    (e = OAException.E_BAD_BOUNDARY ∨ e = OAException.E_CORRUPTED_BLOCK ∨
      e = OAException.E_MULTIPLE_FREE)
    ∧ (freeInner s0 obj).2 = s0 := by
  unfold freeInner at herr ⊢
  split_ifs at herr ⊢ with h1 h2 h3 h4
  all_goals first
  | exact Option.noConfusion herr
  | exact ⟨Or.inl (Option.some.inj herr).symm, rfl⟩
  | exact ⟨Or.inr (Or.inl (Option.some.inj herr).symm), rfl⟩
  | exact ⟨Or.inr (Or.inr (Option.some.inj herr).symm), rfl⟩

/-- C3: in non-passthrough mode, whenever `Free` raises an exception (it
can only be `BAD_BOUNDARY`, `CORRUPTED_BLOCK` or `MULTIPLE_FREE`), the
allocator it leaves behind is exactly the entry state with
`Deallocations_` incremented and `ObjectsInUse_` decremented: the two
counters have already been changed, while the free list, the page list
(hence every block header and every byte of page memory) and all other
statistics are untouched. -/
theorem C3_free_error_counters (s : OAState) (obj : Ptr) (e : OAException)
    (_hpass : s.configuration.UseCPPMemManager_ = false)
    (herr : (Free s obj).1 = some e) :
    (e = OAException.E_BAD_BOUNDARY ∨ e = OAException.E_CORRUPTED_BLOCK ∨
      e = OAException.E_MULTIPLE_FREE)
    ∧ (Free s obj).2 = { s with stats := { s.stats with
        Deallocations_ := inc32 s.stats.Deallocations_
        ObjectsInUse_ := dec32 s.stats.ObjectsInUse_ } } := by
  have h := freeInner_err _ obj e herr
  exact ⟨h.1, h.2⟩

def cfgDbg : OAConfig := testCfg false 2 2 true 2 (HeaderBlockInfo.mk4 .hbNone 0) 0

def stDbg : OAState := exState (construct 16 cfgDbg true)

theorem C3_free_error_counters_witness :
    (OAException.E_BAD_BOUNDARY = OAException.E_BAD_BOUNDARY ∨
      OAException.E_BAD_BOUNDARY = OAException.E_CORRUPTED_BLOCK ∨
      OAException.E_BAD_BOUNDARY = OAException.E_MULTIPLE_FREE)
    ∧ (Free stDbg (7, 0)).2 = { stDbg with stats := { stDbg.stats with
        Deallocations_ := inc32 stDbg.stats.Deallocations_
        ObjectsInUse_ := dec32 stDbg.stats.ObjectsInUse_ } } :=
  C3_free_error_counters stDbg (7, 0) OAException.E_BAD_BOUNDARY (by decide) (by decide)

/-! ## Characterising a successful Allocate and Free -/

theorem Allocate_pop (s : OAState) (obj : Ptr) (rest : List Ptr) (memOK : Bool)
    (hpass : s.configuration.UseCPPMemManager_ = false)
    (hfl : s.FreeList_ = obj :: rest) :
    Allocate s memOK = (Except.ok obj, allocFromFree s obj rest) := by
  unfold Allocate
  rw [if_neg (by simp [hpass]), if_neg (by simp [hfl])]
  unfold allocPop
  rw [hfl]

theorem allocFromFree_fields (s : OAState) (obj : Ptr) (rest : List Ptr) :
    (allocFromFree s obj rest).FreeList_ = rest
    ∧ (allocFromFree s obj rest).stats = { s.stats with
        ObjectsInUse_ := inc32 s.stats.ObjectsInUse_
        Allocations_ := inc32 s.stats.Allocations_
        FreeObjects_ := dec32 s.stats.FreeObjects_
        MostObjects_ :=
          if s.stats.MostObjects_ < inc32 s.stats.ObjectsInUse_ then
            inc32 s.stats.ObjectsInUse_
          else s.stats.MostObjects_ }
    ∧ (allocFromFree s obj rest).configuration = s.configuration
    ∧ (allocFromFree s obj rest).pageHeader = s.pageHeader
    ∧ (allocFromFree s obj rest).dataSize = s.dataSize
    ∧ (allocFromFree s obj rest).nextPageId = s.nextPageId
    ∧ (allocFromFree s obj rest).PageList_.map Page.id = s.PageList_.map Page.id := by
  obtain ⟨a1, a2, a3, a4, a5, a6, a7⟩ := allocHeaderUpdate_fields
    { s with
      FreeList_ := rest
      PageList_ :=
        if s.configuration.DebugOn_ = true then
          updatePage s.PageList_ obj.1 (fun m =>
            setRange m obj.2 s.stats.ObjectSize_ ALLOCATED_PATTERN)
        else s.PageList_
      stats := { s.stats with
        ObjectsInUse_ := inc32 s.stats.ObjectsInUse_
        Allocations_ := inc32 s.stats.Allocations_
        FreeObjects_ := dec32 s.stats.FreeObjects_
        MostObjects_ :=
          if s.stats.MostObjects_ < inc32 s.stats.ObjectsInUse_ then
            inc32 s.stats.ObjectsInUse_
          else s.stats.MostObjects_ } } obj
  unfold allocFromFree
  refine ⟨?_, ?_, ?_, ?_, ?_, ?_, ?_⟩
  · rw [a1]
  · rw [a2]
  · rw [a3]
  · rw [a4]
  · rw [a5]
  · rw [a6]
  · rw [a7]
    show (if s.configuration.DebugOn_ = true then
        updatePage s.PageList_ obj.1 (fun m =>
          setRange m obj.2 s.stats.ObjectSize_ ALLOCATED_PATTERN)
      else s.PageList_).map Page.id = s.PageList_.map Page.id
    split <;> simp [updatePage_ids]

theorem freeFinish_fields (s0 : OAState) (obj : Ptr) :
    (freeFinish s0 obj).FreeList_ = obj :: s0.FreeList_
    ∧ (freeFinish s0 obj).stats =
        { s0.stats with FreeObjects_ := inc32 s0.stats.FreeObjects_ }
    ∧ (freeFinish s0 obj).configuration = s0.configuration
    ∧ (freeFinish s0 obj).pageHeader = s0.pageHeader
    ∧ (freeFinish s0 obj).dataSize = s0.dataSize
    ∧ (freeFinish s0 obj).nextPageId = s0.nextPageId
    ∧ (freeFinish s0 obj).PageList_.map Page.id = s0.PageList_.map Page.id := by
  obtain ⟨a1, a2, a3, a4, a5, a6, a7⟩ := freeHeaderUpdate_fields
    { s0 with
      PageList_ :=
        if s0.configuration.DebugOn_ = true then
          updatePage s0.PageList_ obj.1 (fun m =>
            setRange m obj.2 s0.stats.ObjectSize_ FREED_PATTERN)
        else s0.PageList_ } obj
  unfold freeFinish AddToFreeList
  refine ⟨?_, ?_, ?_, ?_, ?_, ?_, ?_⟩
  · exact congrArg (List.cons obj) a1
  · exact congrArg
      (fun t : OAStats => { t with FreeObjects_ := inc32 t.FreeObjects_ }) a2
  · rw [a3]
  · rw [a4]
  · rw [a5]
  · rw [a6]
  · rw [updatePage_ids, a7]
    show (if s0.configuration.DebugOn_ = true then
        updatePage s0.PageList_ obj.1 (fun m =>
          setRange m obj.2 s0.stats.ObjectSize_ FREED_PATTERN)
      else s0.PageList_).map Page.id = s0.PageList_.map Page.id
    split <;> simp [updatePage_ids]

theorem freeInner_ok (s0 : OAState) (obj : Ptr)
    (hpass : s0.configuration.UseCPPMemManager_ = false)
    (hok : (freeInner s0 obj).1 = none) :
    (freeInner s0 obj).2 = freeFinish s0 obj := by
  unfold freeInner at hok ⊢
  split_ifs at hok ⊢ with h1 h2 h3 h4
  all_goals first
    | rfl
    | exact absurd h1 (by simp [hpass])

/-! ## Projection lemmas for record updates

Record updates whose fields contain `% 2 ^ 32` arithmetic must never be
compared by definitional unfolding (the unifier can diverge trying to
reduce `Nat.mod` on open terms); these lemmas, stated with fully
symbolic field values, let every such comparison proceed by rewriting
instead. -/

theorem setStats_stats (s : OAState) (st : OAStats) :
    ({ s with stats := st } : OAState).stats = st := rfl

theorem setStats_configuration (s : OAState) (st : OAStats) :
    ({ s with stats := st } : OAState).configuration = s.configuration := rfl

theorem setStats_PageList (s : OAState) (st : OAStats) :
    ({ s with stats := st } : OAState).PageList_ = s.PageList_ := rfl

theorem setStats_FreeList (s : OAState) (st : OAStats) :
    ({ s with stats := st } : OAState).FreeList_ = s.FreeList_ := rfl

theorem setStats_pageHeader (s : OAState) (st : OAStats) :
    ({ s with stats := st } : OAState).pageHeader = s.pageHeader := rfl

theorem setStats_dataSize (s : OAState) (st : OAStats) :
    ({ s with stats := st } : OAState).dataSize = s.dataSize := rfl

theorem setStats_nextPageId (s : OAState) (st : OAStats) :
    ({ s with stats := st } : OAState).nextPageId = s.nextPageId := rfl

theorem stDO_ObjectSize (st : OAStats) (d o : Nat) :
    ({ st with Deallocations_ := d, ObjectsInUse_ := o } : OAStats).ObjectSize_ =
      st.ObjectSize_ := rfl

theorem stDO_PageSize (st : OAStats) (d o : Nat) :
    ({ st with Deallocations_ := d, ObjectsInUse_ := o } : OAStats).PageSize_ =
      st.PageSize_ := rfl

theorem stDO_FreeObjects (st : OAStats) (d o : Nat) :
    ({ st with Deallocations_ := d, ObjectsInUse_ := o } : OAStats).FreeObjects_ =
      st.FreeObjects_ := rfl

theorem stDO_ObjectsInUse (st : OAStats) (d o : Nat) :
    ({ st with Deallocations_ := d, ObjectsInUse_ := o } : OAStats).ObjectsInUse_ = o := rfl

theorem stDO_PagesInUse (st : OAStats) (d o : Nat) :
    ({ st with Deallocations_ := d, ObjectsInUse_ := o } : OAStats).PagesInUse_ =
      st.PagesInUse_ := rfl

theorem stDO_MostObjects (st : OAStats) (d o : Nat) :
    ({ st with Deallocations_ := d, ObjectsInUse_ := o } : OAStats).MostObjects_ =
      st.MostObjects_ := rfl

theorem stDO_Allocations (st : OAStats) (d o : Nat) :
    ({ st with Deallocations_ := d, ObjectsInUse_ := o } : OAStats).Allocations_ =
      st.Allocations_ := rfl

theorem stDO_Deallocations (st : OAStats) (d o : Nat) :
    ({ st with Deallocations_ := d, ObjectsInUse_ := o } : OAStats).Deallocations_ = d := rfl

theorem stFO_ObjectSize (st : OAStats) (v : Nat) :
    ({ st with FreeObjects_ := v } : OAStats).ObjectSize_ = st.ObjectSize_ := rfl

theorem stFO_PageSize (st : OAStats) (v : Nat) :
    ({ st with FreeObjects_ := v } : OAStats).PageSize_ = st.PageSize_ := rfl

theorem stFO_FreeObjects (st : OAStats) (v : Nat) :
    ({ st with FreeObjects_ := v } : OAStats).FreeObjects_ = v := rfl

theorem stFO_ObjectsInUse (st : OAStats) (v : Nat) :
    ({ st with FreeObjects_ := v } : OAStats).ObjectsInUse_ = st.ObjectsInUse_ := rfl

theorem stFO_PagesInUse (st : OAStats) (v : Nat) :
    ({ st with FreeObjects_ := v } : OAStats).PagesInUse_ = st.PagesInUse_ := rfl

theorem stFO_MostObjects (st : OAStats) (v : Nat) :
    ({ st with FreeObjects_ := v } : OAStats).MostObjects_ = st.MostObjects_ := rfl

theorem stFO_Allocations (st : OAStats) (v : Nat) :
    ({ st with FreeObjects_ := v } : OAStats).Allocations_ = st.Allocations_ := rfl

theorem stFO_Deallocations (st : OAStats) (v : Nat) :
    ({ st with FreeObjects_ := v } : OAStats).Deallocations_ = st.Deallocations_ := rfl


theorem stDO_FO_collapse (st : OAStats) (d o v : Nat) :
    ({ ({ st with Deallocations_ := d, ObjectsInUse_ := o } : OAStats) with
        FreeObjects_ := v } : OAStats)
      = { st with Deallocations_ := d, ObjectsInUse_ := o, FreeObjects_ := v } := rfl

theorem stDOF_ObjectSize (st : OAStats) (d o v : Nat) :
    ({ st with Deallocations_ := d, ObjectsInUse_ := o, FreeObjects_ := v } : OAStats).ObjectSize_
      = st.ObjectSize_ := rfl

theorem stDOF_PageSize (st : OAStats) (d o v : Nat) :
    ({ st with Deallocations_ := d, ObjectsInUse_ := o, FreeObjects_ := v } : OAStats).PageSize_
      = st.PageSize_ := rfl

theorem stDOF_FreeObjects (st : OAStats) (d o v : Nat) :
    ({ st with Deallocations_ := d, ObjectsInUse_ := o, FreeObjects_ := v } : OAStats).FreeObjects_
      = v := rfl

theorem stDOF_ObjectsInUse (st : OAStats) (d o v : Nat) :
    ({ st with Deallocations_ := d, ObjectsInUse_ := o, FreeObjects_ := v } : OAStats).ObjectsInUse_
      = o := rfl

theorem stDOF_PagesInUse (st : OAStats) (d o v : Nat) :
    ({ st with Deallocations_ := d, ObjectsInUse_ := o, FreeObjects_ := v } : OAStats).PagesInUse_
      = st.PagesInUse_ := rfl

theorem stDOF_MostObjects (st : OAStats) (d o v : Nat) :
    ({ st with Deallocations_ := d, ObjectsInUse_ := o, FreeObjects_ := v } : OAStats).MostObjects_
      = st.MostObjects_ := rfl

theorem stDOF_Allocations (st : OAStats) (d o v : Nat) :
    ({ st with Deallocations_ := d, ObjectsInUse_ := o, FreeObjects_ := v } : OAStats).Allocations_
      = st.Allocations_ := rfl

theorem stDOF_Deallocations (st : OAStats) (d o v : Nat) :
    ({ st with Deallocations_ := d, ObjectsInUse_ := o, FreeObjects_ := v } : OAStats).Deallocations_
      = d := rfl

theorem Free_ok_freeList (s : OAState) (obj : Ptr)
    (hpass : s.configuration.UseCPPMemManager_ = false)
    (hok : (Free s obj).1 = none) :
    (Free s obj).2.FreeList_ = obj :: s.FreeList_ := by
  have h := freeInner_ok _ obj (by exact hpass) hok
  have hE : (Free s obj).2 = freeFinish
    { s with stats := { s.stats with
      Deallocations_ := inc32 s.stats.Deallocations_
      ObjectsInUse_ := dec32 s.stats.ObjectsInUse_ } } obj := h
  have h2 := freeFinish_fields
    { s with stats := { s.stats with
      Deallocations_ := inc32 s.stats.Deallocations_
      ObjectsInUse_ := dec32 s.stats.ObjectsInUse_ } } obj
  rw [hE, h2.1, setStats_FreeList]

theorem Free_ok_stats (s : OAState) (obj : Ptr)
    (hpass : s.configuration.UseCPPMemManager_ = false)
    (hok : (Free s obj).1 = none) :
    (Free s obj).2.stats = { s.stats with
      Deallocations_ := inc32 s.stats.Deallocations_
      ObjectsInUse_ := dec32 s.stats.ObjectsInUse_
      FreeObjects_ := inc32 s.stats.FreeObjects_ } := by
  have h := freeInner_ok _ obj (by exact hpass) hok
  have hE : (Free s obj).2 = freeFinish
    { s with stats := { s.stats with
      Deallocations_ := inc32 s.stats.Deallocations_
      ObjectsInUse_ := dec32 s.stats.ObjectsInUse_ } } obj := h
  have h2 := freeFinish_fields
    { s with stats := { s.stats with
      Deallocations_ := inc32 s.stats.Deallocations_
      ObjectsInUse_ := dec32 s.stats.ObjectsInUse_ } } obj
  rw [hE, h2.2.1, setStats_stats, stDO_FO_collapse, stDO_FreeObjects]

theorem Free_ok_statics (s : OAState) (obj : Ptr)
    (hpass : s.configuration.UseCPPMemManager_ = false)
    (hok : (Free s obj).1 = none) :
    (Free s obj).2.configuration = s.configuration
    ∧ (Free s obj).2.pageHeader = s.pageHeader
    ∧ (Free s obj).2.dataSize = s.dataSize
    ∧ (Free s obj).2.nextPageId = s.nextPageId
    ∧ (Free s obj).2.PageList_.map Page.id = s.PageList_.map Page.id := by
  have h := freeInner_ok _ obj (by exact hpass) hok
  have hE : (Free s obj).2 = freeFinish
    { s with stats := { s.stats with
      Deallocations_ := inc32 s.stats.Deallocations_
      ObjectsInUse_ := dec32 s.stats.ObjectsInUse_ } } obj := h
  have h2 := freeFinish_fields
    { s with stats := { s.stats with
      Deallocations_ := inc32 s.stats.Deallocations_
      ObjectsInUse_ := dec32 s.stats.ObjectsInUse_ } } obj
  obtain ⟨f1, f2, f3, f4, f5, f6, f7⟩ := h2
  refine ⟨?_, ?_, ?_, ?_, ?_⟩
  · rw [hE, f3, setStats_configuration]
  · rw [hE, f4, setStats_pageHeader]
  · rw [hE, f5, setStats_dataSize]
  · rw [hE, f6, setStats_nextPageId]
  · rw [hE, f7, setStats_PageList]

theorem dumpPage_trivial (s : OAState) (pg : Page)
    (h : s.configuration.HBlockInfo_.type_ = HBLOCK_TYPE.hbNone
       ∨ s.configuration.HBlockInfo_.type_ = HBLOCK_TYPE.hbExternal) :
    dumpPage s pg = [] := by
  unfold dumpPage
  rcases h with h | h <;> rw [h] <;> simp

theorem dumpPages_trivial (s : OAState) (pages : List Page)
    (h : s.configuration.HBlockInfo_.type_ = HBLOCK_TYPE.hbNone
       ∨ s.configuration.HBlockInfo_.type_ = HBLOCK_TYPE.hbExternal) :
    dumpPages s pages = [] := by
  induction pages with
  | nil => rfl
  | cons pg rest ih =>
    show dumpPage s pg ++ dumpPages s rest = []
    rw [dumpPage_trivial s pg h, ih]
    rfl

/-- C10: for the `hbNone` and `hbExternal` header flavors,
`DumpMemoryInUse` returns a leak count of 0 and performs no callback
invocation, whatever the allocator state (in particular however many
blocks are currently allocated). -/
theorem C10_dump_none_external (s : OAState)
    (h : s.configuration.HBlockInfo_.type_ = HBLOCK_TYPE.hbNone
       ∨ s.configuration.HBlockInfo_.type_ = HBLOCK_TYPE.hbExternal) :
    DumpMemoryInUse s = (0, []) := by
  show ((dumpPages s s.PageList_).length, dumpPages s s.PageList_) = (0, [])
  rw [dumpPages_trivial s s.PageList_ h]
  rfl

theorem C10_dump_none_external_witness :
    (stDbg.configuration.HBlockInfo_.type_ = HBLOCK_TYPE.hbNone
       ∨ stDbg.configuration.HBlockInfo_.type_ = HBLOCK_TYPE.hbExternal)
    ∧ DumpMemoryInUse stDbg = (0, []) :=
  ⟨Or.inl rfl, C10_dump_none_external stDbg (Or.inl rfl)⟩

theorem freeInner_noDebug (s0 : OAState) (obj : Ptr)
    (hpass : s0.configuration.UseCPPMemManager_ = false)
    (hdbg : s0.configuration.DebugOn_ = false) :
    freeInner s0 obj = (none, freeFinish s0 obj) := by
  unfold freeInner
  rw [if_neg (by simp [hpass]), if_neg (by simp [hdbg]), if_neg (by simp [hdbg]),
    if_neg (by simp [hdbg])]

theorem Free_noDebug (s : OAState) (obj : Ptr)
    (hpass : s.configuration.UseCPPMemManager_ = false)
    (hdbg : s.configuration.DebugOn_ = false) :
    (Free s obj).1 = none := by
  have hF := freeInner_noDebug
    { s with stats := { s.stats with
      Deallocations_ := inc32 s.stats.Deallocations_
      ObjectsInUse_ := dec32 s.stats.ObjectsInUse_ } } obj
    (by rw [setStats_configuration]; exact hpass)
    (by rw [setStats_configuration]; exact hdbg)
  show (freeInner { s with stats := { s.stats with
      Deallocations_ := inc32 s.stats.Deallocations_
      ObjectsInUse_ := dec32 s.stats.ObjectsInUse_ } } obj).1 = none
  rw [hF]

def cfgC7 : OAConfig := testCfg false 2 2 true 2 (HeaderBlockInfo.mk4 .hbBasic 0) 0

def stC7 : OAState := exState (construct 16 cfgC7 true)

theorem setSPN_configuration (s : OAState) (st : OAStats) (pl : List Page) (n : Nat) :
    ({ s with stats := st, PageList_ := pl, nextPageId := n } : OAState).configuration =
      s.configuration := rfl

theorem setSPN_pageHeader (s : OAState) (st : OAStats) (pl : List Page) (n : Nat) :
    ({ s with stats := st, PageList_ := pl, nextPageId := n } : OAState).pageHeader =
      s.pageHeader := rfl

theorem setSPN_dataSize (s : OAState) (st : OAStats) (pl : List Page) (n : Nat) :
    ({ s with stats := st, PageList_ := pl, nextPageId := n } : OAState).dataSize =
      s.dataSize := rfl

theorem setSPN_stats (s : OAState) (st : OAStats) (pl : List Page) (n : Nat) :
    ({ s with stats := st, PageList_ := pl, nextPageId := n } : OAState).stats = st := rfl

theorem stPIU_ObjectSize (st : OAStats) (v : Nat) :
    ({ st with PagesInUse_ := v } : OAStats).ObjectSize_ = st.ObjectSize_ := rfl

theorem stPIU_PageSize (st : OAStats) (v : Nat) :
    ({ st with PagesInUse_ := v } : OAStats).PageSize_ = st.PageSize_ := rfl

theorem stPIU_ObjectsInUse (st : OAStats) (v : Nat) :
    ({ st with PagesInUse_ := v } : OAStats).ObjectsInUse_ = st.ObjectsInUse_ := rfl

theorem newPageState_configuration (s : OAState) :
    (newPageState s).configuration = s.configuration := by
  unfold newPageState; rw [setSPN_configuration]

theorem newPageState_pageHeader (s : OAState) :
    (newPageState s).pageHeader = s.pageHeader := by
  unfold newPageState; rw [setSPN_pageHeader]

theorem newPageState_dataSize (s : OAState) :
    (newPageState s).dataSize = s.dataSize := by
  unfold newPageState; rw [setSPN_dataSize]

theorem newPageState_stats (s : OAState) :
    (newPageState s).stats = { s.stats with PagesInUse_ := inc32 s.stats.PagesInUse_ } := by
  unfold newPageState; rw [setSPN_stats]

theorem stIAFM_ObjectSize (st : OAStats) (o a f m : Nat) :
    ({ st with
        ObjectsInUse_ := o
        Allocations_ := a
        FreeObjects_ := f
        MostObjects_ := m } : OAStats).ObjectSize_ = st.ObjectSize_ := rfl

theorem stIAFM_PageSize (st : OAStats) (o a f m : Nat) :
    ({ st with
        ObjectsInUse_ := o
        Allocations_ := a
        FreeObjects_ := f
        MostObjects_ := m } : OAStats).PageSize_ = st.PageSize_ := rfl

theorem stIAFM_PagesInUse (st : OAStats) (o a f m : Nat) :
    ({ st with
        ObjectsInUse_ := o
        Allocations_ := a
        FreeObjects_ := f
        MostObjects_ := m } : OAStats).PagesInUse_ = st.PagesInUse_ := rfl

theorem stIAFM_ObjectsInUse (st : OAStats) (o a f m : Nat) :
    ({ st with
        ObjectsInUse_ := o
        Allocations_ := a
        FreeObjects_ := f
        MostObjects_ := m } : OAStats).ObjectsInUse_ = o := rfl

theorem stIAFM_FreeObjects (st : OAStats) (o a f m : Nat) :
    ({ st with
        ObjectsInUse_ := o
        Allocations_ := a
        FreeObjects_ := f
        MostObjects_ := m } : OAStats).FreeObjects_ = f := rfl

theorem Allocate_grow (s : OAState) (memOK : Bool)
    (hpass : s.configuration.UseCPPMemManager_ = false)
    (hfl : s.FreeList_ = []) :
    Allocate s memOK = match AllocateNewPage s memOK with
      | (some e, s1) => (Except.error e, s1)
      | (none, s1) => allocPop s1 := by
  unfold Allocate
  rw [if_neg (by simp [hpass]), if_pos (by simp [hfl])]

/-- The reachable states of a non-passthrough allocator: a successful
construction followed by any sequence of successful `Allocate` and
`Free` calls. -/
inductive Reached (S0 : Nat) (cfg : OAConfig) : OAState → Prop
  | init (s : OAState) : construct S0 cfg true = Except.ok s → Reached S0 cfg s
  | alloc (s : OAState) (memOK : Bool) (p : Ptr) :
      Reached S0 cfg s → (Allocate s memOK).1 = Except.ok p →
      Reached S0 cfg (Allocate s memOK).2
  | free (s : OAState) (obj : Ptr) :
      Reached S0 cfg s → (Free s obj).1 = none →
      Reached S0 cfg (Free s obj).2

theorem reached_inv (S0 : Nat) (cfg : OAConfig)
    (hpass : cfg.UseCPPMemManager_ = false) (hMP : 0 < cfg.MaxPages_)
    (hN1 : 1 ≤ cfg.ObjectsPerPage_) (hN2 : cfg.ObjectsPerPage_ < M32) (hS : 0 < S0) :
    ∀ s, Reached S0 cfg s →
      s.configuration.UseCPPMemManager_ = false
      ∧ s.configuration.ObjectsPerPage_ = cfg.ObjectsPerPage_
      ∧ 0 < s.stats.ObjectSize_
      ∧ s.stats.ObjectSize_ + s.configuration.PadBytes_ ≤ s.dataSize
      ∧ s.stats.PageSize_ = s.pageHeader +
          s.dataSize * (s.configuration.ObjectsPerPage_ - 1) +
          s.stats.ObjectSize_ + s.configuration.PadBytes_
      ∧ s.stats.FreeObjects_ < M32
      ∧ (s.stats.ObjectsInUse_ + s.stats.FreeObjects_) % M32 =
          (s.stats.PagesInUse_ * cfg.ObjectsPerPage_) % M32 := by
  intro s hr
  induction hr with
  | init s h =>
    obtain ⟨s1', h1, h2, h3, h4, h5, h6, h7, h8, h9, h10, h11, h12, h13, h14, h15,
      h16, h17, h18, h19, h20, h21, h22, h23⟩ := construct_char S0 cfg hMP hN1 hN2 hS
    have hs : s1' = s := by
      rw [h] at h1
      exact (Except.ok.inj h1).symm
    subst hs
    refine ⟨?_, ?_, ?_, ?_, ?_, ?_, ?_⟩
    · rw [h8, hpass]
    · exact h9
    · rw [h4]; exact hS
    · rw [h4, h12, h3]
      have := align_ge (S0 + cfg.PadBytes_ * 2 + cfg.HBlockInfo_.size_) cfg.Alignment_
      omega
    · rw [h4, h9, h12]; exact h5
    · rw [h17]; exact hN2
    · rw [h16, h17, h15]; simp
  | alloc s memOK p hr hsucc ih =>
    obtain ⟨I1, I2, I3, I4, I5, I6, I7⟩ := ih
    cases hfl : s.FreeList_ with
    | cons obj rest =>
      have hA := Allocate_pop s obj rest memOK I1 hfl
      have h2 : (Allocate s memOK).2 = allocFromFree s obj rest := by rw [hA]
      obtain ⟨a1, a2, a3, a4, a5, a6, a7⟩ := allocFromFree_fields s obj rest
      refine ⟨?_, ?_, ?_, ?_, ?_, ?_, ?_⟩
      · rw [h2, a3]; exact I1
      · rw [h2, a3]; exact I2
      · rw [h2, a2, stIAFM_ObjectSize]; exact I3
      · rw [h2, a2, stIAFM_ObjectSize, a3, a5]; exact I4
      · rw [h2, a2, stIAFM_PageSize, stIAFM_ObjectSize, a3, a4, a5]; exact I5
      · rw [h2, a2, stIAFM_FreeObjects]; exact dec32_lt _
      · rw [h2, a2, stIAFM_ObjectsInUse, stIAFM_FreeObjects, stIAFM_PagesInUse]
        generalize hC : s.stats.PagesInUse_ * cfg.ObjectsPerPage_ = C at I7 ⊢
        simp only [inc32, dec32, M32] at I7 ⊢
        omega
    | nil =>
      have hgrow := Allocate_grow s memOK I1 hfl
      have hcap : s.stats.PagesInUse_ < s.configuration.MaxPages_ := by
        by_contra hc
        have hnp := AllocateNewPage_noPages s memOK (by omega)
        rw [hgrow, hnp] at hsucc
        simp at hsucc
      have hmem : memOK = true := by
        cases memOK with
        | true => rfl
        | false =>
          have hnm := AllocateNewPage_noMem s hcap
          rw [hgrow, hnm] at hsucc
          simp at hsucc
      subst hmem
      obtain ⟨o1, o2, o3, o4, o5, o6⟩ :=
        AllocateNewPage_ok_char s hcap (by rw [I2]; exact hN1) I3 I4 I5
      have hAN : AllocateNewPage s true = (none, (AllocateNewPage s true).2) := by
        rw [← o1]
      have hA2 : Allocate s true = allocPop (AllocateNewPage s true).2 := by
        rw [hgrow, hAN]
      have hlen : (AllocateNewPage s true).2.FreeList_.length =
          s.configuration.ObjectsPerPage_ := by
        rw [o2, hfl]; simp [pushedPtrs]
      obtain ⟨q, rest, hfl1⟩ :
          ∃ q rest, (AllocateNewPage s true).2.FreeList_ = q :: rest := by
        cases hE : (AllocateNewPage s true).2.FreeList_ with
        | nil => rw [hE] at hlen; rw [I2] at hlen; simp at hlen; omega
        | cons x l => exact ⟨x, l, rfl⟩
      have hpop : allocPop (AllocateNewPage s true).2 =
          (Except.ok q, allocFromFree (AllocateNewPage s true).2 q rest) := by
        unfold allocPop; rw [hfl1]
      have h2 : (Allocate s true).2 = allocFromFree (AllocateNewPage s true).2 q rest := by
        rw [hA2, hpop]
      obtain ⟨e1, e2, e3, e4, e5, e6, e7, e8, e9, e10, e11, e12⟩ := o5
      have f1 : (AllocateNewPage s true).2.configuration = s.configuration := by
        rw [e1, newPageState_configuration]
      have f2 : (AllocateNewPage s true).2.pageHeader = s.pageHeader := by
        rw [e2, newPageState_pageHeader]
      have f3 : (AllocateNewPage s true).2.dataSize = s.dataSize := by
        rw [e3, newPageState_dataSize]
      have f6 : (AllocateNewPage s true).2.stats.ObjectSize_ = s.stats.ObjectSize_ := by
        rw [e6, newPageState_stats, stPIU_ObjectSize]
      have f7 : (AllocateNewPage s true).2.stats.PageSize_ = s.stats.PageSize_ := by
        rw [e7, newPageState_stats, stPIU_PageSize]
      have f9 : (AllocateNewPage s true).2.stats.ObjectsInUse_ = s.stats.ObjectsInUse_ := by
        rw [e9, newPageState_stats, stPIU_ObjectsInUse]
      obtain ⟨a1, a2, a3, a4, a5, a6, a7⟩ :=
        allocFromFree_fields (AllocateNewPage s true).2 q rest
      refine ⟨?_, ?_, ?_, ?_, ?_, ?_, ?_⟩
      · rw [h2, a3, f1]; exact I1
      · rw [h2, a3, f1]; exact I2
      · rw [h2, a2, stIAFM_ObjectSize, f6]; exact I3
      · rw [h2, a2, stIAFM_ObjectSize, f6, a3, f1, a5, f3]; exact I4
      · rw [h2, a2, stIAFM_PageSize, stIAFM_ObjectSize, f7, f6, a3, f1, a4, f2, a5, f3]
        exact I5
      · rw [h2, a2, stIAFM_FreeObjects]; exact dec32_lt _
      · rw [h2, a2, stIAFM_ObjectsInUse, stIAFM_FreeObjects, stIAFM_PagesInUse,
          f9, o3, o4, I2]
        rw [iterate_inc32 cfg.ObjectsPerPage_ s.stats.FreeObjects_ I6]
        have hm : inc32 s.stats.PagesInUse_ * cfg.ObjectsPerPage_ % M32 =
            (s.stats.PagesInUse_ * cfg.ObjectsPerPage_ + cfg.ObjectsPerPage_) % M32 := by
          rw [inc32, Nat.mod_mul_mod, Nat.add_mul, Nat.one_mul]
        rw [hm]
        generalize hC : s.stats.PagesInUse_ * cfg.ObjectsPerPage_ = C at I7 ⊢
        simp only [inc32, dec32, M32] at I7 ⊢
        omega
  | free s obj hr hok ih =>
    obtain ⟨I1, I2, I3, I4, I5, I6, I7⟩ := ih
    have hst := Free_ok_stats s obj I1 hok
    obtain ⟨c1, c2, c3, c4, c5⟩ := Free_ok_statics s obj I1 hok
    refine ⟨?_, ?_, ?_, ?_, ?_, ?_, ?_⟩
    · rw [c1]; exact I1
    · rw [c1]; exact I2
    · rw [hst, stDOF_ObjectSize]; exact I3
    · rw [hst, stDOF_ObjectSize, c1, c3]; exact I4
    · rw [hst, stDOF_PageSize, stDOF_ObjectSize, c1, c2, c3]; exact I5
    · rw [hst, stDOF_FreeObjects]; exact inc32_lt _
    · rw [hst, stDOF_ObjectsInUse, stDOF_FreeObjects, stDOF_PagesInUse]
      generalize hC : s.stats.PagesInUse_ * cfg.ObjectsPerPage_ = C at I7 ⊢
      simp only [inc32, dec32, M32] at I7 ⊢
      omega

/-- C4: in non-passthrough mode, after a successful construction and any
sequence of successful `Allocate` and `Free` calls, the statistics
satisfy `ObjectsInUse + FreeObjects = PagesInUse * ObjectsPerPage` — in
the `unsigned` arithmetic of the counters, i.e. modulo `2 ^ 32`. -/
theorem C4_counter_invariant (S0 : Nat) (cfg : OAConfig) (s : OAState)
    (hpass : cfg.UseCPPMemManager_ = false) (hMP : 0 < cfg.MaxPages_)
    (hN1 : 1 ≤ cfg.ObjectsPerPage_) (hN2 : cfg.ObjectsPerPage_ < M32) (hS : 0 < S0)
    (hr : Reached S0 cfg s) :
    (s.stats.ObjectsInUse_ + s.stats.FreeObjects_) % M32 =
      (s.stats.PagesInUse_ * s.configuration.ObjectsPerPage_) % M32 := by
  obtain ⟨I1, I2, I3, I4, I5, I6, I7⟩ := reached_inv S0 cfg hpass hMP hN1 hN2 hS s hr
  rw [I2]
  exact I7

theorem C4_counter_invariant_witness :
    (cfgC7.UseCPPMemManager_ = false ∧ 0 < cfgC7.MaxPages_
     ∧ 1 ≤ cfgC7.ObjectsPerPage_ ∧ cfgC7.ObjectsPerPage_ < M32 ∧ 0 < 16)
    ∧ (stC7.stats.ObjectsInUse_ + stC7.stats.FreeObjects_) % M32 =
        (stC7.stats.PagesInUse_ * stC7.configuration.ObjectsPerPage_) % M32 :=
  ⟨⟨rfl, by decide, by decide, by decide, by decide⟩,
   C4_counter_invariant 16 cfgC7 stC7 rfl (by decide) (by decide) (by decide)
     (by decide) (Reached.init stC7 (by rfl))⟩

theorem setPL_PageList (s : OAState) (pl : List Page) :
    ({ s with PageList_ := pl } : OAState).PageList_ = pl := rfl

theorem setPL_configuration (s : OAState) (pl : List Page) :
    ({ s with PageList_ := pl } : OAState).configuration = s.configuration := rfl

theorem setPL_stats (s : OAState) (pl : List Page) :
    ({ s with PageList_ := pl } : OAState).stats = s.stats := rfl

theorem setFPS_PageList (s : OAState) (fl : List Ptr) (pl : List Page) (st : OAStats) :
    ({ s with
        FreeList_ := fl
        PageList_ := pl
        stats := st } : OAState).PageList_ = pl := rfl

theorem AddToFreeList_PageList (s : OAState) (obj : Ptr) :
    (AddToFreeList s obj).PageList_ =
      updatePage s.PageList_ obj.1 (fun m => setRange m obj.2 PTR_SIZE PTR_BYTE) := by
  unfold AddToFreeList
  rw [setFPS_PageList]

theorem find?_updatePage (ps : List Page) (pid : Nat) (f : (Nat → Byte) → (Nat → Byte)) :
    (updatePage ps pid f).find? (fun pg => pg.id == pid) =
      (ps.find? (fun pg => pg.id == pid)).map (fun pg => (⟨pg.id, f pg.mem⟩ : Page)) := by
  induction ps with
  | nil => rfl
  | cons pg rest ih =>
    unfold updatePage
    rw [List.map_cons]
    by_cases h : pg.id = pid
    · rw [if_pos h]
      rw [List.find?_cons_of_pos _ (by simp [h]), List.find?_cons_of_pos _ (by simp [h])]
      rfl
    · rw [if_neg h]
      rw [List.find?_cons_of_neg _ (by simp [h]), List.find?_cons_of_neg _ (by simp [h])]
      exact ih

theorem find?_isSome_updatePage (ps : List Page) (pid : Nat)
    (f : (Nat → Byte) → (Nat → Byte)) :
    ((updatePage ps pid f).find? (fun pg => pg.id == pid)).isSome =
      (ps.find? (fun pg => pg.id == pid)).isSome := by
  rw [find?_updatePage]
  cases h : ps.find? (fun pg => pg.id == pid) <;> rfl

theorem pageMem_updatePage (ps : List Page) (pid : Nat)
    (f : (Nat → Byte) → (Nat → Byte)) (x : Nat)
    (hfound : (ps.find? (fun pg => pg.id == pid)).isSome = true) :
    pageMem (updatePage ps pid f) pid x = f (pageMem ps pid) x := by
  unfold pageMem
  rw [find?_updatePage]
  cases h : ps.find? (fun pg => pg.id == pid) with
  | none => rw [h] at hfound; simp at hfound
  | some pg => rfl

theorem pageMem_updatePage_fun (ps : List Page) (pid : Nat)
    (f : (Nat → Byte) → (Nat → Byte))
    (hfound : (ps.find? (fun pg => pg.id == pid)).isSome = true) :
    pageMem (updatePage ps pid f) pid = f (pageMem ps pid) := by
  funext x
  exact pageMem_updatePage ps pid f x hfound

theorem boundary_found (s : OAState) (obj : Ptr)
    (h : CheckPageBoundary s obj = true) :
    (s.PageList_.find? (fun pg => pg.id == obj.1)).isSome = true := by
  unfold CheckPageBoundary at h
  generalize s.PageList_ = l at h ⊢
  induction l with
  | nil => simp at h
  | cons pg rest ih =>
    rw [List.any_cons, Bool.or_eq_true] at h
    by_cases hh : (pg.id == obj.1) = true
    · rw [List.find?_cons_of_pos _ (by exact hh)]
      rfl
    · rw [List.find?_cons_of_neg _ (by simpa using hh)]
      rcases h with h | h
      · rw [Bool.and_eq_true] at h
        exact absurd h.1 hh
      · exact ih h

theorem CheckPageBoundary_congr (t s : OAState) (obj : Ptr)
    (hids : t.PageList_.map Page.id = s.PageList_.map Page.id)
    (hps : t.stats.PageSize_ = s.stats.PageSize_) :
    CheckPageBoundary t obj = CheckPageBoundary s obj := by
  unfold CheckPageBoundary
  have key : ∀ (l : List Page) (ps : Nat),
      (l.any fun pg => pg.id == obj.1 && decide (obj.2 < ps)) =
        ((l.map Page.id).any fun i => i == obj.1 && decide (obj.2 < ps)) := by
    intro l ps
    induction l with
    | nil => rfl
    | cons pg rest ih => rw [List.map_cons, List.any_cons, List.any_cons, ih]
  rw [hps, key, key, hids]

theorem freeHeaderUpdate_PageList_none (s : OAState) (obj : Ptr)
    (h : s.configuration.HBlockInfo_.type_ = HBLOCK_TYPE.hbNone) :
    (freeHeaderUpdate s obj).PageList_ = s.PageList_ := by
  unfold freeHeaderUpdate
  rw [h]

theorem freeHeaderUpdate_PageList_basic (s : OAState) (obj : Ptr)
    (h : s.configuration.HBlockInfo_.type_ = HBLOCK_TYPE.hbBasic) :
    (freeHeaderUpdate s obj).PageList_ =
      updatePage s.PageList_ obj.1 (fun m =>
        setRange m (obj.2 - s.configuration.PadBytes_ - s.configuration.HBlockInfo_.size_)
          BASIC_HEADER_SIZE 0) := by
  unfold freeHeaderUpdate
  rw [h]

theorem freeHeaderUpdate_PageList_extended (s : OAState) (obj : Ptr)
    (h : s.configuration.HBlockInfo_.type_ = HBLOCK_TYPE.hbExtended) :
    (freeHeaderUpdate s obj).PageList_ =
      updatePage s.PageList_ obj.1 (fun m =>
        setRange m
          (obj.2 - s.configuration.PadBytes_ - s.configuration.HBlockInfo_.size_ +
            s.configuration.HBlockInfo_.additional_ + 2)
          BASIC_HEADER_SIZE 0) := by
  unfold freeHeaderUpdate
  rw [h]

theorem freeHeaderUpdate_PageList_external (s : OAState) (obj : Ptr)
    (h : s.configuration.HBlockInfo_.type_ = HBLOCK_TYPE.hbExternal) :
    (freeHeaderUpdate s obj).PageList_ =
      updatePage s.PageList_ obj.1 (fun m =>
        setRange m (obj.2 - s.configuration.PadBytes_ - s.configuration.HBlockInfo_.size_)
          PTR_SIZE 0) := by
  unfold freeHeaderUpdate
  rw [h]

def paintList (s0 : OAState) (obj : Ptr) : List Page :=
  if s0.configuration.DebugOn_ = true then
    updatePage s0.PageList_ obj.1 (fun m =>
      setRange m obj.2 s0.stats.ObjectSize_ FREED_PATTERN)
  else s0.PageList_

theorem paintList_on (s0 : OAState) (obj : Ptr)
    (hdbg : s0.configuration.DebugOn_ = true) :
    paintList s0 obj = updatePage s0.PageList_ obj.1 (fun m =>
      setRange m obj.2 s0.stats.ObjectSize_ FREED_PATTERN) := by
  unfold paintList
  rw [if_pos hdbg]

theorem freeFinish_PageList (s0 : OAState) (obj : Ptr) :
    (freeFinish s0 obj).PageList_ =
      updatePage (freeHeaderUpdate { s0 with PageList_ := paintList s0 obj } obj).PageList_
        obj.1 (fun m => setRange m obj.2 PTR_SIZE PTR_BYTE) := by
  unfold freeFinish
  rw [AddToFreeList_PageList]
  rfl

theorem paintM_configuration (s0 : OAState) (obj : Ptr) :
    ({ s0 with PageList_ := paintList s0 obj } : OAState).configuration =
      s0.configuration := by
  rw [setPL_configuration]

theorem paintM_PageList (s0 : OAState) (obj : Ptr)
    (hdbg : s0.configuration.DebugOn_ = true) :
    ({ s0 with PageList_ := paintList s0 obj } : OAState).PageList_ =
      updatePage s0.PageList_ obj.1 (fun m =>
        setRange m obj.2 s0.stats.ObjectSize_ FREED_PATTERN) := by
  rw [setPL_PageList, paintList_on s0 obj hdbg]

theorem freeFinish_mem_preserved (s0 : OAState) (obj : Ptr) (x : Nat)
    (hdbg : s0.configuration.DebugOn_ = true)
    (hfound : (s0.PageList_.find? (fun pg => pg.id == obj.1)).isSome = true)
    (t : HBLOCK_TYPE) (u : Nat)
    (hhb : s0.configuration.HBlockInfo_ = HeaderBlockInfo.mk4 t u)
    (hoff : s0.configuration.HBlockInfo_.size_ + s0.configuration.PadBytes_ ≤ obj.2)
    (hS : PTR_SIZE < s0.stats.ObjectSize_)
    (hx : (obj.2 - s0.configuration.PadBytes_ ≤ x ∧ x < obj.2) ∨
          obj.2 + s0.stats.ObjectSize_ ≤ x) :
    pageMem (freeFinish s0 obj).PageList_ obj.1 x = pageMem s0.PageList_ obj.1 x := by
  have hS8 : 8 < s0.stats.ObjectSize_ := hS
  rw [freeFinish_PageList]
  cases t with
  | hbNone =>
    have htyp : s0.configuration.HBlockInfo_.type_ = HBLOCK_TYPE.hbNone := by rw [hhb]; rfl
    rw [freeHeaderUpdate_PageList_none _ obj (by rw [paintM_configuration]; exact htyp)]
    rw [paintM_PageList s0 obj hdbg]
    rw [pageMem_updatePage_fun _ _ _ (by rw [find?_isSome_updatePage]; exact hfound)]
    rw [pageMem_updatePage_fun _ _ _ hfound]
    simp only [setRange, PTR_SIZE]
    rw [if_neg (by omega), if_neg (by omega)]
  | hbBasic =>
    have htyp : s0.configuration.HBlockInfo_.type_ = HBLOCK_TYPE.hbBasic := by rw [hhb]; rfl
    have hsz : s0.configuration.HBlockInfo_.size_ = BASIC_HEADER_SIZE := by rw [hhb]; rfl
    have hoff5 : 5 + s0.configuration.PadBytes_ ≤ obj.2 := by rw [hsz] at hoff; exact hoff
    rw [freeHeaderUpdate_PageList_basic _ obj (by rw [paintM_configuration]; exact htyp)]
    rw [paintM_configuration, paintM_PageList s0 obj hdbg]
    rw [pageMem_updatePage_fun _ _ _
      (by rw [find?_isSome_updatePage, find?_isSome_updatePage]; exact hfound)]
    rw [pageMem_updatePage_fun _ _ _ (by rw [find?_isSome_updatePage]; exact hfound)]
    rw [pageMem_updatePage_fun _ _ _ hfound]
    rw [hsz]
    simp only [setRange, PTR_SIZE, BASIC_HEADER_SIZE]
    rw [if_neg (by omega), if_neg (by omega), if_neg (by omega)]
  | hbExtended =>
    have htyp : s0.configuration.HBlockInfo_.type_ = HBLOCK_TYPE.hbExtended := by rw [hhb]; rfl
    have hsz : s0.configuration.HBlockInfo_.size_ = u + 2 + BASIC_HEADER_SIZE := by
      rw [hhb]; rfl
    have hadd : s0.configuration.HBlockInfo_.additional_ = u := by rw [hhb]; rfl
    have hoffu : u + 2 + 5 + s0.configuration.PadBytes_ ≤ obj.2 := by
      rw [hsz] at hoff
      have h5 : (BASIC_HEADER_SIZE : Nat) = 5 := rfl
      omega
    rw [freeHeaderUpdate_PageList_extended _ obj (by rw [paintM_configuration]; exact htyp)]
    rw [paintM_configuration, paintM_PageList s0 obj hdbg]
    rw [pageMem_updatePage_fun _ _ _
      (by rw [find?_isSome_updatePage, find?_isSome_updatePage]; exact hfound)]
    rw [pageMem_updatePage_fun _ _ _ (by rw [find?_isSome_updatePage]; exact hfound)]
    rw [pageMem_updatePage_fun _ _ _ hfound]
    rw [hsz, hadd]
    simp only [setRange, PTR_SIZE, BASIC_HEADER_SIZE]
    rw [if_neg (by omega), if_neg (by omega), if_neg (by omega)]
  | hbExternal =>
    have htyp : s0.configuration.HBlockInfo_.type_ = HBLOCK_TYPE.hbExternal := by rw [hhb]; rfl
    have hsz : s0.configuration.HBlockInfo_.size_ = PTR_SIZE := by rw [hhb]; rfl
    have hoff8 : 8 + s0.configuration.PadBytes_ ≤ obj.2 := by rw [hsz] at hoff; exact hoff
    rw [freeHeaderUpdate_PageList_external _ obj (by rw [paintM_configuration]; exact htyp)]
    rw [paintM_configuration, paintM_PageList s0 obj hdbg]
    rw [pageMem_updatePage_fun _ _ _
      (by rw [find?_isSome_updatePage, find?_isSome_updatePage]; exact hfound)]
    rw [pageMem_updatePage_fun _ _ _ (by rw [find?_isSome_updatePage]; exact hfound)]
    rw [pageMem_updatePage_fun _ _ _ hfound]
    rw [hsz]
    simp only [setRange, PTR_SIZE]
    rw [if_neg (by omega), if_neg (by omega), if_neg (by omega)]

theorem freeFinish_mem_freed (s0 : OAState) (obj : Ptr)
    (hdbg : s0.configuration.DebugOn_ = true)
    (hfound : (s0.PageList_.find? (fun pg => pg.id == obj.1)).isSome = true)
    (t : HBLOCK_TYPE) (u : Nat)
    (hhb : s0.configuration.HBlockInfo_ = HeaderBlockInfo.mk4 t u)
    (hoff : s0.configuration.HBlockInfo_.size_ + s0.configuration.PadBytes_ ≤ obj.2)
    (hS : PTR_SIZE < s0.stats.ObjectSize_) :
    pageMem (freeFinish s0 obj).PageList_ obj.1 (obj.2 + PTR_SIZE) = FREED_PATTERN := by
  have hS8 : 8 < s0.stats.ObjectSize_ := hS
  rw [freeFinish_PageList]
  cases t with
  | hbNone =>
    have htyp : s0.configuration.HBlockInfo_.type_ = HBLOCK_TYPE.hbNone := by
      rw [hhb]; rfl
    rw [freeHeaderUpdate_PageList_none _ obj (by rw [paintM_configuration]; exact htyp)]
    rw [paintM_PageList s0 obj hdbg]
    rw [pageMem_updatePage_fun _ _ _ (by rw [find?_isSome_updatePage]; exact hfound)]
    rw [pageMem_updatePage_fun _ _ _ hfound]
    simp only [setRange, PTR_SIZE]
    rw [if_neg (by omega), if_pos (by omega)]
  | hbBasic =>
    have htyp : s0.configuration.HBlockInfo_.type_ = HBLOCK_TYPE.hbBasic := by
      rw [hhb]; rfl
    have hsz : s0.configuration.HBlockInfo_.size_ = BASIC_HEADER_SIZE := by
      rw [hhb]; rfl
    have hoff5 : 5 + s0.configuration.PadBytes_ ≤ obj.2 := by rw [hsz] at hoff; exact hoff
    rw [freeHeaderUpdate_PageList_basic _ obj (by rw [paintM_configuration]; exact htyp)]
    rw [paintM_configuration, paintM_PageList s0 obj hdbg]
    rw [pageMem_updatePage_fun _ _ _
      (by rw [find?_isSome_updatePage, find?_isSome_updatePage]; exact hfound)]
    rw [pageMem_updatePage_fun _ _ _ (by rw [find?_isSome_updatePage]; exact hfound)]
    rw [pageMem_updatePage_fun _ _ _ hfound]
    rw [hsz]
    simp only [setRange, PTR_SIZE, BASIC_HEADER_SIZE]
    rw [if_neg (by omega), if_neg (by omega), if_pos (by omega)]
  | hbExtended =>
    have htyp : s0.configuration.HBlockInfo_.type_ = HBLOCK_TYPE.hbExtended := by
      rw [hhb]; rfl
    have hsz : s0.configuration.HBlockInfo_.size_ = u + 2 + BASIC_HEADER_SIZE := by
      rw [hhb]; rfl
    have hadd : s0.configuration.HBlockInfo_.additional_ = u := by
      rw [hhb]; rfl
    have hoffu : u + 2 + 5 + s0.configuration.PadBytes_ ≤ obj.2 := by
      rw [hsz] at hoff
      have h5 : (BASIC_HEADER_SIZE : Nat) = 5 := rfl
      omega
    rw [freeHeaderUpdate_PageList_extended _ obj (by rw [paintM_configuration]; exact htyp)]
    rw [paintM_configuration, paintM_PageList s0 obj hdbg]
    rw [pageMem_updatePage_fun _ _ _
      (by rw [find?_isSome_updatePage, find?_isSome_updatePage]; exact hfound)]
    rw [pageMem_updatePage_fun _ _ _ (by rw [find?_isSome_updatePage]; exact hfound)]
    rw [pageMem_updatePage_fun _ _ _ hfound]
    rw [hsz, hadd]
    simp only [setRange, PTR_SIZE, BASIC_HEADER_SIZE]
    rw [if_neg (by omega), if_neg (by omega), if_pos (by omega)]
  | hbExternal =>
    have htyp : s0.configuration.HBlockInfo_.type_ = HBLOCK_TYPE.hbExternal := by
      rw [hhb]; rfl
    have hsz : s0.configuration.HBlockInfo_.size_ = PTR_SIZE := by
      rw [hhb]; rfl
    have hoff8 : 8 + s0.configuration.PadBytes_ ≤ obj.2 := by rw [hsz] at hoff; exact hoff
    rw [freeHeaderUpdate_PageList_external _ obj (by rw [paintM_configuration]; exact htyp)]
    rw [paintM_configuration, paintM_PageList s0 obj hdbg]
    rw [pageMem_updatePage_fun _ _ _
      (by rw [find?_isSome_updatePage, find?_isSome_updatePage]; exact hfound)]
    rw [pageMem_updatePage_fun _ _ _ (by rw [find?_isSome_updatePage]; exact hfound)]
    rw [pageMem_updatePage_fun _ _ _ hfound]
    rw [hsz]
    simp only [setRange, PTR_SIZE]
    rw [if_neg (by omega), if_neg (by omega), if_pos (by omega)]

theorem freeInner_ok_checks (s0 : OAState) (obj : Ptr)
    (hpass : s0.configuration.UseCPPMemManager_ = false)
    (hdbg : s0.configuration.DebugOn_ = true)
    (hok : (freeInner s0 obj).1 = none) :
    CheckPageBoundary s0 obj = true
    ∧ CheckPadding s0 obj = true
    ∧ (pageMem s0.PageList_ obj.1 (obj.2 + PTR_SIZE) == FREED_PATTERN) = false := by
  unfold freeInner at hok
  by_cases hB : CheckPageBoundary s0 obj = true
  · by_cases hP : CheckPadding s0 obj = true
    · by_cases hM : (pageMem s0.PageList_ obj.1 (obj.2 + PTR_SIZE) == FREED_PATTERN) = true
      · rw [if_neg (by simp [hpass]), if_neg (by simp [hB]), if_neg (by simp [hP]),
          if_pos (by simp [hdbg, hM])] at hok
        exact Option.noConfusion hok
      · exact ⟨hB, hP, by simpa using hM⟩
    · rw [Bool.not_eq_true] at hP
      rw [if_neg (by simp [hpass]), if_neg (by simp [hB]),
        if_pos (by simp [hdbg, hP])] at hok
      exact Option.noConfusion hok
  · rw [Bool.not_eq_true] at hB
    rw [if_neg (by simp [hpass]), if_pos (by simp [hdbg, hB])] at hok
    exact Option.noConfusion hok

theorem freeInner_second_free (s0 : OAState) (obj : Ptr) (s2 : OAState)
    (hpass : s0.configuration.UseCPPMemManager_ = false)
    (hdbg : s0.configuration.DebugOn_ = true)
    (hS : PTR_SIZE < s0.stats.ObjectSize_)
    (t : HBLOCK_TYPE) (u : Nat)
    (hhb : s0.configuration.HBlockInfo_ = HeaderBlockInfo.mk4 t u)
    (hoff : s0.configuration.HBlockInfo_.size_ + s0.configuration.PadBytes_ ≤ obj.2)
    (hok : (freeInner s0 obj).1 = none)
    (h2cfg : s2.configuration = s0.configuration)
    (h2pl : s2.PageList_ = (freeFinish s0 obj).PageList_)
    (h2ps : s2.stats.PageSize_ = s0.stats.PageSize_)
    (h2os : s2.stats.ObjectSize_ = s0.stats.ObjectSize_) :
    (freeInner s2 obj).1 = some OAException.E_MULTIPLE_FREE := by
  obtain ⟨hB0, hP0, hM0⟩ := freeInner_ok_checks s0 obj hpass hdbg hok
  have hfound := boundary_found s0 obj hB0
  obtain ⟨f1, f2, f3, f4, f5, f6, f7⟩ := freeFinish_fields s0 obj
  have cB : CheckPageBoundary s2 obj = true := by
    rw [CheckPageBoundary_congr s2 s0 obj (by rw [h2pl]; exact f7) h2ps]
    exact hB0
  have cP : CheckPadding s2 obj = true := by
    simp only [CheckPadding] at hP0 ⊢
    rw [h2cfg, h2os, h2pl]
    rw [Bool.and_eq_true] at hP0 ⊢
    obtain ⟨hL, hR⟩ := hP0
    constructor
    · rw [List.all_eq_true] at hL ⊢
      intro i hi
      have hi' := List.mem_range.mp hi
      rw [freeFinish_mem_preserved s0 obj _ hdbg hfound t u hhb hoff hS
        (Or.inl ⟨by omega, by omega⟩)]
      exact hL i hi
    · rw [List.all_eq_true] at hR ⊢
      intro i hi
      have hi' := List.mem_range.mp hi
      rw [freeFinish_mem_preserved s0 obj _ hdbg hfound t u hhb hoff hS
        (Or.inr (by omega))]
      exact hR i hi
  have cM : (pageMem s2.PageList_ obj.1 (obj.2 + PTR_SIZE) == FREED_PATTERN) = true := by
    rw [h2pl, freeFinish_mem_freed s0 obj hdbg hfound t u hhb hoff hS]
    rfl
  have hdbg2 : s2.configuration.DebugOn_ = true := by rw [h2cfg]; exact hdbg
  have hpass2 : s2.configuration.UseCPPMemManager_ = false := by rw [h2cfg]; exact hpass
  unfold freeInner
  rw [if_neg (by simp [hpass2]), if_neg (by simp [cB]), if_neg (by simp [cP]),
    if_pos (by simp [hdbg2, cM])]

/-- C5, amended: with debug on, after any `Free(p)` that succeeds, an
immediate second `Free(p)` raises `MULTIPLE_FREE` — provided the payload
is strictly wider than the intrusive pointer (`PTR_SIZE < ObjectSize`),
because the detection byte sits at offset `PTR_SIZE` inside the payload;
for `ObjectSize ≤ PTR_SIZE` that byte lies outside the `FREED_PATTERN`
painting and the double free goes undetected. -/
theorem C5_double_free_detected (s : OAState) (obj : Ptr) (t : HBLOCK_TYPE) (u : Nat)
    (hpass : s.configuration.UseCPPMemManager_ = false)
    (hdbg : s.configuration.DebugOn_ = true)
    (hS : PTR_SIZE < s.stats.ObjectSize_)
    (hhb : s.configuration.HBlockInfo_ = HeaderBlockInfo.mk4 t u)
    (hoff : s.configuration.HBlockInfo_.size_ + s.configuration.PadBytes_ ≤ obj.2)
    (hok1 : (Free s obj).1 = none) :
    (Free (Free s obj).2 obj).1 = some OAException.E_MULTIPLE_FREE := by
  have hcfgE := setStats_configuration s { s.stats with
    Deallocations_ := inc32 s.stats.Deallocations_
    ObjectsInUse_ := dec32 s.stats.ObjectsInUse_ }
  have hstE := setStats_stats s { s.stats with
    Deallocations_ := inc32 s.stats.Deallocations_
    ObjectsInUse_ := dec32 s.stats.ObjectsInUse_ }
  have hFv : (Free s obj).2 = freeFinish { s with stats := { s.stats with
      Deallocations_ := inc32 s.stats.Deallocations_
      ObjectsInUse_ := dec32 s.stats.ObjectsInUse_ } } obj :=
    freeInner_ok _ obj (by rw [hcfgE]; exact hpass) hok1
  obtain ⟨g1, g2, g3, g4, g5, g6, g7⟩ := freeFinish_fields { s with stats := { s.stats with
    Deallocations_ := inc32 s.stats.Deallocations_
    ObjectsInUse_ := dec32 s.stats.ObjectsInUse_ } } obj
  refine freeInner_second_free _ obj _ ?_ ?_ ?_ t u ?_ ?_ hok1 ?_ ?_ ?_ ?_
  · rw [hcfgE]; exact hpass
  · rw [hcfgE]; exact hdbg
  · rw [hstE, stDO_ObjectSize]; exact hS
  · rw [hcfgE]; exact hhb
  · rw [hcfgE]; exact hoff
  · rw [setStats_configuration, hFv, g3, hcfgE]
  · rw [setStats_PageList, hFv]
  · rw [setStats_stats, stDO_PageSize, hFv, g2, stFO_PageSize, hstE, stDO_PageSize]
  · rw [setStats_stats, stDO_ObjectSize, hFv, g2, stFO_ObjectSize, hstE, stDO_ObjectSize]

def cfgC5 : OAConfig := testCfg false 2 2 true 2 (HeaderBlockInfo.mk4 .hbNone 0) 0

def stC5 : OAState := exState (construct 8 cfgC5 true)

def stC5a : OAState := (Allocate stC5 true).2

/-- C5, counterexample to the claim as stated: with `ObjectSize = 8 =
PTR_SIZE` (debug on), the pointer returned by `Allocate` can be freed
twice without `MULTIPLE_FREE`: the detection byte at payload offset
`PTR_SIZE` lies past the painted payload, so the second `Free` returns
normally. -/
theorem C5_counterexample :
    cfgC5.DebugOn_ = true
    ∧ (Allocate stC5 true).1 = Except.ok ((0, 22) : Ptr)
    ∧ (Free stC5a ((0, 22) : Ptr)).1 = none
    ∧ (Free (Free stC5a ((0, 22) : Ptr)).2 ((0, 22) : Ptr)).1 = none :=
  ⟨rfl, by rfl, by decide, by decide⟩

theorem C5_double_free_detected_witness :
    (stDbg.configuration.UseCPPMemManager_ = false
     ∧ stDbg.configuration.DebugOn_ = true
     ∧ PTR_SIZE < stDbg.stats.ObjectSize_
     ∧ stDbg.configuration.HBlockInfo_ = HeaderBlockInfo.mk4 .hbNone 0
     ∧ stDbg.configuration.HBlockInfo_.size_ + stDbg.configuration.PadBytes_ ≤
         ((0, 30) : Ptr).2
     ∧ (Free stDbg ((0, 30) : Ptr)).1 = none)
    ∧ (Free (Free stDbg ((0, 30) : Ptr)).2 ((0, 30) : Ptr)).1 =
        some OAException.E_MULTIPLE_FREE :=
  ⟨⟨rfl, rfl, by decide, by rfl, by decide, by decide⟩,
   C5_double_free_detected stDbg (0, 30) .hbNone 0 rfl rfl (by decide) (by rfl)
     (by decide) (by decide)⟩

def cfgC2 : OAConfig := testCfg false 1 1 false 0 (HeaderBlockInfo.mk4 .hbExtended 0) 0

def stC2 : OAState := exState (construct 16 cfgC2 true)

def pC2 : Ptr := (0, 15)

def cycleFnC2 (s : OAState) : OAState := (Free (Allocate s true).2 pC2).2

def cycleC2 (k : Nat) : OAState := cycleFnC2^[k] stC2

theorem setFPS_configuration (s : OAState) (fl : List Ptr) (pl : List Page) (st : OAStats) :
    ({ s with
        FreeList_ := fl
        PageList_ := pl
        stats := st } : OAState).configuration = s.configuration := rfl

theorem setFPS_stats (s : OAState) (fl : List Ptr) (pl : List Page) (st : OAStats) :
    ({ s with
        FreeList_ := fl
        PageList_ := pl
        stats := st } : OAState).stats = st := rfl

theorem stIAFM_Allocations (st : OAStats) (o a f m : Nat) :
    ({ st with
        ObjectsInUse_ := o
        Allocations_ := a
        FreeObjects_ := f
        MostObjects_ := m } : OAStats).Allocations_ = a := rfl

theorem stIAFM_MostObjects (st : OAStats) (o a f m : Nat) :
    ({ st with
        ObjectsInUse_ := o
        Allocations_ := a
        FreeObjects_ := f
        MostObjects_ := m } : OAStats).MostObjects_ = m := rfl

theorem stADM_ObjectSize (st : OAStats) (a d m : Nat) :
    ({ st with
        MostObjects_ := m
        Allocations_ := a
        Deallocations_ := d } : OAStats).ObjectSize_ = st.ObjectSize_ := rfl

theorem stADM_PageSize (st : OAStats) (a d m : Nat) :
    ({ st with
        MostObjects_ := m
        Allocations_ := a
        Deallocations_ := d } : OAStats).PageSize_ = st.PageSize_ := rfl

theorem stADM_FreeObjects (st : OAStats) (a d m : Nat) :
    ({ st with
        MostObjects_ := m
        Allocations_ := a
        Deallocations_ := d } : OAStats).FreeObjects_ = st.FreeObjects_ := rfl

theorem stADM_ObjectsInUse (st : OAStats) (a d m : Nat) :
    ({ st with
        MostObjects_ := m
        Allocations_ := a
        Deallocations_ := d } : OAStats).ObjectsInUse_ = st.ObjectsInUse_ := rfl

theorem stADM_PagesInUse (st : OAStats) (a d m : Nat) :
    ({ st with
        MostObjects_ := m
        Allocations_ := a
        Deallocations_ := d } : OAStats).PagesInUse_ = st.PagesInUse_ := rfl

theorem stADM_MostObjects (st : OAStats) (a d m : Nat) :
    ({ st with
        MostObjects_ := m
        Allocations_ := a
        Deallocations_ := d } : OAStats).MostObjects_ = m := rfl

theorem stADM_Allocations (st : OAStats) (a d m : Nat) :
    ({ st with
        MostObjects_ := m
        Allocations_ := a
        Deallocations_ := d } : OAStats).Allocations_ = a := rfl

theorem stADM_Deallocations (st : OAStats) (a d m : Nat) :
    ({ st with
        MostObjects_ := m
        Allocations_ := a
        Deallocations_ := d } : OAStats).Deallocations_ = d := rfl

theorem updatePage_singleton (pid : Nat) (mem : Nat → Byte)
    (f : (Nat → Byte) → (Nat → Byte)) :
    updatePage [⟨pid, mem⟩] pid f = [⟨pid, f mem⟩] := by
  unfold updatePage
  simp

theorem pageMem_singleton (pid : Nat) (mem : Nat → Byte) :
    pageMem [⟨pid, mem⟩] pid = mem := by
  unfold pageMem
  simp

theorem allocHeaderUpdate_PageList_extended (s : OAState) (obj : Ptr)
    (h : s.configuration.HBlockInfo_.type_ = HBLOCK_TYPE.hbExtended) :
    (allocHeaderUpdate s obj).PageList_ =
      updatePage s.PageList_ obj.1 (fun m =>
        setByte
          (writeU32LE
            (setByte m
              (obj.2 - s.configuration.PadBytes_ - s.configuration.HBlockInfo_.size_ +
                s.configuration.HBlockInfo_.additional_ % 256)
              ((m (obj.2 - s.configuration.PadBytes_ - s.configuration.HBlockInfo_.size_ +
                s.configuration.HBlockInfo_.additional_ % 256) + 1) % 256))
            (obj.2 - s.configuration.PadBytes_ - s.configuration.HBlockInfo_.size_ +
              s.configuration.HBlockInfo_.additional_ % 256 + 2)
            s.stats.Allocations_)
          (obj.2 - s.configuration.PadBytes_ - s.configuration.HBlockInfo_.size_ +
            s.configuration.HBlockInfo_.additional_ % 256 + 6) 1) := by
  unfold allocHeaderUpdate
  rw [h]

theorem paintList_off (s0 : OAState) (obj : Ptr)
    (hdbg : s0.configuration.DebugOn_ = false) :
    paintList s0 obj = s0.PageList_ := by
  unfold paintList
  rw [if_neg (by simp [hdbg])]

theorem OAStats_ext (a b : OAStats)
    (h1 : a.ObjectSize_ = b.ObjectSize_) (h2 : a.PageSize_ = b.PageSize_)
    (h3 : a.FreeObjects_ = b.FreeObjects_) (h4 : a.ObjectsInUse_ = b.ObjectsInUse_)
    (h5 : a.PagesInUse_ = b.PagesInUse_) (h6 : a.MostObjects_ = b.MostObjects_)
    (h7 : a.Allocations_ = b.Allocations_) (h8 : a.Deallocations_ = b.Deallocations_) :
    a = b := by
  cases a
  cases b
  simp_all

theorem stIAFM_Deallocations (st : OAStats) (o a f m : Nat) :
    ({ st with
        ObjectsInUse_ := o
        Allocations_ := a
        FreeObjects_ := f
        MostObjects_ := m } : OAStats).Deallocations_ = st.Deallocations_ := rfl

theorem find?_isSome_eq_any (ps : List Page) (pid : Nat) :
    (ps.find? (fun pg => pg.id == pid)).isSome = ps.any (fun pg => pg.id == pid) := by
  induction ps with
  | nil => rfl
  | cons pg rest ih =>
    by_cases h : (pg.id == pid) = true
    · simp only [List.find?, List.any_cons]
      rw [h]
      rfl
    · have h' : (pg.id == pid) = false := by simpa using h
      simp only [List.find?, List.any_cons]
      rw [h']
      exact ih

theorem any_id_map (ps : List Page) (pid : Nat) :
    ps.any (fun pg => pg.id == pid) = (ps.map Page.id).any (fun i => i == pid) := by
  induction ps with
  | nil => rfl
  | cons pg rest ih => rw [List.map_cons, List.any_cons, List.any_cons, ih]

theorem pageList_eq_of_ids (ps : List Page) (h : ps.map Page.id = [0]) :
    ps = [⟨0, pageMem ps 0⟩] := by
  cases ps with
  | nil => simp at h
  | cons pg rest =>
    rw [List.map_cons] at h
    have h1 : pg.id = 0 := (List.cons.injEq _ _ _ _ ▸ h).1
    have h2 : rest = [] := List.map_eq_nil_iff.mp (List.cons.injEq _ _ _ _ ▸ h).2
    subst h2
    cases pg with
    | mk pid mem =>
      simp only at h1
      subst h1
      unfold pageMem
      rw [List.find?_cons_of_pos _ (by rfl)]

theorem freeFinish_mem_ext_nodbg (s0 : OAState) (obj : Ptr)
    (hdbg : s0.configuration.DebugOn_ = false)
    (hty : s0.configuration.HBlockInfo_.type_ = HBLOCK_TYPE.hbExtended)
    (hfound : (s0.PageList_.find? (fun pg => pg.id == obj.1)).isSome = true) :
    pageMem (freeFinish s0 obj).PageList_ obj.1 =
      setRange
        (setRange (pageMem s0.PageList_ obj.1)
          (obj.2 - s0.configuration.PadBytes_ - s0.configuration.HBlockInfo_.size_ +
            s0.configuration.HBlockInfo_.additional_ + 2)
          BASIC_HEADER_SIZE 0)
        obj.2 PTR_SIZE PTR_BYTE := by
  rw [freeFinish_PageList]
  rw [freeHeaderUpdate_PageList_extended _ obj (by rw [setPL_configuration]; exact hty)]
  rw [setPL_configuration, setPL_PageList, paintList_off s0 obj hdbg]
  rw [pageMem_updatePage_fun _ _ _ (by rw [find?_isSome_updatePage]; exact hfound)]
  rw [pageMem_updatePage_fun _ _ _ hfound]

theorem allocFromFree_mem_ext_nodbg (s : OAState) (obj : Ptr) (rest : List Ptr)
    (hdbg : s.configuration.DebugOn_ = false)
    (hty : s.configuration.HBlockInfo_.type_ = HBLOCK_TYPE.hbExtended)
    (hfound : (s.PageList_.find? (fun pg => pg.id == obj.1)).isSome = true) :
    pageMem (allocFromFree s obj rest).PageList_ obj.1 =
      setByte
        (writeU32LE
          (setByte (pageMem s.PageList_ obj.1)
            (obj.2 - s.configuration.PadBytes_ - s.configuration.HBlockInfo_.size_ +
              s.configuration.HBlockInfo_.additional_ % 256)
            ((pageMem s.PageList_ obj.1
              (obj.2 - s.configuration.PadBytes_ - s.configuration.HBlockInfo_.size_ +
                s.configuration.HBlockInfo_.additional_ % 256) + 1) % 256))
          (obj.2 - s.configuration.PadBytes_ - s.configuration.HBlockInfo_.size_ +
            s.configuration.HBlockInfo_.additional_ % 256 + 2)
          (inc32 s.stats.Allocations_))
        (obj.2 - s.configuration.PadBytes_ - s.configuration.HBlockInfo_.size_ +
          s.configuration.HBlockInfo_.additional_ % 256 + 6) 1 := by
  unfold allocFromFree
  rw [allocHeaderUpdate_PageList_extended]
  · rw [setFPS_configuration, setFPS_stats, stIAFM_Allocations]
    rw [setFPS_PageList, if_neg (by simp [hdbg])]
    rw [pageMem_updatePage_fun _ _ _ hfound]
  · rw [setFPS_configuration]
    exact hty

theorem cycleC2_char (k : Nat) :
    (cycleC2 k).FreeList_ = [pC2]
    ∧ (cycleC2 k).configuration = stC2.configuration
    ∧ (cycleC2 k).stats = { stC2.stats with
        MostObjects_ := min k 1
        Allocations_ := k % M32
        Deallocations_ := k % M32 }
    ∧ (cycleC2 k).PageList_ = [⟨0, setByte (pageMem stC2.PageList_ 0) 8 (k % 256)⟩] := by
  induction k with
  | zero =>
    refine ⟨by decide, rfl, by rfl, ?_⟩
    have hm : setByte (pageMem stC2.PageList_ 0) 8 (0 % 256) = pageMem stC2.PageList_ 0 := by
      funext x
      by_cases hx : x = 8
      · subst hx
        rw [setByte_eq]
        decide
      · rw [setByte_ne _ _ _ _ hx]
    rw [hm]
    rfl
  | succ k ih =>
    obtain ⟨A, B, C, E⟩ := ih
    have hstep : cycleC2 (k + 1) = cycleFnC2 (cycleC2 k) :=
      Function.iterate_succ_apply' cycleFnC2 k stC2
    have hcf : cycleFnC2 (cycleC2 k) = (Free (Allocate (cycleC2 k) true).2 pC2).2 := rfl
    have hpass : (cycleC2 k).configuration.UseCPPMemManager_ = false := by rw [B]; rfl
    have hdbg : (cycleC2 k).configuration.DebugOn_ = false := by rw [B]; rfl
    have hty : (cycleC2 k).configuration.HBlockInfo_.type_ = HBLOCK_TYPE.hbExtended := by
      rw [B]; rfl
    have hA := Allocate_pop (cycleC2 k) pC2 [] true hpass A
    have hA2 : (Allocate (cycleC2 k) true).2 = allocFromFree (cycleC2 k) pC2 [] := by
      rw [hA]
    obtain ⟨a1, a2, a3, a4, a5, a6, a7⟩ := allocFromFree_fields (cycleC2 k) pC2 []
    have hpass1 : (allocFromFree (cycleC2 k) pC2 []).configuration.UseCPPMemManager_ =
        false := by rw [a3]; exact hpass
    have hdbg1 : (allocFromFree (cycleC2 k) pC2 []).configuration.DebugOn_ = false := by
      rw [a3]; exact hdbg
    have hty1 : (allocFromFree (cycleC2 k) pC2 []).configuration.HBlockInfo_.type_ =
        HBLOCK_TYPE.hbExtended := by rw [a3]; exact hty
    have hfree : (Free (allocFromFree (cycleC2 k) pC2 []) pC2).1 = none :=
      Free_noDebug _ pC2 hpass1 hdbg1
    have hFfl := Free_ok_freeList _ pC2 hpass1 hfree
    have hFst := Free_ok_stats _ pC2 hpass1 hfree
    obtain ⟨c1, c2, c3, c4, c5⟩ := Free_ok_statics _ pC2 hpass1 hfree
    refine ⟨?_, ?_, ?_, ?_⟩
    · rw [hstep, hcf, hA2, hFfl, a1]
    · rw [hstep, hcf, hA2, c1, a3, B]
    · rw [hstep, hcf, hA2, hFst]
      refine OAStats_ext _ _ ?_ ?_ ?_ ?_ ?_ ?_ ?_ ?_
      · rw [stDOF_ObjectSize, a2, stIAFM_ObjectSize, C, stADM_ObjectSize, stADM_ObjectSize]
      · rw [stDOF_PageSize, a2, stIAFM_PageSize, C, stADM_PageSize, stADM_PageSize]
      · rw [stDOF_FreeObjects, a2, stIAFM_FreeObjects, C, stADM_FreeObjects,
          stADM_FreeObjects]
        decide
      · rw [stDOF_ObjectsInUse, a2, stIAFM_ObjectsInUse, C, stADM_ObjectsInUse,
          stADM_ObjectsInUse]
        decide
      · rw [stDOF_PagesInUse, a2, stIAFM_PagesInUse, C, stADM_PagesInUse, stADM_PagesInUse]
      · rw [stDOF_MostObjects, a2, stIAFM_MostObjects, C, stADM_MostObjects,
          stADM_ObjectsInUse, stADM_MostObjects]
        have h1 : inc32 stC2.stats.ObjectsInUse_ = 1 := by decide
        rw [h1]
        split_ifs <;> omega
      · rw [stDOF_Allocations, a2, stIAFM_Allocations, C, stADM_Allocations,
          stADM_Allocations]
        simp only [inc32, M32]
        omega
      · rw [stDOF_Deallocations, a2, stIAFM_Deallocations, C, stADM_Deallocations,
          stADM_Deallocations]
        simp only [inc32, M32]
        omega
    · rw [hstep, hcf, hA2]
      have hids : (Free (allocFromFree (cycleC2 k) pC2 []) pC2).2.PageList_.map Page.id =
          [0] := by
        rw [c5, a7, E]
        rfl
      rw [pageList_eq_of_ids _ hids]
      apply congrArg (fun mm => [(⟨0, mm⟩ : Page)])
      have hp1 : pC2.1 = 0 := rfl
      have hfound0 : ((cycleC2 k).PageList_.find? (fun pg => pg.id == pC2.1)).isSome =
          true := by
        rw [E, hp1]
        rfl
      have hfound1 : ((allocFromFree (cycleC2 k) pC2 []).PageList_.find?
          (fun pg => pg.id == pC2.1)).isSome = true := by
        rw [find?_isSome_eq_any, any_id_map, a7, ← any_id_map, ← find?_isSome_eq_any]
        exact hfound0
      have hgoal0 : pageMem (Free (allocFromFree (cycleC2 k) pC2 []) pC2).2.PageList_ 0 =
          pageMem (Free (allocFromFree (cycleC2 k) pC2 []) pC2).2.PageList_ pC2.1 := by
        rw [hp1]
      have hE1 : (Free (allocFromFree (cycleC2 k) pC2 []) pC2).2 =
          freeFinish { allocFromFree (cycleC2 k) pC2 [] with
            stats := { (allocFromFree (cycleC2 k) pC2 []).stats with
              Deallocations_ :=
                inc32 (allocFromFree (cycleC2 k) pC2 []).stats.Deallocations_
              ObjectsInUse_ :=
                dec32 (allocFromFree (cycleC2 k) pC2 []).stats.ObjectsInUse_ } } pC2 :=
        freeInner_ok { allocFromFree (cycleC2 k) pC2 [] with
            stats := { (allocFromFree (cycleC2 k) pC2 []).stats with
              Deallocations_ :=
                inc32 (allocFromFree (cycleC2 k) pC2 []).stats.Deallocations_
              ObjectsInUse_ :=
                dec32 (allocFromFree (cycleC2 k) pC2 []).stats.ObjectsInUse_ } }
          pC2 (by rw [setStats_configuration]; exact hpass1) hfree
      rw [hgoal0, hE1]
      rw [freeFinish_mem_ext_nodbg _ pC2
        (by rw [setStats_configuration, a3]; exact hdbg)
        (by rw [setStats_configuration, a3]; exact hty)
        (by rw [setStats_PageList]; exact hfound1)]
      rw [setStats_configuration, a3, B, setStats_PageList]
      rw [allocFromFree_mem_ext_nodbg _ pC2 _ hdbg hty hfound0]
      rw [B, C, stADM_Allocations, E, hp1, pageMem_singleton]
      have e8 : pC2.2 - stC2.configuration.PadBytes_ - stC2.configuration.HBlockInfo_.size_ +
          stC2.configuration.HBlockInfo_.additional_ % 256 = 8 := by decide
      have e10 : pC2.2 - stC2.configuration.PadBytes_ -
          stC2.configuration.HBlockInfo_.size_ +
          stC2.configuration.HBlockInfo_.additional_ + 2 = 10 := by decide
      have hp2 : pC2.2 = 15 := rfl
      rw [e8, e10, hp2]
      rw [setByte_eq]
      have harith : (k % 256 + 1) % 256 = (k + 1) % 256 := by omega
      rw [harith]
      have hz : ∀ y, y < 15 → 8 ≤ y → pageMem stC2.PageList_ 0 y = 0 := by decide
      have hPTRv : ∀ y, y < 23 → 15 ≤ y → pageMem stC2.PageList_ 0 y = PTR_BYTE := by decide
      funext x
      simp only [setByte, setRange, writeU32LE, PTR_SIZE, BASIC_HEADER_SIZE]
      split_ifs <;>
        first
          | rfl
          | omega
          | (exact hz x (by omega) (by omega))
          | (exact (hz x (by omega) (by omega)).symm)
          | (exact hPTRv x (by omega) (by omega))
          | (exact (hPTRv x (by omega) (by omega)).symm)

theorem readU32LE_setByte_out (m : Nat → Byte) (i v start : Nat)
    (h : i < start ∨ start + 4 ≤ i) :
    readU32LE (setByte m i v) start = readU32LE m start := by
  simp only [readU32LE]
  rw [setByte_ne _ _ _ _ (by omega), setByte_ne _ _ _ _ (by omega),
    setByte_ne _ _ _ _ (by omega), setByte_ne _ _ _ _ (by omega)]

theorem allocFromFree_mem_ext_dbg (s : OAState) (obj : Ptr) (rest : List Ptr)
    (hdbg : s.configuration.DebugOn_ = true)
    (hty : s.configuration.HBlockInfo_.type_ = HBLOCK_TYPE.hbExtended)
    (hfound : (s.PageList_.find? (fun pg => pg.id == obj.1)).isSome = true) :
    pageMem (allocFromFree s obj rest).PageList_ obj.1 =
      setByte
        (writeU32LE
          (setByte
            (setRange (pageMem s.PageList_ obj.1) obj.2 s.stats.ObjectSize_
              ALLOCATED_PATTERN)
            (obj.2 - s.configuration.PadBytes_ - s.configuration.HBlockInfo_.size_ +
              s.configuration.HBlockInfo_.additional_ % 256)
            ((setRange (pageMem s.PageList_ obj.1) obj.2 s.stats.ObjectSize_
                ALLOCATED_PATTERN
                (obj.2 - s.configuration.PadBytes_ - s.configuration.HBlockInfo_.size_ +
                  s.configuration.HBlockInfo_.additional_ % 256) + 1) % 256))
          (obj.2 - s.configuration.PadBytes_ - s.configuration.HBlockInfo_.size_ +
            s.configuration.HBlockInfo_.additional_ % 256 + 2)
          (inc32 s.stats.Allocations_))
        (obj.2 - s.configuration.PadBytes_ - s.configuration.HBlockInfo_.size_ +
          s.configuration.HBlockInfo_.additional_ % 256 + 6) 1 := by
  unfold allocFromFree
  rw [allocHeaderUpdate_PageList_extended]
  · rw [setFPS_configuration, setFPS_stats, stIAFM_Allocations]
    rw [setFPS_PageList, if_pos (by simp [hdbg])]
    rw [pageMem_updatePage_fun _ _ _ (by rw [find?_isSome_updatePage]; exact hfound)]
    rw [pageMem_updatePage_fun _ _ _ hfound]
  · rw [setFPS_configuration]
    exact hty

/-- C2, amended: under the extended header flavor every `Allocate`
increments the use count only through its LOW byte — the source applies
`++` through an `unsigned char *` — so the 2-byte field counts correctly
only up to 255 and wraps modulo 256 (its second byte is never written);
the 4-byte allocation-number field receives the post-increment
`Allocations_` and the 1-byte in-use flag is set to 1.  Stated for every
allocator state from which `Allocate` pops the free list (the
page-growth path ends in the same pop on the grown state), in either
debug mode. -/
theorem C2_extended_header_writes (s : OAState) (obj : Ptr) (rest : List Ptr) (u : Nat)
    (hpass : s.configuration.UseCPPMemManager_ = false)
    (hhb : s.configuration.HBlockInfo_ = HeaderBlockInfo.mk4 .hbExtended u)
    (hfl : s.FreeList_ = obj :: rest)
    (hfound : (s.PageList_.find? (fun pg => pg.id == obj.1)).isSome = true)
    (hoff : s.configuration.HBlockInfo_.size_ + s.configuration.PadBytes_ ≤ obj.2) :
    (Allocate s true).1 = Except.ok obj
    ∧ pageMem (Allocate s true).2.PageList_ obj.1
        (obj.2 - s.configuration.PadBytes_ - s.configuration.HBlockInfo_.size_ +
          s.configuration.HBlockInfo_.additional_ % 256) =
        (pageMem s.PageList_ obj.1
          (obj.2 - s.configuration.PadBytes_ - s.configuration.HBlockInfo_.size_ +
            s.configuration.HBlockInfo_.additional_ % 256) + 1) % 256
    ∧ pageMem (Allocate s true).2.PageList_ obj.1
        (obj.2 - s.configuration.PadBytes_ - s.configuration.HBlockInfo_.size_ +
          s.configuration.HBlockInfo_.additional_ % 256 + 1) =
        pageMem s.PageList_ obj.1
          (obj.2 - s.configuration.PadBytes_ - s.configuration.HBlockInfo_.size_ +
            s.configuration.HBlockInfo_.additional_ % 256 + 1)
    ∧ readU32LE (pageMem (Allocate s true).2.PageList_ obj.1)
        (obj.2 - s.configuration.PadBytes_ - s.configuration.HBlockInfo_.size_ +
          s.configuration.HBlockInfo_.additional_ % 256 + 2) =
        inc32 s.stats.Allocations_
    ∧ pageMem (Allocate s true).2.PageList_ obj.1
        (obj.2 - s.configuration.PadBytes_ - s.configuration.HBlockInfo_.size_ +
          s.configuration.HBlockInfo_.additional_ % 256 + 6) = 1
    ∧ (Allocate s true).2.stats.Allocations_ = inc32 s.stats.Allocations_ := by
  have hty : s.configuration.HBlockInfo_.type_ = HBLOCK_TYPE.hbExtended := by
    rw [hhb]
    rfl
  have hH : s.configuration.HBlockInfo_.size_ = u + 2 + BASIC_HEADER_SIZE := by
    rw [hhb]
    rfl
  have hAdd : s.configuration.HBlockInfo_.additional_ = u := by
    rw [hhb]
    rfl
  have hA := Allocate_pop s obj rest true hpass hfl
  have hA1 : (Allocate s true).1 = Except.ok obj := by rw [hA]
  have hA2 : (Allocate s true).2 = allocFromFree s obj rest := by rw [hA]
  have hpos : obj.2 - s.configuration.PadBytes_ - s.configuration.HBlockInfo_.size_ +
      s.configuration.HBlockInfo_.additional_ % 256 + 6 < obj.2 := by
    rw [hH] at hoff ⊢
    rw [hAdd]
    unfold BASIC_HEADER_SIZE at hoff ⊢
    omega
  have hmem : ∃ mB : Nat → Byte,
      pageMem (allocFromFree s obj rest).PageList_ obj.1 =
        setByte
          (writeU32LE
            (setByte mB
              (obj.2 - s.configuration.PadBytes_ - s.configuration.HBlockInfo_.size_ +
                s.configuration.HBlockInfo_.additional_ % 256)
              ((mB (obj.2 - s.configuration.PadBytes_ -
                  s.configuration.HBlockInfo_.size_ +
                  s.configuration.HBlockInfo_.additional_ % 256) + 1) % 256))
            (obj.2 - s.configuration.PadBytes_ - s.configuration.HBlockInfo_.size_ +
              s.configuration.HBlockInfo_.additional_ % 256 + 2)
            (inc32 s.stats.Allocations_))
          (obj.2 - s.configuration.PadBytes_ - s.configuration.HBlockInfo_.size_ +
            s.configuration.HBlockInfo_.additional_ % 256 + 6) 1
      ∧ ∀ x, x < obj.2 → mB x = pageMem s.PageList_ obj.1 x := by
    by_cases hdbg : s.configuration.DebugOn_ = true
    · exact ⟨setRange (pageMem s.PageList_ obj.1) obj.2 s.stats.ObjectSize_
          ALLOCATED_PATTERN,
        allocFromFree_mem_ext_dbg s obj rest hdbg hty hfound,
        fun x hx => setRange_out _ _ _ _ _ (Or.inl hx)⟩
    · exact ⟨pageMem s.PageList_ obj.1,
        allocFromFree_mem_ext_nodbg s obj rest
          (by revert hdbg; cases s.configuration.DebugOn_ <;> simp) hty hfound,
        fun x hx => rfl⟩
  obtain ⟨mB, hmemE, hbase⟩ := hmem
  refine ⟨hA1, ?_, ?_, ?_, ?_, ?_⟩
  · rw [hA2, hmemE, setByte_ne _ _ _ _ (by omega),
      writeU32LE_out _ _ _ _ (Or.inl (by omega)), setByte_eq,
      hbase _ (by omega)]
  · rw [hA2, hmemE, setByte_ne _ _ _ _ (by omega),
      writeU32LE_out _ _ _ _ (Or.inl (by omega)), setByte_ne _ _ _ _ (by omega),
      hbase _ (by omega)]
  · rw [hA2, hmemE, readU32LE_setByte_out _ _ _ _ (Or.inr (by omega)),
      readU32LE_writeU32LE]
    exact Nat.mod_eq_of_lt (inc32_lt _)
  · rw [hA2, hmemE, setByte_eq]
  · obtain ⟨a1, a2, a3, a4, a5, a6, a7⟩ := allocFromFree_fields s obj rest
    rw [hA2, a2, stIAFM_Allocations]

theorem C2_extended_header_writes_witness :
    (stC2.configuration.UseCPPMemManager_ = false
     ∧ stC2.configuration.HBlockInfo_ = HeaderBlockInfo.mk4 .hbExtended 0
     ∧ stC2.FreeList_ = [pC2]
     ∧ (stC2.PageList_.find? (fun pg => pg.id == pC2.1)).isSome = true
     ∧ stC2.configuration.HBlockInfo_.size_ + stC2.configuration.PadBytes_ ≤ pC2.2)
    ∧ (Allocate stC2 true).1 = Except.ok pC2 :=
  ⟨⟨rfl, by rfl, by rfl, by rfl, by decide⟩,
   (C2_extended_header_writes stC2 pC2 [] 0 rfl (by rfl) (by rfl) (by rfl)
     (by decide)).1⟩

/-- C2, counterexample to the claim as stated: after 256
allocate-and-free cycles of the same extended-header block, 256
allocations have happened (`Allocations_ = 256`), yet the block's
use-count field reads 0 — it wrapped at 256, so it is not the claimed
2-byte counter that counts correctly up to `2 ^ 16 - 1`. -/
theorem C2_counterexample :
    (cycleC2 256).stats.Allocations_ = 256
    ∧ readU16LE (pageMem (cycleC2 256).PageList_ 0) 8 = 0 := by
  obtain ⟨A, B, C, E⟩ := cycleC2_char 256
  constructor
  · rw [C, stADM_Allocations]
    decide
  · rw [E, pageMem_singleton]
    simp only [readU16LE]
    rw [setByte_eq, setByte_ne _ _ _ _ (by omega)]
    have h9 : pageMem stC2.PageList_ 0 9 = 0 := by decide
    rw [h9]

/-- The number of free-list nodes lying within the page `pgid` (its
offsets below `PageSize`): the count both `IsPageEmpty` and the unlink
loops of `FreePage` are driven by. -/
def countInPage (fl : List Ptr) (pgid PageSize : Nat) : Nat :=
  fl.countP (fun q => decide (q.1 = pgid ∧ q.2 < PageSize))

theorem isPageEmptyLoop_eq_count (pgid PageSize N : Nat) :
    ∀ (fl : List Ptr) (i : Nat), i < N →
    isPageEmptyLoop fl pgid PageSize N i =
      decide (N ≤ i + countInPage fl pgid PageSize) := by
  intro fl
  induction fl with
  | nil =>
    intro i hi
    unfold isPageEmptyLoop countInPage
    simp
    omega
  | cons q rest ih =>
    intro i hi
    unfold isPageEmptyLoop
    by_cases hq : q.1 = pgid ∧ q.2 < PageSize
    · rw [if_pos hq]
      have hcount : countInPage (q :: rest) pgid PageSize =
          countInPage rest pgid PageSize + 1 := by
        unfold countInPage
        rw [List.countP_cons_of_pos _ _ (by simpa using hq)]
      by_cases hN : N ≤ i + 1
      · rw [if_pos hN, hcount]
        have : N ≤ i + (countInPage rest pgid PageSize + 1) := by omega
        simp [this]
      · rw [if_neg hN, ih (i + 1) (by omega), hcount]
        have : (N ≤ i + 1 + countInPage rest pgid PageSize) ↔
            (N ≤ i + (countInPage rest pgid PageSize + 1)) := by omega
        simp [this]
    · rw [if_neg hq]
      have hcount : countInPage (q :: rest) pgid PageSize =
          countInPage rest pgid PageSize := by
        unfold countInPage
        rw [List.countP_cons_of_neg _ _ (by simpa using hq)]
      rw [ih i hi, hcount]

theorem IsPageEmpty_eq_count (s : OAState) (pg : Page)
    (hN : 1 ≤ s.configuration.ObjectsPerPage_) :
    IsPageEmpty s pg =
      decide (s.configuration.ObjectsPerPage_ ≤
        countInPage s.FreeList_ pg.id s.stats.PageSize_) := by
  unfold IsPageEmpty
  rw [isPageEmptyLoop_eq_count pg.id s.stats.PageSize_ s.configuration.ObjectsPerPage_
    s.FreeList_ 0 (by omega), Nat.zero_add]

theorem removeInPage_eq (pgid PageSize : Nat) : ∀ (fl : List Ptr),
    removeInPage fl pgid PageSize =
      (fl.filter (fun q => !decide (q.1 = pgid ∧ q.2 < PageSize)),
       countInPage fl pgid PageSize) := by
  intro fl
  induction fl with
  | nil => rfl
  | cons q rest ih =>
    unfold removeInPage
    rw [ih]
    by_cases hq : q.1 = pgid ∧ q.2 < PageSize
    · rw [if_pos hq]
      unfold countInPage
      rw [List.countP_cons_of_pos _ _ (by simpa using hq)]
      rw [List.filter_cons_of_neg (by simpa using hq)]
    · rw [if_neg hq]
      unfold countInPage
      rw [List.countP_cons_of_neg _ _ (by simp; omega)]
      rw [List.filter_cons_of_pos (by simp; omega)]

theorem countInPage_filter_other (pgid otherid PageSize : Nat) (h : otherid ≠ pgid) :
    ∀ (fl : List Ptr),
    countInPage (fl.filter (fun q => !decide (q.1 = otherid ∧ q.2 < PageSize)))
        pgid PageSize = countInPage fl pgid PageSize := by
  intro fl
  induction fl with
  | nil => rfl
  | cons q rest ih =>
    rw [List.filter_cons]
    by_cases hkeep : (!decide (q.1 = otherid ∧ q.2 < PageSize)) = true
    · rw [if_pos hkeep]
      unfold countInPage at ih ⊢
      rw [List.countP_cons, List.countP_cons, ih]
    · rw [if_neg hkeep]
      have hq : q.1 = otherid ∧ q.2 < PageSize := by simpa using hkeep
      have hno : decide (q.1 = pgid ∧ q.2 < PageSize) = false := by
        simp only [decide_eq_false_iff_not]
        rintro ⟨h1, _⟩
        exact h (by rw [← hq.1, h1])
      unfold countInPage at ih ⊢
      rw [List.countP_cons, ih, hno]
      simp

theorem setFS_FreeList (s : OAState) (fl : List Ptr) (st : OAStats) :
    ({ s with
        FreeList_ := fl
        stats := st } : OAState).FreeList_ = fl := rfl

theorem setFS_stats (s : OAState) (fl : List Ptr) (st : OAStats) :
    ({ s with
        FreeList_ := fl
        stats := st } : OAState).stats = st := rfl

theorem setFS_configuration (s : OAState) (fl : List Ptr) (st : OAStats) :
    ({ s with
        FreeList_ := fl
        stats := st } : OAState).configuration = s.configuration := rfl

theorem setFS_PageList (s : OAState) (fl : List Ptr) (st : OAStats) :
    ({ s with
        FreeList_ := fl
        stats := st } : OAState).PageList_ = s.PageList_ := rfl

theorem setFS_pageHeader (s : OAState) (fl : List Ptr) (st : OAStats) :
    ({ s with
        FreeList_ := fl
        stats := st } : OAState).pageHeader = s.pageHeader := rfl

theorem setFS_dataSize (s : OAState) (fl : List Ptr) (st : OAStats) :
    ({ s with
        FreeList_ := fl
        stats := st } : OAState).dataSize = s.dataSize := rfl

theorem stFP_FreeObjects (st : OAStats) (f p : Nat) :
    ({ st with
        FreeObjects_ := f
        PagesInUse_ := p } : OAStats).FreeObjects_ = f := rfl

theorem stFP_PagesInUse (st : OAStats) (f p : Nat) :
    ({ st with
        FreeObjects_ := f
        PagesInUse_ := p } : OAStats).PagesInUse_ = p := rfl

theorem stFP_PageSize (st : OAStats) (f p : Nat) :
    ({ st with
        FreeObjects_ := f
        PagesInUse_ := p } : OAStats).PageSize_ = st.PageSize_ := rfl

theorem stFP_ObjectSize (st : OAStats) (f p : Nat) :
    ({ st with
        FreeObjects_ := f
        PagesInUse_ := p } : OAStats).ObjectSize_ = st.ObjectSize_ := rfl

theorem stFP_ObjectsInUse (st : OAStats) (f p : Nat) :
    ({ st with
        FreeObjects_ := f
        PagesInUse_ := p } : OAStats).ObjectsInUse_ = st.ObjectsInUse_ := rfl

theorem FreePage_fields (s : OAState) (pg : Page) :
    (FreePage s pg).FreeList_ =
      s.FreeList_.filter (fun q => !decide (q.1 = pg.id ∧ q.2 < s.stats.PageSize_))
    ∧ (FreePage s pg).stats.FreeObjects_ =
        dec32^[countInPage s.FreeList_ pg.id s.stats.PageSize_] s.stats.FreeObjects_
    ∧ (FreePage s pg).stats.PagesInUse_ = dec32 s.stats.PagesInUse_
    ∧ (FreePage s pg).configuration = s.configuration
    ∧ (FreePage s pg).stats.PageSize_ = s.stats.PageSize_
    ∧ (FreePage s pg).stats.ObjectSize_ = s.stats.ObjectSize_
    ∧ (FreePage s pg).PageList_ = s.PageList_
    ∧ (FreePage s pg).pageHeader = s.pageHeader
    ∧ (FreePage s pg).dataSize = s.dataSize := by
  have hFP : FreePage s pg = { s with
      FreeList_ := (removeInPage s.FreeList_ pg.id s.stats.PageSize_).1
      stats := { s.stats with
        FreeObjects_ :=
          dec32^[(removeInPage s.FreeList_ pg.id s.stats.PageSize_).2]
            s.stats.FreeObjects_
        PagesInUse_ := dec32 s.stats.PagesInUse_ } } := rfl
  refine ⟨?_, ?_, ?_, ?_, ?_, ?_, ?_, ?_, ?_⟩
  · rw [hFP, setFS_FreeList, removeInPage_eq]
  · rw [hFP, setFS_stats, stFP_FreeObjects, removeInPage_eq]
  · rw [hFP, setFS_stats, stFP_PagesInUse]
  · rw [hFP, setFS_configuration]
  · rw [hFP, setFS_stats, stFP_PageSize]
  · rw [hFP, setFS_stats, stFP_ObjectSize]
  · rw [hFP, setFS_PageList]
  · rw [hFP, setFS_pageHeader]
  · rw [hFP, setFS_dataSize]

theorem IsPageEmpty_FreePage (s : OAState) (pgA pgB : Page)
    (hN : 1 ≤ s.configuration.ObjectsPerPage_) (hne : pgA.id ≠ pgB.id) :
    IsPageEmpty (FreePage s pgA) pgB = IsPageEmpty s pgB := by
  obtain ⟨f1, f2, f3, f4, f5, f6, f7, f8, f9⟩ := FreePage_fields s pgA
  rw [IsPageEmpty_eq_count _ _ (by rw [f4]; exact hN), IsPageEmpty_eq_count s pgB hN]
  rw [f4, f5, f1, countInPage_filter_other pgB.id pgA.id s.stats.PageSize_ hne]

theorem anyCongr (l : List Page) (f g : Page → Bool) (h : ∀ a ∈ l, f a = g a) :
    l.any f = l.any g := by
  induction l with
  | nil => rfl
  | cons a rest ih =>
    rw [List.any_cons, List.any_cons, h a (by simp),
      ih (fun b hb => h b (by simp [hb]))]

/-- `q` lies in some page of `pages` that is empty in state `s` (by the
code's count criterion): the nodes `FreeEmptyPages` unlinks. -/
def inEmptyPage (s : OAState) (pages : List Page) (q : Ptr) : Bool :=
  pages.any (fun pg => IsPageEmpty s pg && decide (q.1 = pg.id) &&
    decide (q.2 < s.stats.PageSize_))

theorem inEmptyPage_FreePage (s : OAState) (pg : Page) (rest : List Page) (q : Ptr)
    (hN : 1 ≤ s.configuration.ObjectsPerPage_)
    (hnin : ∀ p ∈ rest, pg.id ≠ p.id) :
    inEmptyPage (FreePage s pg) rest q = inEmptyPage s rest q := by
  obtain ⟨f1, f2, f3, f4, f5, f6, f7, f8, f9⟩ := FreePage_fields s pg
  unfold inEmptyPage
  rw [f5]
  exact anyCongr rest _ _ (fun p hp => by
    rw [IsPageEmpty_FreePage s pg p hN (hnin p hp)])

theorem countPCongr {α : Type} (l : List α) (f g : α → Bool) (h : ∀ a ∈ l, f a = g a) :
    l.countP f = l.countP g := by
  induction l with
  | nil => rfl
  | cons a rest ih =>
    rw [List.countP_cons, List.countP_cons, h a (by simp),
      ih (fun b hb => h b (by simp [hb]))]

theorem filterCongr {α : Type} (l : List α) (f g : α → Bool) (h : ∀ a ∈ l, f a = g a) :
    l.filter f = l.filter g := by
  induction l with
  | nil => rfl
  | cons a rest ih =>
    rw [List.filter_cons, List.filter_cons, h a (by simp),
      ih (fun b hb => h b (by simp [hb]))]

theorem filterFilter {α : Type} (l : List α) (f g : α → Bool) :
    (l.filter f).filter g = l.filter (fun a => f a && g a) := by
  induction l with
  | nil => rfl
  | cons a rest ih =>
    by_cases hf : f a = true
    · rw [List.filter_cons_of_pos hf, List.filter_cons, List.filter_cons, hf,
        Bool.true_and, ih]
    · have hf' : f a = false := by simp at hf; exact hf
      rw [List.filter_cons_of_neg (by simp [hf']), List.filter_cons, hf',
        Bool.false_and, ih]
      simp

theorem lengthFilterNot {α : Type} (l : List α) (f : α → Bool) :
    (l.filter (fun a => !f a)).length + l.countP f = l.length := by
  induction l with
  | nil => rfl
  | cons a rest ih =>
    rw [List.filter_cons, List.countP_cons]
    by_cases hf : f a = true
    · rw [hf]
      rw [if_neg (by decide), if_pos (by decide)]
      simp only [List.length_cons]
      omega
    · have hf' : f a = false := by simp at hf; exact hf
      rw [hf']
      rw [if_pos (by decide), if_neg (by decide)]
      simp only [List.length_cons]
      omega

theorem lengthFilterLe {α : Type} (l : List α) (f : α → Bool) :
    (l.filter f).length ≤ l.length := by
  induction l with
  | nil => exact Nat.le_refl _
  | cons a rest ih =>
    rw [List.filter_cons]
    by_cases hf : f a = true
    · rw [if_pos hf]
      simp only [List.length_cons]
      omega
    · rw [if_neg hf]
      simp only [List.length_cons]
      omega

theorem feLoop2_char : ∀ (pages : List Page) (s : OAState),
    1 ≤ s.configuration.ObjectsPerPage_ →
    (pages.map Page.id).Nodup →
    (feLoop2 pages s).1 = pages.filter (fun pg => !IsPageEmpty s pg)
    ∧ (feLoop2 pages s).2.1 = pages.countP (fun pg => IsPageEmpty s pg)
    ∧ (feLoop2 pages s).2.2.FreeList_ =
        s.FreeList_.filter (fun q => !inEmptyPage s pages q)
    ∧ (feLoop2 pages s).2.2.FreeList_.length ≤ s.FreeList_.length
    ∧ (feLoop2 pages s).2.2.stats.FreeObjects_ =
        dec32^[s.FreeList_.length - (feLoop2 pages s).2.2.FreeList_.length]
          s.stats.FreeObjects_
    ∧ (feLoop2 pages s).2.2.stats.PagesInUse_ =
        dec32^[pages.countP (fun pg => IsPageEmpty s pg)] s.stats.PagesInUse_
    ∧ (feLoop2 pages s).2.2.configuration = s.configuration
    ∧ (feLoop2 pages s).2.2.stats.PageSize_ = s.stats.PageSize_
    ∧ (feLoop2 pages s).2.2.PageList_ = s.PageList_ := by
  intro pages
  induction pages with
  | nil =>
    intro s hN hnd
    refine ⟨rfl, rfl, ?_, Nat.le_refl _, ?_, ?_, rfl, rfl, rfl⟩
    · show s.FreeList_ = s.FreeList_.filter fun q => !inEmptyPage s [] q
      simp [inEmptyPage]
    · show s.stats.FreeObjects_ =
        dec32^[s.FreeList_.length - s.FreeList_.length] s.stats.FreeObjects_
      simp
    · show s.stats.PagesInUse_ =
        dec32^[List.countP (fun pg => IsPageEmpty s pg) []] s.stats.PagesInUse_
      simp
  | cons pg rest ih =>
    intro s hN hnd
    rw [List.map_cons, List.nodup_cons] at hnd
    obtain ⟨hpgnin, hnd'⟩ := hnd
    have hnin : ∀ p ∈ rest, pg.id ≠ p.id := by
      intro p hp hcontra
      exact hpgnin (hcontra ▸ List.mem_map_of_mem Page.id hp)
    have hcons : feLoop2 (pg :: rest) s =
        if IsPageEmpty s pg then
          ((feLoop2 rest (FreePage s pg)).1,
            (feLoop2 rest (FreePage s pg)).2.1 + 1,
            (feLoop2 rest (FreePage s pg)).2.2)
        else ((pg :: (feLoop2 rest s).1), (feLoop2 rest s).2.1,
          (feLoop2 rest s).2.2) := rfl
    by_cases hE : IsPageEmpty s pg = true
    · obtain ⟨f1, f2, f3, f4, f5, f6, f7, f8, f9⟩ := FreePage_fields s pg
      obtain ⟨i1, i2, i3, i4, i5, i6, i7, i8, i9⟩ :=
        ih (FreePage s pg) (by rw [f4]; exact hN) hnd'
      have hinv : ∀ p ∈ rest, IsPageEmpty (FreePage s pg) p = IsPageEmpty s p :=
        fun p hp => IsPageEmpty_FreePage s pg p hN (hnin p hp)
      have hlen1 : (FreePage s pg).FreeList_.length ≤ s.FreeList_.length := by
        rw [f1]
        exact lengthFilterLe _ _
      have hlenf : (FreePage s pg).FreeList_.length +
          countInPage s.FreeList_ pg.id s.stats.PageSize_ = s.FreeList_.length := by
        rw [f1]
        exact lengthFilterNot s.FreeList_ _
      rw [hcons, if_pos hE]
      refine ⟨?_, ?_, ?_, ?_, ?_, ?_, ?_, ?_, ?_⟩
      · rw [i1, List.filter_cons_of_neg (by simp [hE])]
        exact filterCongr rest _ _ (fun p hp => by rw [hinv p hp])
      · rw [i2, List.countP_cons_of_pos _ _ (by simp [hE])]
        rw [countPCongr rest _ _ (fun p hp => by rw [hinv p hp])]
      · rw [i3, f1, filterFilter]
        refine filterCongr s.FreeList_ _ _ (fun q hq => ?_)
        rw [inEmptyPage_FreePage s pg rest q hN hnin]
        unfold inEmptyPage
        rw [List.any_cons, hE]
        by_cases h1 : q.1 = pg.id <;> by_cases h2 : q.2 < s.stats.PageSize_ <;>
          simp [h1, h2]
      · exact Nat.le_trans i4 hlen1
      · rw [i5, f2, ← Function.iterate_add_apply]
        have hidx : (FreePage s pg).FreeList_.length -
            (feLoop2 rest (FreePage s pg)).2.2.FreeList_.length +
            countInPage s.FreeList_ pg.id s.stats.PageSize_ =
            s.FreeList_.length - (feLoop2 rest (FreePage s pg)).2.2.FreeList_.length := by
          omega
        rw [hidx]
      · rw [countPCongr rest _ _ (fun p hp => hinv p hp)] at i6
        rw [i6, f3, ← Function.iterate_succ_apply,
          List.countP_cons_of_pos _ _ (by simp [hE])]
      · exact i7.trans f4
      · exact i8.trans f5
      · exact i9.trans f7
    · have hE' : IsPageEmpty s pg = false := by
        rw [Bool.not_eq_true] at hE
        exact hE
      obtain ⟨i1, i2, i3, i4, i5, i6, i7, i8, i9⟩ := ih s hN hnd'
      rw [hcons, if_neg (by simp [hE'])]
      refine ⟨?_, ?_, ?_, ?_, ?_, ?_, ?_, ?_, ?_⟩
      · rw [List.filter_cons_of_pos (by simp [hE'])]
        exact congrArg (List.cons pg) i1
      · rw [i2, List.countP_cons_of_neg _ _ (by simp [hE'])]
      · rw [i3]
        refine filterCongr s.FreeList_ _ _ (fun q hq => ?_)
        unfold inEmptyPage
        rw [List.any_cons, hE']
        simp
      · exact i4
      · exact i5
      · rw [i6, List.countP_cons_of_neg _ _ (by simp [hE'])]
      · exact i7
      · exact i8
      · exact i9

theorem countInPage_filter_inEmpty (s : OAState) (tw : List Page) (pid PS : Nat)
    (h : ∀ pg ∈ tw, pg.id ≠ pid) : ∀ (fl : List Ptr),
    countInPage (fl.filter (fun q => !inEmptyPage s tw q)) pid PS =
      countInPage fl pid PS := by
  intro fl
  induction fl with
  | nil => rfl
  | cons q rest ih =>
    rw [List.filter_cons]
    by_cases hk : (!inEmptyPage s tw q) = true
    · rw [if_pos hk]
      unfold countInPage at ih ⊢
      rw [List.countP_cons, List.countP_cons, ih]
    · have hin : inEmptyPage s tw q = true := by simpa using hk
      rw [if_neg hk]
      unfold inEmptyPage at hin
      rw [List.any_eq_true] at hin
      obtain ⟨pg, hpg, hq⟩ := hin
      rw [Bool.and_eq_true, Bool.and_eq_true] at hq
      have hq1 : q.1 = pg.id := by
        have := hq.1.2
        simpa using this
      have hno : decide (q.1 = pid ∧ q.2 < PS) = false := by
        simp only [decide_eq_false_iff_not]
        rintro ⟨h1, _⟩
        exact h pg hpg (by rw [← hq1, h1])
      unfold countInPage at ih ⊢
      rw [List.countP_cons, ih, hno]
      simp

theorem dropWhileCongr {α : Type} : ∀ (l : List α) (f g : α → Bool),
    (∀ a ∈ l, f a = g a) → l.dropWhile f = l.dropWhile g := by
  intro l
  induction l with
  | nil => intro f g _; rfl
  | cons a t ih =>
    intro f g h
    rw [List.dropWhile_cons, List.dropWhile_cons, h a (by simp)]
    split
    · exact ih f g (fun b hb => h b (by simp [hb]))
    · rfl

theorem takeWhileCongr {α : Type} : ∀ (l : List α) (f g : α → Bool),
    (∀ a ∈ l, f a = g a) → l.takeWhile f = l.takeWhile g := by
  intro l
  induction l with
  | nil => intro f g _; rfl
  | cons a t ih =>
    intro f g h
    rw [List.takeWhile_cons, List.takeWhile_cons, h a (by simp)]
    split
    · rw [ih f g (fun b hb => h b (by simp [hb]))]
    · rfl

theorem feLoop1_char : ∀ (pages : List Page) (s : OAState),
    1 ≤ s.configuration.ObjectsPerPage_ →
    (pages.map Page.id).Nodup →
    (feLoop1 pages s).1 = pages.dropWhile (fun pg => IsPageEmpty s pg)
    ∧ (feLoop1 pages s).2.1 = (pages.takeWhile (fun pg => IsPageEmpty s pg)).length
    ∧ (feLoop1 pages s).2.2.FreeList_ =
        s.FreeList_.filter (fun q =>
          !inEmptyPage s (pages.takeWhile (fun pg => IsPageEmpty s pg)) q)
    ∧ (feLoop1 pages s).2.2.FreeList_.length ≤ s.FreeList_.length
    ∧ (feLoop1 pages s).2.2.stats.FreeObjects_ =
        dec32^[s.FreeList_.length - (feLoop1 pages s).2.2.FreeList_.length]
          s.stats.FreeObjects_
    ∧ (feLoop1 pages s).2.2.stats.PagesInUse_ =
        dec32^[(pages.takeWhile (fun pg => IsPageEmpty s pg)).length] s.stats.PagesInUse_
    ∧ (feLoop1 pages s).2.2.configuration = s.configuration
    ∧ (feLoop1 pages s).2.2.stats.PageSize_ = s.stats.PageSize_
    ∧ (feLoop1 pages s).2.2.PageList_ = s.PageList_ := by
  intro pages
  induction pages with
  | nil =>
    intro s hN hnd
    refine ⟨rfl, rfl, ?_, Nat.le_refl _, ?_, ?_, rfl, rfl, rfl⟩
    · show s.FreeList_ = s.FreeList_.filter fun q => !inEmptyPage s [] q
      simp [inEmptyPage]
    · show s.stats.FreeObjects_ =
        dec32^[s.FreeList_.length - s.FreeList_.length] s.stats.FreeObjects_
      simp
    · show s.stats.PagesInUse_ = dec32^[List.length []] s.stats.PagesInUse_
      simp
  | cons pg rest ih =>
    intro s hN hnd
    rw [List.map_cons, List.nodup_cons] at hnd
    obtain ⟨hpgnin, hnd'⟩ := hnd
    have hnin : ∀ p ∈ rest, pg.id ≠ p.id := by
      intro p hp hcontra
      exact hpgnin (hcontra ▸ List.mem_map_of_mem Page.id hp)
    have hcons : feLoop1 (pg :: rest) s =
        if IsPageEmpty s pg then
          ((feLoop1 rest (FreePage s pg)).1,
            (feLoop1 rest (FreePage s pg)).2.1 + 1,
            (feLoop1 rest (FreePage s pg)).2.2)
        else (pg :: rest, 0, s) := rfl
    by_cases hE : IsPageEmpty s pg = true
    · obtain ⟨f1, f2, f3, f4, f5, f6, f7, f8, f9⟩ := FreePage_fields s pg
      obtain ⟨i1, i2, i3, i4, i5, i6, i7, i8, i9⟩ :=
        ih (FreePage s pg) (by rw [f4]; exact hN) hnd'
      have hinv : ∀ p ∈ rest, IsPageEmpty (FreePage s pg) p = IsPageEmpty s p :=
        fun p hp => IsPageEmpty_FreePage s pg p hN (hnin p hp)
      have hlen1 : (FreePage s pg).FreeList_.length ≤ s.FreeList_.length := by
        rw [f1]
        exact lengthFilterLe _ _
      have hlenf : (FreePage s pg).FreeList_.length +
          countInPage s.FreeList_ pg.id s.stats.PageSize_ = s.FreeList_.length := by
        rw [f1]
        exact lengthFilterNot s.FreeList_ _
      have hdw : (pg :: rest).dropWhile (fun p => IsPageEmpty s p) =
          rest.dropWhile (fun p => IsPageEmpty s p) := by
        rw [List.dropWhile_cons, if_pos (by simp [hE])]
      have htw : (pg :: rest).takeWhile (fun p => IsPageEmpty s p) =
          pg :: rest.takeWhile (fun p => IsPageEmpty s p) := by
        rw [List.takeWhile_cons, if_pos (by simp [hE])]
      have hdwCongr : rest.dropWhile (fun p => IsPageEmpty (FreePage s pg) p) =
          rest.dropWhile (fun p => IsPageEmpty s p) :=
        dropWhileCongr rest _ _ hinv
      have htwCongr : rest.takeWhile (fun p => IsPageEmpty (FreePage s pg) p) =
          rest.takeWhile (fun p => IsPageEmpty s p) :=
        takeWhileCongr rest _ _ hinv
      rw [hcons, if_pos hE]
      refine ⟨?_, ?_, ?_, ?_, ?_, ?_, ?_, ?_, ?_⟩
      · rw [i1, hdw, hdwCongr]
      · rw [i2, htw, List.length_cons, htwCongr]
      · rw [i3, f1, filterFilter, htw]
        refine filterCongr s.FreeList_ _ _ (fun q hq => ?_)
        rw [show inEmptyPage (FreePage s pg)
            (rest.takeWhile (fun p => IsPageEmpty (FreePage s pg) p)) q =
            inEmptyPage s (rest.takeWhile (fun p => IsPageEmpty s p)) q from ?_]
        · unfold inEmptyPage
          rw [List.any_cons, hE]
          by_cases h1 : q.1 = pg.id <;> by_cases h2 : q.2 < s.stats.PageSize_ <;>
            simp [h1, h2]
        · rw [htwCongr]
          exact inEmptyPage_FreePage s pg _ q hN
            (fun p hp => hnin p ((List.takeWhile_sublist _).subset hp))
      · exact Nat.le_trans i4 hlen1
      · rw [i5, f2, ← Function.iterate_add_apply]
        have hidx : (FreePage s pg).FreeList_.length -
            (feLoop1 rest (FreePage s pg)).2.2.FreeList_.length +
            countInPage s.FreeList_ pg.id s.stats.PageSize_ =
            s.FreeList_.length - (feLoop1 rest (FreePage s pg)).2.2.FreeList_.length := by
          omega
        rw [hidx]
      · rw [i6, f3, ← Function.iterate_succ_apply, htwCongr, htw, List.length_cons]
      · exact i7.trans f4
      · exact i8.trans f5
      · exact i9.trans f7
    · have hE' : IsPageEmpty s pg = false := by
        rw [Bool.not_eq_true] at hE
        exact hE
      rw [hcons, if_neg (by simp [hE'])]
      have htw : (pg :: rest).takeWhile (fun p => IsPageEmpty s p) = [] := by
        rw [List.takeWhile_cons, if_neg (by simp [hE'])]
      have hdw : (pg :: rest).dropWhile (fun p => IsPageEmpty s p) = pg :: rest := by
        rw [List.dropWhile_cons, if_neg (by simp [hE'])]
      refine ⟨by rw [hdw], by rw [htw]; rfl, ?_, Nat.le_refl _, ?_, ?_, rfl, rfl, rfl⟩
      · rw [htw]
        show s.FreeList_ = s.FreeList_.filter fun q => !inEmptyPage s [] q
        simp [inEmptyPage]
      · show s.stats.FreeObjects_ =
          dec32^[s.FreeList_.length - s.FreeList_.length] s.stats.FreeObjects_
        simp
      · rw [htw]
        show s.stats.PagesInUse_ = dec32^[List.length []] s.stats.PagesInUse_
        simp

theorem countPAllTrue {α : Type} : ∀ (l : List α) (f : α → Bool),
    (∀ a ∈ l, f a = true) → l.countP f = l.length := by
  intro l
  induction l with
  | nil => intro f _; rfl
  | cons a rest ih =>
    intro f h
    rw [List.countP_cons, if_pos (h a (by simp)), List.length_cons,
      ih f (fun b hb => h b (by simp [hb]))]

theorem filterNilOfAll {α : Type} : ∀ (l : List α) (f : α → Bool),
    (∀ a ∈ l, f a = false) → l.filter f = [] := by
  intro l
  induction l with
  | nil => intro f _; rfl
  | cons a rest ih =>
    intro f h
    rw [List.filter_cons, if_neg (by simp [h a (by simp)]),
      ih f (fun b hb => h b (by simp [hb]))]

theorem dropWhileHeadFalse {α : Type} : ∀ (l : List α) (p : α → Bool) (a : α)
    (t : List α), l.dropWhile p = a :: t → p a = false := by
  intro l
  induction l with
  | nil =>
    intro p a t h
    exact absurd h (by simp)
  | cons b rest ih =>
    intro p a t h
    rw [List.dropWhile_cons] at h
    split at h
    · exact ih p a t h
    · injection h with h1 _
      subst h1
      simpa using (by assumption : ¬ p b = true)

theorem FreeEmptyPages_char (s : OAState)
    (hN : 1 ≤ s.configuration.ObjectsPerPage_)
    (hnd : (s.PageList_.map Page.id).Nodup) :
    (FreeEmptyPages s).1 = s.PageList_.countP (fun pg => IsPageEmpty s pg)
    ∧ (FreeEmptyPages s).2.PageList_ =
        s.PageList_.filter (fun pg => !IsPageEmpty s pg)
    ∧ (FreeEmptyPages s).2.FreeList_ =
        s.FreeList_.filter (fun q => !inEmptyPage s s.PageList_ q)
    ∧ (FreeEmptyPages s).2.stats.FreeObjects_ =
        dec32^[s.FreeList_.length - (FreeEmptyPages s).2.FreeList_.length]
          s.stats.FreeObjects_
    ∧ (FreeEmptyPages s).2.stats.PagesInUse_ =
        dec32^[s.PageList_.countP (fun pg => IsPageEmpty s pg)] s.stats.PagesInUse_
    ∧ (FreeEmptyPages s).2.configuration = s.configuration := by
  rcases hPL : s.PageList_ with _ | ⟨pg, rest⟩
  · have hred : FreeEmptyPages s = (0, s) := by
      unfold FreeEmptyPages
      rw [hPL]
    rw [hred]
    refine ⟨by simp, ?_, ?_, by simp, by simp, rfl⟩
    · show s.PageList_ = _
      rw [hPL]
      rfl
    · show s.FreeList_ = _
      simp [inEmptyPage]
  · rw [hPL] at hnd
    obtain ⟨i1, i2, i3, i4, i5, i6, i7, i8, i9⟩ := feLoop1_char (pg :: rest) s hN hnd
    have hsplit : ((pg :: rest).takeWhile (fun p => IsPageEmpty s p)) ++
        ((pg :: rest).dropWhile (fun p => IsPageEmpty s p)) = pg :: rest :=
      List.takeWhile_append_dropWhile _ _
    have hred : FreeEmptyPages s =
        (match (feLoop1 (pg :: rest) s).1 with
         | [] => ((feLoop1 (pg :: rest) s).2.1,
             { (feLoop1 (pg :: rest) s).2.2 with PageList_ := [] })
         | pg2 :: rest2 =>
             ((feLoop1 (pg :: rest) s).2.1 +
                 (feLoop2 rest2 (feLoop1 (pg :: rest) s).2.2).2.1,
               { (feLoop2 rest2 (feLoop1 (pg :: rest) s).2.2).2.2 with
                 PageList_ := pg2 ::
                   (feLoop2 rest2 (feLoop1 (pg :: rest) s).2.2).1 })) := by
      unfold FreeEmptyPages
      rw [hPL]
    rcases hdw : (pg :: rest).dropWhile (fun p => IsPageEmpty s p) with _ | ⟨pg2, rest2⟩
    · have h1 : (feLoop1 (pg :: rest) s).1 = [] := by rw [i1, hdw]
      have hred2 : FreeEmptyPages s =
          ((feLoop1 (pg :: rest) s).2.1,
            { (feLoop1 (pg :: rest) s).2.2 with PageList_ := [] }) := by
        rw [hred, h1]
      have htw : (pg :: rest).takeWhile (fun p => IsPageEmpty s p) = pg :: rest := by
        have h := hsplit
        rw [hdw, List.append_nil] at h
        exact h
      have hall : ∀ a ∈ pg :: rest, IsPageEmpty s a = true := by
        intro a ha
        have hmem : a ∈ (pg :: rest).takeWhile (fun p => IsPageEmpty s p) := by
          rw [htw]
          exact ha
        exact List.mem_takeWhile_imp hmem
      have hcnt : (pg :: rest).countP (fun p => IsPageEmpty s p) = (pg :: rest).length :=
        countPAllTrue _ _ hall
      refine ⟨?_, ?_, ?_, ?_, ?_, ?_⟩
      · rw [hred2]
        show (feLoop1 (pg :: rest) s).2.1 = _
        rw [i2, htw, hcnt]
      · rw [hred2]
        show ([] : List Page) = _
        rw [filterNilOfAll _ _ (fun a ha => by simp [hall a ha])]
      · rw [hred2]
        show (feLoop1 (pg :: rest) s).2.2.FreeList_ = _
        rw [i3, htw]
      · rw [hred2]
        show (feLoop1 (pg :: rest) s).2.2.stats.FreeObjects_ =
          dec32^[s.FreeList_.length - (feLoop1 (pg :: rest) s).2.2.FreeList_.length]
            s.stats.FreeObjects_
        exact i5
      · rw [hred2]
        show (feLoop1 (pg :: rest) s).2.2.stats.PagesInUse_ = _
        rw [i6, htw, hcnt]
      · rw [hred2]
        show (feLoop1 (pg :: rest) s).2.2.configuration = _
        exact i7
    · have h1 : (feLoop1 (pg :: rest) s).1 = pg2 :: rest2 := by rw [i1, hdw]
      have hred2 : FreeEmptyPages s =
          ((feLoop1 (pg :: rest) s).2.1 +
              (feLoop2 rest2 (feLoop1 (pg :: rest) s).2.2).2.1,
            { (feLoop2 rest2 (feLoop1 (pg :: rest) s).2.2).2.2 with
              PageList_ := pg2 ::
                (feLoop2 rest2 (feLoop1 (pg :: rest) s).2.2).1 }) := by
        rw [hred, h1]
      have hE2 : IsPageEmpty s pg2 = false := dropWhileHeadFalse _ _ _ _ hdw
      have hsplit2 : ((pg :: rest).takeWhile (fun p => IsPageEmpty s p)) ++
          (pg2 :: rest2) = pg :: rest := by
        rw [← hdw]
        exact hsplit
      have hnd2 : ((((pg :: rest).takeWhile (fun p => IsPageEmpty s p)).map Page.id) ++
          ((pg2 :: rest2).map Page.id)).Nodup := by
        rw [← List.map_append, hsplit2]
        exact hnd
      have hndR : ((pg2 :: rest2).map Page.id).Nodup := hnd2.of_append_right
      have hndrest2 : (rest2.map Page.id).Nodup := by
        rw [List.map_cons] at hndR
        exact (List.nodup_cons.mp hndR).2
      have hdisj := List.disjoint_of_nodup_append hnd2
      obtain ⟨j1, j2, j3, j4, j5, j6, j7, j8, j9⟩ :=
        feLoop2_char rest2 (feLoop1 (pg :: rest) s).2.2 (by rw [i7]; exact hN) hndrest2
      have hIE : ∀ p, p ∈ pg2 :: rest2 →
          IsPageEmpty (feLoop1 (pg :: rest) s).2.2 p = IsPageEmpty s p := by
        intro p hp
        have hids : ∀ pg' ∈ (pg :: rest).takeWhile (fun p => IsPageEmpty s p),
            pg'.id ≠ p.id := by
          intro pg' hpg' heq
          exact hdisj (List.mem_map_of_mem Page.id hpg')
            (heq ▸ List.mem_map_of_mem Page.id hp)
        rw [IsPageEmpty_eq_count _ p (by rw [i7]; exact hN),
          IsPageEmpty_eq_count s p hN, i7, i8, i3,
          countInPage_filter_inEmpty s _ p.id s.stats.PageSize_ hids s.FreeList_]
      have hIErest : ∀ p ∈ rest2,
          IsPageEmpty (feLoop1 (pg :: rest) s).2.2 p = IsPageEmpty s p :=
        fun p hp => hIE p (by simp [hp])
      have htwAll : ∀ a ∈ (pg :: rest).takeWhile (fun p => IsPageEmpty s p),
          IsPageEmpty s a = true :=
        fun a ha => List.mem_takeWhile_imp ha
      have hcntTW : ((pg :: rest).takeWhile (fun p => IsPageEmpty s p)).countP
          (fun p => IsPageEmpty s p) =
          ((pg :: rest).takeWhile (fun p => IsPageEmpty s p)).length :=
        countPAllTrue _ _ htwAll
      refine ⟨?_, ?_, ?_, ?_, ?_, ?_⟩
      · rw [hred2]
        show (feLoop1 (pg :: rest) s).2.1 +
          (feLoop2 rest2 (feLoop1 (pg :: rest) s).2.2).2.1 = _
        rw [i2, j2, countPCongr rest2 _ (fun pg => IsPageEmpty s pg) hIErest]
        conv_rhs => rw [← hsplit2]
        rw [List.countP_append, List.countP_cons, if_neg (by simp [hE2]), hcntTW]
        omega
      · rw [hred2]
        show pg2 :: (feLoop2 rest2 (feLoop1 (pg :: rest) s).2.2).1 = _
        rw [j1, filterCongr rest2 _ (fun pg => !IsPageEmpty s pg)
          (fun p hp => by rw [hIErest p hp])]
        conv_rhs => rw [← hsplit2]
        rw [List.filter_append,
          filterNilOfAll ((pg :: rest).takeWhile (fun p => IsPageEmpty s p)) _
            (fun a ha => by simp [htwAll a ha]),
          List.filter_cons, if_pos (by simp [hE2]), List.nil_append]
      · rw [hred2]
        show (feLoop2 rest2 (feLoop1 (pg :: rest) s).2.2).2.2.FreeList_ = _
        rw [j3, i3, filterFilter]
        refine filterCongr _ _ _ (fun q hq => ?_)
        have hiep : inEmptyPage (feLoop1 (pg :: rest) s).2.2 rest2 q =
            inEmptyPage s rest2 q := by
          unfold inEmptyPage
          rw [i8]
          exact anyCongr rest2 _ _ (fun p hp => by rw [hIErest p hp])
        rw [hiep]
        conv_rhs => rw [← hsplit2]
        unfold inEmptyPage
        rw [List.any_append, List.any_cons, hE2, Bool.false_and, Bool.false_and,
          Bool.false_or, Bool.not_or]
      · rw [hred2]
        show (feLoop2 rest2 (feLoop1 (pg :: rest) s).2.2).2.2.stats.FreeObjects_ =
          dec32^[s.FreeList_.length -
            (feLoop2 rest2 (feLoop1 (pg :: rest) s).2.2).2.2.FreeList_.length]
            s.stats.FreeObjects_
        rw [j5, i5, ← Function.iterate_add_apply]
        have ha := i4
        have hb := j4
        have hidx : (feLoop1 (pg :: rest) s).2.2.FreeList_.length -
            (feLoop2 rest2 (feLoop1 (pg :: rest) s).2.2).2.2.FreeList_.length +
            (s.FreeList_.length - (feLoop1 (pg :: rest) s).2.2.FreeList_.length) =
            s.FreeList_.length -
            (feLoop2 rest2 (feLoop1 (pg :: rest) s).2.2).2.2.FreeList_.length := by
          omega
        rw [hidx]
      · rw [hred2]
        show (feLoop2 rest2 (feLoop1 (pg :: rest) s).2.2).2.2.stats.PagesInUse_ = _
        rw [j6, countPCongr rest2 _ (fun pg => IsPageEmpty s pg) hIErest, i6,
          ← Function.iterate_add_apply]
        have hidx : rest2.countP (fun p => IsPageEmpty s p) +
            ((pg :: rest).takeWhile (fun p => IsPageEmpty s p)).length =
            (pg :: rest).countP (fun p => IsPageEmpty s p) := by
          conv_rhs => rw [← hsplit2]
          rw [List.countP_append, List.countP_cons, if_neg (by simp [hE2]), hcntTW]
          omega
        rw [hidx]
      · rw [hred2]
        show (feLoop2 rest2 (feLoop1 (pg :: rest) s).2.2).2.2.configuration = _
        rw [j7, i7]

theorem IsPageEmpty_iff_payloads (s : OAState) (pg : Page)
    (hN : 1 ≤ s.configuration.ObjectsPerPage_)
    (hD : 1 ≤ s.dataSize)
    (hlast : s.pageHeader + (s.configuration.ObjectsPerPage_ - 1) * s.dataSize <
      s.stats.PageSize_)
    (hwf : ∀ q ∈ s.FreeList_, ∃ j < s.configuration.ObjectsPerPage_,
        q.2 = s.pageHeader + j * s.dataSize)
    (hnodup : s.FreeList_.Nodup) :
    IsPageEmpty s pg = true ↔
      ∀ j < s.configuration.ObjectsPerPage_,
        ((pg.id, s.pageHeader + j * s.dataSize) : Ptr) ∈ s.FreeList_ := by
  have hplt : ∀ j, j < s.configuration.ObjectsPerPage_ →
      s.pageHeader + j * s.dataSize < s.stats.PageSize_ := by
    intro j hj
    have h1 : j * s.dataSize ≤ (s.configuration.ObjectsPerPage_ - 1) * s.dataSize :=
      Nat.mul_le_mul_right s.dataSize (by omega)
    generalize hg1 : j * s.dataSize = a at h1 ⊢
    generalize hg2 : (s.configuration.ObjectsPerPage_ - 1) * s.dataSize = b at h1 hlast
    omega
  have hpl_nd : ((List.range s.configuration.ObjectsPerPage_).map
      (fun j => ((pg.id, s.pageHeader + j * s.dataSize) : Ptr))).Nodup := by
    refine List.Nodup.map ?_ (List.nodup_range _)
    intro a b hab
    have h2 : s.pageHeader + a * s.dataSize = s.pageHeader + b * s.dataSize := by
      have := congrArg Prod.snd hab
      simpa using this
    have h3 : a * s.dataSize = b * s.dataSize := by omega
    exact Nat.eq_of_mul_eq_mul_right (by omega) h3
  have hpl_len : ((List.range s.configuration.ObjectsPerPage_).map
      (fun j => ((pg.id, s.pageHeader + j * s.dataSize) : Ptr))).length =
      s.configuration.ObjectsPerPage_ := by
    rw [List.length_map, List.length_range]
  have hfilter_nd : (s.FreeList_.filter
      (fun q => decide (q.1 = pg.id ∧ q.2 < s.stats.PageSize_))).Nodup :=
    hnodup.filter _
  rw [IsPageEmpty_eq_count s pg hN, decide_eq_true_eq]
  unfold countInPage
  rw [List.countP_eq_length_filter]
  constructor
  · intro hcount j hj
    have hsub : (s.FreeList_.filter
        (fun q => decide (q.1 = pg.id ∧ q.2 < s.stats.PageSize_))).toFinset ⊆
        ((List.range s.configuration.ObjectsPerPage_).map
          (fun j => ((pg.id, s.pageHeader + j * s.dataSize) : Ptr))).toFinset := by
      intro q hq
      rw [List.mem_toFinset] at hq ⊢
      rw [List.mem_filter] at hq
      obtain ⟨hqfl, hqp⟩ := hq
      rw [decide_eq_true_eq] at hqp
      obtain ⟨j2, hj2, hq2⟩ := hwf q hqfl
      rw [List.mem_map]
      refine ⟨j2, List.mem_range.mpr hj2, ?_⟩
      rcases q with ⟨q1, q2⟩
      simp only [Prod.mk.injEq]
      exact ⟨(hqp.1).symm, hq2.symm⟩
    have hcard1 : (s.FreeList_.filter
        (fun q => decide (q.1 = pg.id ∧ q.2 < s.stats.PageSize_))).toFinset.card =
        (s.FreeList_.filter
          (fun q => decide (q.1 = pg.id ∧ q.2 < s.stats.PageSize_))).length :=
      List.toFinset_card_of_nodup hfilter_nd
    have hcard2 : ((List.range s.configuration.ObjectsPerPage_).map
        (fun j => ((pg.id, s.pageHeader + j * s.dataSize) : Ptr))).toFinset.card =
        s.configuration.ObjectsPerPage_ := by
      rw [List.toFinset_card_of_nodup hpl_nd, hpl_len]
    have heq := Finset.eq_of_subset_of_card_le hsub (by omega)
    have hmem : ((pg.id, s.pageHeader + j * s.dataSize) : Ptr) ∈
        ((List.range s.configuration.ObjectsPerPage_).map
          (fun j => ((pg.id, s.pageHeader + j * s.dataSize) : Ptr))).toFinset := by
      rw [List.mem_toFinset, List.mem_map]
      exact ⟨j, List.mem_range.mpr hj, rfl⟩
    rw [← heq, List.mem_toFinset, List.mem_filter] at hmem
    exact hmem.1
  · intro hall
    have hsub : ((List.range s.configuration.ObjectsPerPage_).map
        (fun j => ((pg.id, s.pageHeader + j * s.dataSize) : Ptr))).toFinset ⊆
        (s.FreeList_.filter
          (fun q => decide (q.1 = pg.id ∧ q.2 < s.stats.PageSize_))).toFinset := by
      intro q hq
      rw [List.mem_toFinset] at hq ⊢
      rw [List.mem_map] at hq
      obtain ⟨j, hj, rfl⟩ := hq
      rw [List.mem_filter]
      have hjlt := List.mem_range.mp hj
      refine ⟨hall j hjlt, ?_⟩
      rw [decide_eq_true_eq]
      exact ⟨rfl, hplt j hjlt⟩
    have hcard1 : ((List.range s.configuration.ObjectsPerPage_).map
        (fun j => ((pg.id, s.pageHeader + j * s.dataSize) : Ptr))).toFinset.card =
        s.configuration.ObjectsPerPage_ := by
      rw [List.toFinset_card_of_nodup hpl_nd, hpl_len]
    have hcard2 := Finset.card_le_card hsub
    have hcard3 : (s.FreeList_.filter
        (fun q => decide (q.1 = pg.id ∧ q.2 < s.stats.PageSize_))).toFinset.card =
        (s.FreeList_.filter
          (fun q => decide (q.1 = pg.id ∧ q.2 < s.stats.PageSize_))).length :=
      List.toFinset_card_of_nodup hfilter_nd
    omega

def cfgC8 : OAConfig := testCfg false 2 2 false 0 (HeaderBlockInfo.mk4 .hbNone 0) 0

def stC8 : OAState := exState (construct 8 cfgC8 true)

/-- C8: `FreeEmptyPages` returns the number of pages it released, where a
page is released iff it is empty, i.e. (for a well-formed allocator
state: distinct page ids, free-list nodes at payload addresses, no
duplicate free-list nodes) iff all `ObjectsPerPage_` payload addresses
belonging to it are on the free list; every free-list node lying inside
a released page is unlinked, `FreeObjects_` is decremented once per
removed node, the released pages are unlinked from the page list, and
`PagesInUse_` is decremented once per released page. -/
theorem C8_free_empty_pages (s : OAState)
    (hN : 1 ≤ s.configuration.ObjectsPerPage_)
    (hD : 1 ≤ s.dataSize)
    (hlast : s.pageHeader + (s.configuration.ObjectsPerPage_ - 1) * s.dataSize <
      s.stats.PageSize_)
    (hnd : (s.PageList_.map Page.id).Nodup)
    (hwf : ∀ q ∈ s.FreeList_, ∃ j < s.configuration.ObjectsPerPage_,
        q.2 = s.pageHeader + j * s.dataSize)
    (hnodup : s.FreeList_.Nodup) :
    (FreeEmptyPages s).1 = s.PageList_.countP (fun pg => IsPageEmpty s pg)
    ∧ (∀ pg : Page, IsPageEmpty s pg = true ↔
        ∀ j < s.configuration.ObjectsPerPage_,
          ((pg.id, s.pageHeader + j * s.dataSize) : Ptr) ∈ s.FreeList_)
    ∧ (FreeEmptyPages s).2.PageList_ =
        s.PageList_.filter (fun pg => !IsPageEmpty s pg)
    ∧ (FreeEmptyPages s).2.FreeList_ =
        s.FreeList_.filter (fun q => !inEmptyPage s s.PageList_ q)
    ∧ (FreeEmptyPages s).2.stats.FreeObjects_ =
        dec32^[s.FreeList_.length - (FreeEmptyPages s).2.FreeList_.length]
          s.stats.FreeObjects_
    ∧ (FreeEmptyPages s).2.stats.PagesInUse_ =
        dec32^[s.PageList_.countP (fun pg => IsPageEmpty s pg)]
          s.stats.PagesInUse_ := by
  obtain ⟨c1, c2, c3, c4, c5, _⟩ := FreeEmptyPages_char s hN hnd
  exact ⟨c1, fun pg => IsPageEmpty_iff_payloads s pg hN hD hlast hwf hnodup,
    c2, c3, c4, c5⟩

theorem C8_free_empty_pages_witness :
    (1 ≤ stC8.configuration.ObjectsPerPage_
     ∧ 1 ≤ stC8.dataSize
     ∧ stC8.pageHeader + (stC8.configuration.ObjectsPerPage_ - 1) * stC8.dataSize <
         stC8.stats.PageSize_
     ∧ (stC8.PageList_.map Page.id).Nodup
     ∧ (∀ q ∈ stC8.FreeList_, ∃ j < stC8.configuration.ObjectsPerPage_,
         q.2 = stC8.pageHeader + j * stC8.dataSize)
     ∧ stC8.FreeList_.Nodup)
    ∧ (FreeEmptyPages stC8).1 =
        stC8.PageList_.countP (fun pg => IsPageEmpty stC8 pg)
    ∧ (FreeEmptyPages stC8).1 = 1 :=
  ⟨⟨by decide, by decide, by decide, by decide, by decide, by decide⟩,
   (C8_free_empty_pages stC8 (by decide) (by decide) (by decide) (by decide)
     (by decide) (by decide)).1,
   by decide⟩

theorem AddToFreeList_configuration (s : OAState) (obj : Ptr) :
    (AddToFreeList s obj).configuration = s.configuration := rfl

theorem initBlocks_stop (s : OAState) (pid offset fuel : Nat)
    (h : s.stats.PageSize_ ≤ offset) : initBlocks s pid offset fuel = s := by
  cases fuel with
  | zero => rfl
  | succ f =>
    simp only [initBlocks]
    rw [if_neg (by omega)]

theorem pushedPtrs_head (pid PH D N : Nat) (hN : 1 ≤ N) :
    ∃ rest, pushedPtrs pid PH D 0 N = ((pid, PH + D * (N - 1)) : Ptr) :: rest := by
  unfold pushedPtrs
  have hr : N - 0 = (N - 1) + 1 := by omega
  rw [hr, List.range_succ, List.map_append, List.reverse_append]
  refine ⟨((List.range (N - 1)).map fun t => ((pid, PH + D * (0 + t)) : Ptr)).reverse, ?_⟩
  simp

/-- The bytes the block-initialisation loop leaves around the LAST block
of the page (the one `Allocate` pops first, at offset
`PH + D * (N - 1)`): under debug both its pads carry `PAD_PATTERN`, and
every byte at or past `PageSize_` that also lies past the block's
intrusive pointer is untouched. -/
theorem initBlocks_mem_last (N PH D S P H : Nat) (hN : 1 ≤ N) (hS : 0 < S)
    (hD2 : S + 2 * P + H ≤ D) (hPH : P + H + PTR_SIZE ≤ PH) :
    ∀ fuel j s pid, j ≤ N - 1 → N - j < fuel →
    s.configuration.DebugOn_ = true →
    s.dataSize = D → s.stats.PageSize_ = PH + D * (N - 1) + S + P →
    s.configuration.PadBytes_ = P → s.configuration.HBlockInfo_.size_ = H →
    s.stats.ObjectSize_ = S →
    (s.PageList_.find? (fun pg => pg.id == pid)).isSome = true →
    (∀ i, i < P →
      pageMem (initBlocks s pid (PH + D * j) fuel).PageList_ pid
        (PH + D * (N - 1) - P + i) = PAD_PATTERN)
    ∧ (∀ i, i < P →
      pageMem (initBlocks s pid (PH + D * j) fuel).PageList_ pid
        (PH + D * (N - 1) + S + i) = PAD_PATTERN)
    ∧ (∀ x, PH + D * (N - 1) + S + P ≤ x → PH + D * (N - 1) + PTR_SIZE ≤ x →
      pageMem (initBlocks s pid (PH + D * j) fuel).PageList_ pid x =
        pageMem s.PageList_ pid x) := by
  intro fuel
  induction fuel with
  | zero =>
    intro j s pid hj hfuel
    exact absurd hfuel (by omega)
  | succ fuel ih =>
    intro j s pid hj hfuel hdbg hDs hPS hP hH hS0 hfound
    by_cases hend : j = N - 1
    · subst hend
      have hfM : ((updatePage s.PageList_ pid (fun m =>
          setRange m (PH + D * (N - 1) - s.configuration.PadBytes_ -
            s.configuration.HBlockInfo_.size_) s.configuration.HBlockInfo_.size_ 0)).find?
          (fun pg => pg.id == pid)).isSome = true := by
        rw [find?_isSome_updatePage]
        exact hfound
      have hfO : ((updatePage (updatePage s.PageList_ pid (fun m =>
          setRange m (PH + D * (N - 1) - s.configuration.PadBytes_ -
            s.configuration.HBlockInfo_.size_) s.configuration.HBlockInfo_.size_ 0)) pid
          (fun m => setRange m (PH + D * (N - 1)) PTR_SIZE PTR_BYTE)).find?
          (fun pg => pg.id == pid)).isSome = true := by
        rw [find?_isSome_updatePage, find?_isSome_updatePage]
        exact hfound
      have hmem : pageMem (initBlocks s pid (PH + D * (N - 1)) (Nat.succ fuel)).PageList_
          pid = setRange (setRange (setRange (setRange (setRange
            (pageMem s.PageList_ pid)
            (PH + D * (N - 1) - s.configuration.PadBytes_ -
              s.configuration.HBlockInfo_.size_) s.configuration.HBlockInfo_.size_ 0)
            (PH + D * (N - 1)) PTR_SIZE PTR_BYTE)
            (PH + D * (N - 1) + PTR_SIZE) (s.stats.ObjectSize_ - PTR_SIZE)
              UNALLOCATED_PATTERN)
            (PH + D * (N - 1) - s.configuration.PadBytes_) s.configuration.PadBytes_
              PAD_PATTERN)
            (PH + D * (N - 1) + s.stats.ObjectSize_) s.configuration.PadBytes_
              PAD_PATTERN := by
        simp only [initBlocks]
        rw [if_pos (by
          rw [hPS]
          generalize D * (N - 1) = K
          omega)]
        rw [show PH + D * (N - 1) + s.dataSize = PH + D * (N - 1) + D from by rw [hDs]]
        rw [initBlocks_stop]
        rw [setPL_PageList, AddToFreeList_configuration, setPL_configuration, hdbg,
          if_pos rfl, AddToFreeList_PageList,
          show ((pid, PH + D * (N - 1)) : Ptr).1 = pid from rfl,
          show ((pid, PH + D * (N - 1)) : Ptr).2 = PH + D * (N - 1) from rfl,
          setPL_PageList]
        rw [pageMem_updatePage_fun _ _ _ hfO, pageMem_updatePage_fun _ _ _ hfM,
          pageMem_updatePage_fun _ _ _ hfound]
        case h =>
          show s.stats.PageSize_ ≤ PH + D * (N - 1) + D
          rw [hPS]
          have hD2' := hD2
          generalize D * (N - 1) = K
          omega
      refine ⟨?_, ?_, ?_⟩
      · intro i hi
        rw [hmem]
        generalize hK : D * (N - 1) = K
        simp (disch := omega) only [setRange_in, setRange_out]
      · intro i hi
        rw [hmem]
        generalize hK : D * (N - 1) = K
        simp (disch := omega) only [setRange_in, setRange_out]
      · intro x hx1 hx2
        rw [hmem]
        revert hx1 hx2
        generalize hK : D * (N - 1) = K
        intro hx1 hx2
        simp (disch := omega) only [setRange_out]
    · have hjlt : j < N - 1 := by omega
      have hmul : D * j ≤ D * (N - 1) := Nat.mul_le_mul_left D (by omega)
      simp only [initBlocks]
      rw [if_pos (by
        rw [hPS]
        revert hmul
        generalize hg1 : D * j = K1
        generalize hg2 : D * (N - 1) = K2
        intro hmul
        omega)]
      rw [show PH + D * j + s.dataSize = PH + D * (j + 1) from by rw [hDs]; ring]
      refine ⟨?_, ?_, ?_⟩
      · intro i hi
        refine (ih (j + 1) _ pid (by omega) (by omega) ?_ ?_ ?_ ?_ ?_ ?_ ?_).1 i hi
        · exact hdbg
        · exact hDs
        · exact hPS
        · exact hP
        · exact hH
        · exact hS0
        · rw [setPL_PageList, AddToFreeList_configuration, setPL_configuration, hdbg,
            if_pos rfl, find?_isSome_updatePage, AddToFreeList_PageList,
            find?_isSome_updatePage, setPL_PageList, find?_isSome_updatePage]
          exact hfound
      · intro i hi
        refine (ih (j + 1) _ pid (by omega) (by omega) ?_ ?_ ?_ ?_ ?_ ?_ ?_).2.1 i hi
        · exact hdbg
        · exact hDs
        · exact hPS
        · exact hP
        · exact hH
        · exact hS0
        · rw [setPL_PageList, AddToFreeList_configuration, setPL_configuration, hdbg,
            if_pos rfl, find?_isSome_updatePage, AddToFreeList_PageList,
            find?_isSome_updatePage, setPL_PageList, find?_isSome_updatePage]
          exact hfound
      · intro x hx1 hx2
        refine ((ih (j + 1) _ pid (by omega) (by omega) ?_ ?_ ?_ ?_ ?_ ?_ ?_).2.2
          x hx1 hx2).trans ?_
        · exact hdbg
        · exact hDs
        · exact hPS
        · exact hP
        · exact hH
        · exact hS0
        · rw [setPL_PageList, AddToFreeList_configuration, setPL_configuration, hdbg,
            if_pos rfl, find?_isSome_updatePage, AddToFreeList_PageList,
            find?_isSome_updatePage, setPL_PageList, find?_isSome_updatePage]
          exact hfound
        · have hfM : ((updatePage s.PageList_ pid (fun m =>
              setRange m (PH + D * j - s.configuration.PadBytes_ -
                s.configuration.HBlockInfo_.size_) s.configuration.HBlockInfo_.size_
                0)).find? (fun pg => pg.id == pid)).isSome = true := by
            rw [find?_isSome_updatePage]
            exact hfound
          have hfO : ((updatePage (updatePage s.PageList_ pid (fun m =>
              setRange m (PH + D * j - s.configuration.PadBytes_ -
                s.configuration.HBlockInfo_.size_) s.configuration.HBlockInfo_.size_
                0)) pid
              (fun m => setRange m (PH + D * j) PTR_SIZE PTR_BYTE)).find?
              (fun pg => pg.id == pid)).isSome = true := by
            rw [find?_isSome_updatePage, find?_isSome_updatePage]
            exact hfound
          rw [setPL_PageList, AddToFreeList_configuration, setPL_configuration, hdbg,
            if_pos rfl, AddToFreeList_PageList,
            show ((pid, PH + D * j) : Ptr).1 = pid from rfl,
            show ((pid, PH + D * j) : Ptr).2 = PH + D * j from rfl,
            setPL_PageList]
          rw [pageMem_updatePage _ _ _ _ hfO, pageMem_updatePage_fun _ _ _ hfM,
            pageMem_updatePage_fun _ _ _ hfound]
          revert hmul hx1 hx2
          generalize hK1 : D * j = K1
          generalize hK2 : D * (N - 1) = K2
          intro hmul hx1 hx2
          simp (disch := omega) only [setRange_out]

theorem allocHeaderUpdate_mem_out (s : OAState) (obj : Ptr) (t : HBLOCK_TYPE) (u : Nat)
    (hhb : s.configuration.HBlockInfo_ = HeaderBlockInfo.mk4 t u)
    (hfound : (s.PageList_.find? (fun pg => pg.id == obj.1)).isSome = true)
    (hoff : s.configuration.HBlockInfo_.size_ + s.configuration.PadBytes_ ≤ obj.2)
    (x : Nat) (hx : obj.2 - s.configuration.PadBytes_ ≤ x) :
    pageMem (allocHeaderUpdate s obj).PageList_ obj.1 x =
      pageMem s.PageList_ obj.1 x := by
  have hty : s.configuration.HBlockInfo_.type_ = t := by
    rw [hhb]
    cases t <;> rfl
  have hp8 : PTR_SIZE = 8 := rfl
  have hb5 : BASIC_HEADER_SIZE = 5 := rfl
  cases t with
  | hbNone =>
    unfold allocHeaderUpdate
    rw [hty]
  | hbBasic =>
    have hH : s.configuration.HBlockInfo_.size_ = BASIC_HEADER_SIZE := by
      rw [hhb]
      rfl
    unfold allocHeaderUpdate
    rw [hty, setPL_PageList, pageMem_updatePage _ _ _ _ hfound]
    simp (disch := omega) only [setByte_ne, writeU32LE_out]
  | hbExtended =>
    have hH : s.configuration.HBlockInfo_.size_ = u + 2 + BASIC_HEADER_SIZE := by
      rw [hhb]
      rfl
    have hAdd : s.configuration.HBlockInfo_.additional_ = u := by
      rw [hhb]
      rfl
    unfold allocHeaderUpdate
    rw [hty, setPL_PageList, pageMem_updatePage _ _ _ _ hfound]
    simp (disch := omega) only [setByte_ne, writeU32LE_out]
  | hbExternal =>
    have hH : s.configuration.HBlockInfo_.size_ = PTR_SIZE := by
      rw [hhb]
      rfl
    unfold allocHeaderUpdate
    rw [hty, setPL_PageList, pageMem_updatePage _ _ _ _ hfound]
    simp (disch := omega) only [setRange_out]

/-- The memory a successful debug-mode construction leaves around the
LAST block of the starting page (the free-list head that the first
`Allocate` pops): both pads carry `PAD_PATTERN`, and every byte at or
past `PageSize_` that is also past the block's intrusive pointer is 0
(the raw page is only as long as `PageSize_`). -/
theorem construct_mem_last (S0 : Nat) (cfg : OAConfig) (s1 : OAState)
    (hok : construct S0 cfg true = Except.ok s1)
    (hdbgv : cfg.DebugOn_ = true)
    (hMP : 0 < cfg.MaxPages_) (hN1 : 1 ≤ cfg.ObjectsPerPage_)
    (hN2 : cfg.ObjectsPerPage_ < M32) (hS : 0 < S0) :
    (∀ i, i < cfg.PadBytes_ →
      pageMem s1.PageList_ 0
        (s1.pageHeader + s1.dataSize * (cfg.ObjectsPerPage_ - 1) - cfg.PadBytes_ + i) =
        PAD_PATTERN)
    ∧ (∀ i, i < cfg.PadBytes_ →
      pageMem s1.PageList_ 0
        (s1.pageHeader + s1.dataSize * (cfg.ObjectsPerPage_ - 1) + S0 + i) =
        PAD_PATTERN)
    ∧ (∀ x,
        s1.pageHeader + s1.dataSize * (cfg.ObjectsPerPage_ - 1) + S0 + cfg.PadBytes_ ≤ x →
        s1.pageHeader + s1.dataSize * (cfg.ObjectsPerPage_ - 1) + PTR_SIZE ≤ x →
        pageMem s1.PageList_ 0 x = 0) := by
  obtain ⟨s1', h1, h2, h3, h4, h5, h6, h7, h8, h9, h10, h11, h12, h13, h14, h15,
    h16, h17, h18, h19, h20, h21, h22, h23⟩ := construct_char S0 cfg hMP hN1 hN2 hS
  have hs : s1' = s1 := by
    rw [hok] at h1
    exact (Except.ok.inj h1).symm
  subst hs
  have hp8 : PTR_SIZE = 8 := rfl
  have hge1 := align_ge (PTR_SIZE + cfg.HBlockInfo_.size_ + cfg.PadBytes_) cfg.Alignment_
  have hge2 := align_ge (S0 + cfg.PadBytes_ * 2 + cfg.HBlockInfo_.size_) cfg.Alignment_
  have hinv := construct_ok_inv S0 cfg s1' h1
  have hstat : StaticEq s1' (newPageState (constructPre S0 cfg)) := by
    rw [hinv]
    exact initBlocks_static _ _ _ _
  obtain ⟨sc, sph, sds, stds, snpi, sos, sps, spiu, soiu, sall, sdeall, smost⟩ := hstat
  have hD2 : S0 + 2 * cfg.PadBytes_ + cfg.HBlockInfo_.size_ ≤ s1'.dataSize := by
    rw [h3]
    omega
  have hPH2 : cfg.PadBytes_ + cfg.HBlockInfo_.size_ + PTR_SIZE ≤ s1'.pageHeader := by
    rw [h2]
    omega
  obtain ⟨mpadL, mpadR, mbeyond⟩ := initBlocks_mem_last cfg.ObjectsPerPage_
    s1'.pageHeader s1'.dataSize S0 cfg.PadBytes_ cfg.HBlockInfo_.size_ hN1 hS hD2 hPH2
    ((constructPre S0 cfg).configuration.ObjectsPerPage_ + 1) 0
    (newPageState (constructPre S0 cfg)) (constructPre S0 cfg).nextPageId
    (by omega)
    (by
      show cfg.ObjectsPerPage_ - 0 < cfg.ObjectsPerPage_ + 1
      omega)
    (by exact hdbgv)
    sds.symm
    (by rw [← sps, h5])
    rfl
    rfl
    rfl
    (by
      show ((List.find? (fun pg => pg.id == (constructPre S0 cfg).nextPageId)
        ((⟨(constructPre S0 cfg).nextPageId, freshPageMem (constructPre S0 cfg)⟩ : Page) ::
          (constructPre S0 cfg).PageList_))).isSome = true
      simp [List.find?])
  have e1 : (newPageState (constructPre S0 cfg)).pageHeader =
      (constructPre S0 cfg).pageHeader := rfl
  have hoff0 : s1'.pageHeader + s1'.dataSize * 0 = (constructPre S0 cfg).pageHeader := by
    rw [sph, e1]
    omega
  rw [hoff0, ← hinv] at mpadL mpadR mbeyond
  have hnpi : (constructPre S0 cfg).nextPageId = 0 := rfl
  rw [hnpi] at mpadL mpadR mbeyond
  refine ⟨mpadL, mpadR, ?_⟩
  intro x hx1 hx2
  rw [mbeyond x hx1 hx2]
  have h8x : PTR_SIZE ≤ x := by
    revert hx2
    generalize s1'.dataSize * (cfg.ObjectsPerPage_ - 1) = K
    intro hx2
    omega
  have hPSx : s1'.stats.PageSize_ ≤ x := by
    rw [h5]
    revert hx1
    generalize s1'.dataSize * (cfg.ObjectsPerPage_ - 1) = K
    intro hx1
    omega
  have hPSpre : (constructPre S0 cfg).stats.PageSize_ = s1'.stats.PageSize_ := sps.symm
  show pageMem [(⟨0, freshPageMem (constructPre S0 cfg)⟩ : Page)] 0 x = 0
  rw [pageMem_singleton]
  unfold freshPageMem
  simp (disch := omega) only [setRange_out]
  rw [if_neg (by omega)]

/-- After the pop+paint of `Allocate`, every byte at or past the left
pad of the popped block differs from the pre-`Allocate` memory only by
the debug `ALLOCATED_PATTERN` paint of the payload (the header writes
all land before the left pad). -/
theorem allocFromFree_mem_out (s : OAState) (obj : Ptr) (rest : List Ptr)
    (t : HBLOCK_TYPE) (u : Nat)
    (hhb : s.configuration.HBlockInfo_ = HeaderBlockInfo.mk4 t u)
    (hfound : (s.PageList_.find? (fun pg => pg.id == obj.1)).isSome = true)
    (hoff : s.configuration.HBlockInfo_.size_ + s.configuration.PadBytes_ ≤ obj.2)
    (hdbg : s.configuration.DebugOn_ = true)
    (x : Nat) (hx : obj.2 - s.configuration.PadBytes_ ≤ x) :
    pageMem (allocFromFree s obj rest).PageList_ obj.1 x =
      setRange (pageMem s.PageList_ obj.1) obj.2 s.stats.ObjectSize_
        ALLOCATED_PATTERN x := by
  unfold allocFromFree
  rw [allocHeaderUpdate_mem_out _ _ t u]
  · rw [setFPS_PageList, if_pos hdbg, pageMem_updatePage _ _ _ _ hfound]
  · rw [setFPS_configuration]
    exact hhb
  · rw [setFPS_PageList, if_pos hdbg, find?_isSome_updatePage]
    exact hfound
  · rw [setFPS_configuration]
    exact hoff
  · rw [setFPS_configuration]
    exact hx

theorem freeInner_none_of_checks (s0 : OAState) (obj : Ptr)
    (hpass : s0.configuration.UseCPPMemManager_ = false)
    (hB : CheckPageBoundary s0 obj = true)
    (hP : CheckPadding s0 obj = true)
    (hM : (pageMem s0.PageList_ obj.1 (obj.2 + PTR_SIZE) == FREED_PATTERN) = false) :
    (freeInner s0 obj).1 = none := by
  unfold freeInner
  rw [if_neg (by simp [hpass]), if_neg (by simp [hB]), if_neg (by simp [hP]),
    if_neg (by simp [hM])]


theorem CheckPageBoundary_setStats (s : OAState) (st : OAStats) (obj : Ptr)
    (hps : st.PageSize_ = s.stats.PageSize_) :
    CheckPageBoundary { s with stats := st } obj = CheckPageBoundary s obj := by
  unfold CheckPageBoundary
  rw [setStats_PageList, setStats_stats, hps]

theorem CheckPadding_setStats (s : OAState) (st : OAStats) (obj : Ptr)
    (hos : st.ObjectSize_ = s.stats.ObjectSize_) :
    CheckPadding { s with stats := st } obj = CheckPadding s obj := by
  simp only [CheckPadding]
  rw [setStats_PageList, setStats_configuration, setStats_stats, hos]

/-- `Free` returns normally whenever the boundary, pad and double-free
checks hold for the block (the entry-time statistics update changes
neither the page list nor the geometry the checks read). -/
theorem Free_none_of_checks (s : OAState) (obj : Ptr)
    (hpass : s.configuration.UseCPPMemManager_ = false)
    (hB : CheckPageBoundary s obj = true)
    (hP : CheckPadding s obj = true)
    (hM : (pageMem s.PageList_ obj.1 (obj.2 + PTR_SIZE) == FREED_PATTERN) = false) :
    (Free s obj).1 = none := by
  show (freeInner { s with stats := { s.stats with
      Deallocations_ := inc32 s.stats.Deallocations_
      ObjectsInUse_ := dec32 s.stats.ObjectsInUse_ } } obj).1 = none
  apply freeInner_none_of_checks
  · rw [setStats_configuration]
    exact hpass
  · rw [CheckPageBoundary_setStats _ _ _ (stDO_PageSize _ _ _)]
    exact hB
  · rw [CheckPadding_setStats _ _ _ (stDO_ObjectSize _ _ _)]
    exact hP
  · rw [setStats_PageList]
    exact hM

/-- C7: in a fresh non-passthrough allocator (either debug mode, any
consistently-built header flavor), `p1 = Allocate(); Free(p1);
p2 = Allocate()` yields `p2 = p1`: the free list is LIFO.  Under debug
the first `Free`'s boundary, pad and double-free checks all pass on the
freshly allocated block. -/
theorem C7_lifo_reuse (S0 : Nat) (cfg : OAConfig) (s0 : OAState) (t : HBLOCK_TYPE)
    (u : Nat)
    (hok : construct S0 cfg true = Except.ok s0)
    (hpass : cfg.UseCPPMemManager_ = false)
    (hhb : cfg.HBlockInfo_ = HeaderBlockInfo.mk4 t u)
    (hMP : 0 < cfg.MaxPages_) (hN1 : 1 ≤ cfg.ObjectsPerPage_)
    (hN2 : cfg.ObjectsPerPage_ < M32) (hS : 0 < S0) :
    ∃ p1 s1,
      Allocate s0 true = (Except.ok p1, s1)
      ∧ (Free s1 p1).1 = none
      ∧ (Allocate (Free s1 p1).2 true).1 = Except.ok p1 := by
  obtain ⟨s1', h1, h2, h3, h4, h5, h6, h7, h8, h9, h10, h11, h12, h13, h14, h15,
    h16, h17, h18, h19, h20, h21, h22, h23⟩ := construct_char S0 cfg hMP hN1 hN2 hS
  have hs : s1' = s0 := by
    rw [hok] at h1
    exact (Except.ok.inj h1).symm
  subst hs
  obtain ⟨o, ho⟩ : ∃ v, v = s1'.pageHeader + s1'.dataSize * (cfg.ObjectsPerPage_ - 1) :=
    ⟨_, rfl⟩
  obtain ⟨rest, hfl0⟩ := pushedPtrs_head 0 s1'.pageHeader s1'.dataSize
    cfg.ObjectsPerPage_ hN1
  have hfl : s1'.FreeList_ = ((0, o) : Ptr) :: rest := by
    rw [h21, hfl0, ← ho]
  have hpass0 : s1'.configuration.UseCPPMemManager_ = false := by rw [h8, hpass]
  have hA1 := Allocate_pop s1' ((0, o) : Ptr) rest true hpass0 hfl
  obtain ⟨a1, a2, a3, a4, a5, a6, a7⟩ := allocFromFree_fields s1' ((0, o) : Ptr) rest
  have hpass1 : (allocFromFree s1' ((0, o) : Ptr) rest).configuration.UseCPPMemManager_ =
      false := by
    rw [a3]
    exact hpass0
  have hFnone : (Free (allocFromFree s1' ((0, o) : Ptr) rest) ((0, o) : Ptr)).1 =
      none := by
    by_cases hdbgv : cfg.DebugOn_ = true
    · obtain ⟨padL, padR, beyond⟩ := construct_mem_last S0 cfg s1' h1 hdbgv hMP hN1 hN2 hS
      rw [← ho] at padL padR beyond
      have hp8 : PTR_SIZE = 8 := rfl
      have hge1 := align_ge (PTR_SIZE + cfg.HBlockInfo_.size_ + cfg.PadBytes_)
        cfg.Alignment_
      have hPH2 : cfg.PadBytes_ + cfg.HBlockInfo_.size_ + PTR_SIZE ≤ s1'.pageHeader := by
        rw [h2]
        omega
      have hole : s1'.pageHeader ≤ o := by
        rw [ho]
        generalize s1'.dataSize * (cfg.ObjectsPerPage_ - 1) = K
        omega
      have hdbg0 : s1'.configuration.DebugOn_ = true := by
        rw [h11]
        exact hdbgv
      have hfound0 : (s1'.PageList_.find? (fun pg => pg.id == ((0, o) : Ptr).1)).isSome =
          true := by
        rw [find?_isSome_eq_any, any_id_map, h22]
        rfl
      have hhb1 : s1'.configuration.HBlockInfo_ = HeaderBlockInfo.mk4 t u := by
        rw [h13]
        exact hhb
      have hoff1 : s1'.configuration.HBlockInfo_.size_ + s1'.configuration.PadBytes_ ≤
          ((0, o) : Ptr).2 := by
        show s1'.configuration.HBlockInfo_.size_ + s1'.configuration.PadBytes_ ≤ o
        rw [h13, h12]
        omega
      have hmemA : ∀ x, o - cfg.PadBytes_ ≤ x →
          pageMem (allocFromFree s1' ((0, o) : Ptr) rest).PageList_ 0 x =
            setRange (pageMem s1'.PageList_ 0) o s1'.stats.ObjectSize_
              ALLOCATED_PATTERN x := by
        intro x hx
        have hst := allocFromFree_mem_out s1' ((0, o) : Ptr) rest t u hhb1 hfound0 hoff1
          hdbg0 x (by
            show ((0, o) : Ptr).2 - s1'.configuration.PadBytes_ ≤ x
            rw [h12]
            exact hx)
        exact hst
      have hidsA : (allocFromFree s1' ((0, o) : Ptr) rest).PageList_.map Page.id =
          [0] := by
        rw [a7, h22]
      have hplA : (allocFromFree s1' ((0, o) : Ptr) rest).PageList_ =
          [⟨0, pageMem (allocFromFree s1' ((0, o) : Ptr) rest).PageList_ 0⟩] :=
        pageList_eq_of_ids _ hidsA
      have hPSA : (allocFromFree s1' ((0, o) : Ptr) rest).stats.PageSize_ =
          s1'.stats.PageSize_ := by
        rw [a2, stIAFM_PageSize]
      have hSA : (allocFromFree s1' ((0, o) : Ptr) rest).stats.ObjectSize_ = S0 := by
        rw [a2, stIAFM_ObjectSize, h4]
      have hPA : (allocFromFree s1' ((0, o) : Ptr) rest).configuration.PadBytes_ =
          cfg.PadBytes_ := by
        rw [a3, h12]
      have holt : o < s1'.stats.PageSize_ := by
        rw [h5, ← ho]
        omega
      have hB : CheckPageBoundary (allocFromFree s1' ((0, o) : Ptr) rest)
          ((0, o) : Ptr) = true := by
        unfold CheckPageBoundary
        rw [hplA, hPSA]
        simp [holt]
      have hPad : CheckPadding (allocFromFree s1' ((0, o) : Ptr) rest)
          ((0, o) : Ptr) = true := by
        simp only [CheckPadding]
        rw [hPA, hSA]
        rw [Bool.and_eq_true]
        refine ⟨?_, ?_⟩
        · rw [List.all_eq_true]
          intro i hmem
          have hi := List.mem_range.mp hmem
          show (pageMem (allocFromFree s1' ((0, o) : Ptr) rest).PageList_ 0
            (o - cfg.PadBytes_ + i) == PAD_PATTERN) = true
          rw [hmemA (o - cfg.PadBytes_ + i) (by omega)]
          rw [setRange_out _ _ _ _ _ (Or.inl (by omega))]
          rw [padL i hi]
          decide
        · rw [List.all_eq_true]
          intro i hmem
          have hi := List.mem_range.mp hmem
          show (pageMem (allocFromFree s1' ((0, o) : Ptr) rest).PageList_ 0
            (o + S0 + i) == PAD_PATTERN) = true
          rw [hmemA (o + S0 + i) (by omega)]
          rw [setRange_out _ _ _ _ _ (Or.inr (by
            have hs4 := h4
            omega))]
          rw [padR i hi]
          decide
      have hProbe : (pageMem (allocFromFree s1' ((0, o) : Ptr) rest).PageList_
          (((0, o) : Ptr)).1 ((((0, o) : Ptr)).2 + PTR_SIZE) == FREED_PATTERN) =
          false := by
        rw [show ((0, o) : Ptr).2 = o from rfl, show ((0, o) : Ptr).1 = 0 from rfl]
        rw [hmemA (o + PTR_SIZE) (by omega)]
        by_cases hc1 : PTR_SIZE < s1'.stats.ObjectSize_
        · rw [setRange_in _ _ _ _ _ (by omega) (by omega)]
          decide
        · rw [setRange_out _ _ _ _ _ (Or.inr (by omega))]
          by_cases hc2 : PTR_SIZE < S0 + cfg.PadBytes_
          · rw [show o + PTR_SIZE = o + S0 + (PTR_SIZE - S0) from by
              have hs4 := h4
              omega]
            rw [padR (PTR_SIZE - S0) (by
              have hs4 := h4
              omega)]
            decide
          · rw [beyond (o + PTR_SIZE) (by omega) (by omega)]
            decide
      exact Free_none_of_checks _ _ hpass1 hB hPad hProbe
    · have hdbg0 : (allocFromFree s1' ((0, o) : Ptr) rest).configuration.DebugOn_ =
          false := by
        rw [a3, h11]
        revert hdbgv
        cases cfg.DebugOn_ <;> simp
      exact Free_noDebug _ _ hpass1 hdbg0
  have hFfl := Free_ok_freeList (allocFromFree s1' ((0, o) : Ptr) rest) ((0, o) : Ptr)
    hpass1 hFnone
  obtain ⟨c1, _, _, _, _⟩ := Free_ok_statics (allocFromFree s1' ((0, o) : Ptr) rest)
    ((0, o) : Ptr) hpass1 hFnone
  have hpass2 : (Free (allocFromFree s1' ((0, o) : Ptr) rest)
      ((0, o) : Ptr)).2.configuration.UseCPPMemManager_ = false := by
    rw [c1]
    exact hpass1
  have hfl2 : (Free (allocFromFree s1' ((0, o) : Ptr) rest)
      ((0, o) : Ptr)).2.FreeList_ = ((0, o) : Ptr) :: rest := by
    rw [hFfl, a1]
  have hA2 := Allocate_pop _ ((0, o) : Ptr) rest true hpass2 hfl2
  exact ⟨((0, o) : Ptr), allocFromFree s1' ((0, o) : Ptr) rest, hA1, hFnone, by rw [hA2]⟩

theorem C7_lifo_reuse_witness :
    (construct 16 cfgC7 true = Except.ok stC7
     ∧ cfgC7.UseCPPMemManager_ = false
     ∧ cfgC7.HBlockInfo_ = HeaderBlockInfo.mk4 .hbBasic 0
     ∧ cfgC7.DebugOn_ = true
     ∧ 0 < cfgC7.MaxPages_ ∧ 1 ≤ cfgC7.ObjectsPerPage_
     ∧ cfgC7.ObjectsPerPage_ < M32 ∧ 0 < 16)
    ∧ (∃ p1 s1,
        Allocate stC7 true = (Except.ok p1, s1)
        ∧ (Free s1 p1).1 = none
        ∧ (Allocate (Free s1 p1).2 true).1 = Except.ok p1) :=
  ⟨⟨by rfl, rfl, by rfl, rfl, by decide, by decide, by decide, by decide⟩,
   C7_lifo_reuse 16 cfgC7 stC7 .hbBasic 0 (by rfl) rfl (by rfl) (by decide) (by decide)
     (by decide) (by decide)⟩
